import Mathlib

/-!
# ThermalFanControllerESP: sensor validation pipeline and fan state machine

A shallow embedding of `sensor_manager.h`, `fan_controller.h`, `system_status.h`,
`system_status.cpp`, `heat_calculator.h` and the command handlers of
`web_server.h`.

Modelling conventions
* `float` values are rationals (`ℚ`): no NaN, no infinities. Arithmetic on them
  is exact, except where the result is converted to an integer: the product
  `speed * 100` of `setFanSpeed`, which is truncated to `long`, is rounded to
  the nearest `float` (`roundFloat`) before the truncation.
* `unsigned long` is 32 bits wide on the ESP32: values are `Nat`, sums and
  differences are reduced modulo `2^32`.
* `uint8_t` counters are `Nat` reduced modulo `256`.
* Every `millis()` / `localtime` read is an explicit argument of the function
  that performs it, so consecutive reads inside one call may differ.
* `Serial` output is dropped, except that the message printed by a rejecting
  check is kept as the reason of the rejection.
* Hardware calls do not throw: the `catch (...)` handlers are not entered.
* An HTTP handler is a function of the request fields it reads; of its reply
  only success or the error code is kept.
-/

namespace ThermalFan

/-! ## Machine arithmetic -/

/-- Number of values of a 32-bit `unsigned long`. -/
def ULONG_SIZE : Nat := 4294967296

/-- Difference `a - b` of two `unsigned long` values. -/
def usub (a b : Nat) : Nat := (a % ULONG_SIZE + ULONG_SIZE - b % ULONG_SIZE) % ULONG_SIZE

/-- Post-increment result of an `unsigned long`. -/
def uinc (a : Nat) : Nat := (a + 1) % ULONG_SIZE

/-- Post-increment result of a `uint8_t`. -/
def inc8 (a : Nat) : Nat := (a + 1) % 256

/-! ## Sensor validation state (`SensorManager`) -/

namespace SensorManager

def MAX_ERRORS : Nat := 3
def TEMP_HISTORY_SIZE : Nat := 5
def SLEEP_MODE_INTERVAL : Nat := 10000
def ACTIVE_MODE_INTERVAL : Nat := 2000
def NIGHT_MODE_INTERVAL : Nat := 15000
def MIN_VALID_TEMP : ℚ := -40
def MAX_VALID_TEMP : ℚ := 125
def MIN_VALID_HUM : ℚ := 0
def MAX_VALID_HUM : ℚ := 100
def MAX_TEMP_CHANGE : ℚ := 5

end SensorManager

/-- Private members of `SensorManager` together with the function-local statics
of `checkSensorValues` (`lastTemp`, `lastHum`, `sameValueCount`) and of `update`
(`lastUpdate`). -/
structure SensorState where
  errorCount : Nat
  tempHistory : Fin 5 → ℚ
  tempHistoryIndex : Fin 5
  historyInitialized : Bool
  lastTemp : ℚ
  lastHum : ℚ
  sameValueCount : Nat
  lastUpdate : Nat

/-- Member initialisers of `SensorManager` and initial values of the statics. -/
def SensorState.fresh : SensorState where
  errorCount := 0
  tempHistory := fun _ => 0
  tempHistoryIndex := 0
  historyInitialized := false
  lastTemp := -300
  lastHum := -300
  sameValueCount := 0
  lastUpdate := 0

/-- Result of `checkSensorValues`: `accepted` is `return true`, the other three
are the `return false` exits, named after the message each one prints. -/
inductive CheckOutcome where
  | accepted
  | outOfRange
  | stuck
  | spike
  deriving DecidableEq, Repr

/-- The `bool` that `checkSensorValues` returns. -/
def CheckOutcome.ok : CheckOutcome → Bool
  | .accepted => true
  | _ => false

/-- `SensorManager::updateTempHistory`. -/
def SensorState.updateTempHistory (s : SensorState) (temp : ℚ) : SensorState :=
  let hist : Fin 5 → ℚ := fun j => if j = s.tempHistoryIndex then temp else s.tempHistory j
  let idx : Fin 5 := ⟨(s.tempHistoryIndex.val + 1) % 5, Nat.mod_lt _ (by decide)⟩
  { s with
    tempHistory := hist
    tempHistoryIndex := idx
    historyInitialized := if idx.val = 0 then true else s.historyInitialized }

/-- The `avgTemp` computed by the loop of `isTemperatureSpike`. -/
def SensorState.avgTemp (s : SensorState) : ℚ :=
  ((List.finRange 5).foldl (fun acc i => acc + s.tempHistory i) 0) / 5

/-- `SensorManager::isTemperatureSpike`; `abs` is the absolute value on `float`. -/
def SensorState.isTemperatureSpike (s : SensorState) (temp : ℚ) : Bool :=
  if !s.historyInitialized then false
  else decide (|temp - s.avgTemp| > SensorManager.MAX_TEMP_CHANGE)

/-- `SensorManager::checkSensorValues`. -/
def SensorState.checkSensorValues (s : SensorState) (temperature humidity : ℚ) :
    CheckOutcome × SensorState :=
  if temperature < SensorManager.MIN_VALID_TEMP ∨ temperature > SensorManager.MAX_VALID_TEMP ∨
      humidity < SensorManager.MIN_VALID_HUM ∨ humidity > SensorManager.MAX_VALID_HUM then
    (.outOfRange, s)
  else
    let same : Bool := decide (temperature = s.lastTemp ∧ humidity = s.lastHum)
    let count : Nat := if same then inc8 s.sameValueCount else 0
    let s1 : SensorState := { s with sameValueCount := count }
    if same ∧ count ≥ 5 then
      (.stuck, s1)
    else if s1.isTemperatureSpike temperature then
      (.spike, s1)
    else
      (.accepted,
        ({ s1 with lastTemp := temperature, lastHum := humidity }).updateTempHistory temperature)

/-- State after submitting the same pair to `checkSensorValues` `n` times in a row. -/
def SensorState.submitRepeated (s : SensorState) (t h : ℚ) : Nat → SensorState
  | 0 => s
  | n + 1 => ((s.submitRepeated t h n).checkSensorValues t h).2

/-- Outcome of the `n`-th (counting from 1) consecutive submission of the same pair. -/
def SensorState.nthOutcome (s : SensorState) (t h : ℚ) (n : Nat) : CheckOutcome :=
  ((s.submitRepeated t h (n - 1)).checkSensorValues t h).1

/-- A reading inside the absolute range of the plausibility filter. -/
def InRange (t h : ℚ) : Prop :=
  SensorManager.MIN_VALID_TEMP ≤ t ∧ t ≤ SensorManager.MAX_VALID_TEMP ∧
    SensorManager.MIN_VALID_HUM ≤ h ∧ h ≤ SensorManager.MAX_VALID_HUM

instance (t h : ℚ) : Decidable (InRange t h) := by unfold InRange; infer_instance

/-- The same-value counter as `checkSensorValues` leaves it after the stuck check. -/
def SensorState.counted (s : SensorState) (t h : ℚ) : SensorState :=
  { s with sameValueCount := if t = s.lastTemp ∧ h = s.lastHum then inc8 s.sameValueCount else 0 }

/-- The state `checkSensorValues` returns together with `true`. -/
def SensorState.accept (s : SensorState) (t h : ℚ) : SensorState :=
  ({ s.counted t h with lastTemp := t, lastHum := h }).updateTempHistory t

/-- State after submitting a sequence of readings to `checkSensorValues`. -/
def SensorState.submitAll (s : SensorState) : List (ℚ × ℚ) → SensorState
  | [] => s
  | r :: rs => SensorState.submitAll (s.checkSensorValues r.1 r.2).2 rs

/-- Number of readings of a sequence that `checkSensorValues` accepts. -/
def SensorState.acceptedCount (s : SensorState) : List (ℚ × ℚ) → Nat
  | [] => 0
  | r :: rs =>
    (if (s.checkSensorValues r.1 r.2).1.ok then 1 else 0) +
      SensorState.acceptedCount (s.checkSensorValues r.1 r.2).2 rs

/-! ## Configuration (`config.h`) -/

namespace Config

def TEMP_THRESHOLD : ℚ := 25
def MAX_TEMP : ℚ := 100
def HYSTERESIS : ℚ := 2
def CHECK_DURATION : Nat := 30000

namespace Heat
def MAX_AIRFLOW : ℚ := 102.1
def AIR_SPECIFIC_HEAT : ℚ := 1.005
def AIR_DENSITY : ℚ := 1.204
def CALC_INTERVAL : Nat := 10000
def SYSTEM_EFFICIENCY : ℚ := 0.85
def MIN_TEMP_DIFF : ℚ := 0.5
end Heat

namespace PWM
def MIN_DUTY : Int := 20
def MAX_DUTY : Int := 255
end PWM

end Config

/-! ## Shared status record (`SystemStatus`) -/

/-- `SystemStatus::ErrorState`. -/
inductive ErrorState where
  | NONE
  | SENSOR_ERROR
  | WIFI_ERROR
  | FAN_ERROR
  deriving DecidableEq, Repr

/-- Values of the `String` field `autoModeStatus`. Each constructor is one of the
string expressions assigned to it in the source; numbers spliced into the text
are kept as arguments. `empty` is a default-constructed `String`. -/
inductive StatusText where
  | empty
  | systemStarted
  | checkingForActivity
  | sleepNextCheck (minutes : Nat)
  | activityDetected
  | checkingCountdown (seconds : Nat)
  | warmUp (percent : ℚ)
  | operating (percent : ℚ)
  | coolingFanOff
  | enteringSleep
  | coolingResidual
  | systemRecovered
  deriving DecidableEq, Repr

/-- Data members of `SystemStatus`. -/
structure SystemStatus where
  temperature : ℚ
  minTemperature : ℚ
  maxTemperature : ℚ
  humidity : ℚ
  autoMode : Bool
  fanOn : Bool
  manualFanSpeed : ℚ
  currentFanSpeed : ℚ
  targetFanSpeed : ℚ
  fanRPM : ℚ
  manualOverride : Bool
  autoModeStatus : StatusText
  lastSensorUpdate : Nat
  lastRPMUpdate : Nat
  lastHeatCalc : Nat
  errorState : ErrorState
  rpmErrorCount : Int
  totalOperatingTime : Nat
  fanOperatingTime : Nat
  energyUsage : ℚ
  referenceTemp : ℚ
  totalHeatEnergy : ℚ
  currentHeatPower : ℚ
  airVolumeMoved : ℚ
  heatCalcInitialized : Bool

/-- `SystemStatus::initializeSystem`; `now` is its `millis()` read. -/
def SystemStatus.initializeSystem (st : SystemStatus) (now : Nat) : SystemStatus :=
  { st with heatCalcInitialized := true, referenceTemp := st.temperature, lastHeatCalc := now }

/-- `SystemStatus::SystemStatus()`; `now` is the `millis()` read of `initializeSystem`. -/
def SystemStatus.construct (now : Nat) : SystemStatus :=
  SystemStatus.initializeSystem
    { temperature := 0
      minTemperature := 100
      maxTemperature := -40
      humidity := 0
      autoMode := true
      fanOn := false
      manualFanSpeed := 0.5
      currentFanSpeed := 0
      targetFanSpeed := 0
      fanRPM := 0
      manualOverride := false
      autoModeStatus := .systemStarted
      lastSensorUpdate := 0
      lastRPMUpdate := 0
      lastHeatCalc := 0
      errorState := .NONE
      rpmErrorCount := 0
      totalOperatingTime := 0
      fanOperatingTime := 0
      energyUsage := 0
      referenceTemp := 0
      totalHeatEnergy := 0
      currentHeatPower := 0
      airVolumeMoved := 0
      heatCalcInitialized := false } now

/-- `SystemStatus::updateMinMaxTemperature`. -/
def SystemStatus.updateMinMaxTemperature (st : SystemStatus) (newTemp : ℚ) : SystemStatus :=
  let st1 := if newTemp < st.minTemperature then { st with minTemperature := newTemp } else st
  if newTemp > st1.maxTemperature then { st1 with maxTemperature := newTemp } else st1

/-- `SystemStatus::resetMinMaxTemperature`. -/
def SystemStatus.resetMinMaxTemperature (st : SystemStatus) : SystemStatus :=
  { st with minTemperature := st.temperature, maxTemperature := st.temperature }

/-- `SystemStatus::updateOperatingStats`. -/
def SystemStatus.updateOperatingStats (st : SystemStatus) : SystemStatus :=
  let st1 := { st with totalOperatingTime := uinc st.totalOperatingTime }
  if st1.fanOn then
    { st1 with
      fanOperatingTime := uinc st1.fanOperatingTime
      energyUsage := st1.energyUsage + (1.68 * st1.currentFanSpeed) / 3600 }
  else st1

/-- `SystemStatus::setAutoMode` (the record after the call; it always returns `true`). -/
def SystemStatus.setAutoMode (st : SystemStatus) (enable : Bool) : SystemStatus :=
  let st1 := { st with autoMode := enable }
  if !enable then
    { st1 with manualFanSpeed := if st1.currentFanSpeed > 0 then st1.currentFanSpeed else 0.5 }
  else st1

/-- `SystemStatus::updateHeatCalculation`; `tInit` is the `millis()` read inside
`initializeSystem`, `tNow` the one of `unsigned long now = millis()`. -/
def SystemStatus.updateHeatCalculation (st : SystemStatus) (tInit tNow : Nat) : SystemStatus :=
  let st1 := if !st.heatCalcInitialized then st.initializeSystem tInit else st
  if !st1.fanOn then st1
  else
    let deltaTime : ℚ := (usub tNow st1.lastHeatCalc : ℚ) / 1000
    let st2 := { st1 with lastHeatCalc := tNow }
    let tempDiff := st2.temperature - st2.referenceTemp
    if tempDiff > Config.Heat.MIN_TEMP_DIFF then
      let airflow := (Config.Heat.MAX_AIRFLOW / 3600) * st2.currentFanSpeed
      let airDensity := Config.Heat.AIR_DENSITY * (293.15 / (st2.temperature + 273.15))
      let power := airDensity * airflow * Config.Heat.AIR_SPECIFIC_HEAT * tempDiff *
        Config.Heat.SYSTEM_EFFICIENCY
      { st2 with
        currentHeatPower := power
        totalHeatEnergy := st2.totalHeatEnergy + (power * deltaTime) / 3600000
        airVolumeMoved := st2.airVolumeMoved + airflow * deltaTime }
    else st2

/-! ## Fan control state machine (`FanController`) -/

namespace FanController

def TEMP_HISTORY_SIZE : Nat := 6
def SLEEP_TEMP_THRESHOLD : ℚ := 22
def TEMP_RISE_THRESHOLD : ℚ := 0.2
def MIN_SPEED : ℚ := 0.2
def MAX_ERRORS : Int := 3

end FanController

/-- Private data members of `FanController` (the LEDC configuration records are
write-only and left out). -/
structure FanState where
  lastTemperature : ℚ
  lastTempUpdate : Nat
  lastCheckTime : Nat
  inSleepMode : Bool
  errorCount : Int
  tempHistory : Fin 6 → ℚ
  tempHistoryIndex : Fin 6

/-- What the fan hardware was last told: the level of the MOSFET pin and the
duty written with `ledc_set_duty`. -/
structure Hardware where
  mosfet : Bool
  duty : Nat

/-- A `FanController` object: the status record it references, its own members,
and the hardware it drives. -/
structure Controller where
  status : SystemStatus
  fan : FanState
  hw : Hardware

/-- `FanController::getCheckInterval`; `hour` is `timeinfo->tm_hour`. -/
def getCheckInterval (hour : Nat) : Nat :=
  if hour ≥ 22 ∨ hour < 6 then 30 * 60000
  else if hour ≥ 17 ∧ hour < 22 then 3 * 60000
  else 5 * 60000

/-- Member initialisers of `FanController` and the constructor body: `now` and
`hour` are the reads of `millis()` and of the wall clock. -/
def FanState.construct (now hour : Nat) : FanState where
  lastTemperature := 0
  lastTempUpdate := 0
  lastCheckTime := usub now (getCheckInterval hour)
  inSleepMode := true
  errorCount := 0
  tempHistory := fun _ => 0
  tempHistoryIndex := 0

/-- Array cell addressed by a non-negative index expression reduced `% TEMP_HISTORY_SIZE`. -/
def cell6 (n : Nat) : Fin 6 := ⟨n % 6, Nat.mod_lt _ (by decide)⟩

/-- `FanController::updateTempHistory`. -/
def FanState.updateTempHistory (f : FanState) (temp : ℚ) : FanState :=
  { f with
    tempHistory := fun j => if j = f.tempHistoryIndex then temp else f.tempHistory j
    tempHistoryIndex := cell6 (f.tempHistoryIndex.val + 1) }

/-- `FanController::getTempTrend`. The index expressions `tempHistoryIndex - i - 1 + 6`
and `tempHistoryIndex - i + 6` are non-negative for `1 ≤ i ≤ 5`, so they are
computed in `Nat` with the addition first. -/
def FanState.getTempTrend (f : FanState) : ℚ :=
  ((List.range' 1 5).foldl
    (fun sum i =>
      let prev := cell6 (f.tempHistoryIndex.val + 6 - i - 1)
      let curr := cell6 (f.tempHistoryIndex.val + 6 - i)
      sum + (f.tempHistory curr - f.tempHistory prev)) 0) / 5

/-- `FanController::clearErrors`. -/
def Controller.clearErrors (c : Controller) : Controller :=
  if c.fan.errorCount > 0 then
    { c with
      fan := { c.fan with errorCount := 0 }
      status := { c.status with autoModeStatus := .systemRecovered } }
  else c

/-- Arduino `constrain(amt, low, high)`. -/
def constrain (amt low high : ℚ) : ℚ :=
  if amt < low then low else if amt > high then high else amt

/-- Arduino `map(x, in_min, in_max, out_min, out_max)` on `long` arguments. -/
def map (x in_min in_max out_min out_max : Int) : Int :=
  let run := in_max - in_min
  if run = 0 then -1
  else
    let rise := out_max - out_min
    let delta := x - in_min
    Int.tdiv (delta * rise) run + out_min

/-- Conversion of a `float` to `long` (truncation toward zero). -/
def toLong (x : ℚ) : Int := if x < 0 then -Rat.floor (-x) else Rat.floor x

/-- Round to the nearest integer, ties to the even one. -/
def roundTiesEven (x : ℚ) : Int :=
  let f := Rat.floor x
  let r := x - f
  if r < 1 / 2 then f
  else if 1 / 2 < r then f + 1
  else if f % 2 = 0 then f else f + 1

/-- The binary exponent of the `float` format at the positive real `x`:
`⌊log₂ x⌋`, but not below -126 (the subnormal range). -/
def floatExponent (x : ℚ) : Int := max (Int.log 2 x) (-126)

/-- The `float` (IEEE-754 binary32, 24-bit significand, round to nearest, ties
to even) nearest to the real `x`; magnitudes beyond the largest `float` are not
modelled. -/
def roundFloat (x : ℚ) : ℚ :=
  let ulp : ℚ := 2 ^ (floatExponent |x| - 23)
  (roundTiesEven (x / ulp) : ℚ) * ulp

/-- `FanController::setFanSpeed`. The argument `speed * 100` of `map` is the
`float` product, converted to `long` by truncation. -/
def Controller.setFanSpeed (c : Controller) (speed : ℚ) : Controller :=
  let speed := constrain speed 0 1
  let duty :=
    map (toLong (roundFloat (speed * 100))) 0 100 Config.PWM.MIN_DUTY Config.PWM.MAX_DUTY
  Controller.clearErrors
    { c with
      hw := { c.hw with duty := (duty % (ULONG_SIZE : Int)).toNat }
      status := { c.status with currentFanSpeed := speed } }

/-- `FanController::toggleFan`. -/
def Controller.toggleFan (c : Controller) (turnOn : Bool) : Controller :=
  let c1 : Controller :=
    { c with hw := { c.hw with mosfet := turnOn }, status := { c.status with fanOn := turnOn } }
  let c2 := if !turnOn then c1.setFanSpeed 0 else c1
  c2.clearErrors

/-- `FanController::shouldActivateCheck`; `now` is its `millis()` read and `hour`
the wall-clock hour read by `getCheckInterval`. -/
def Controller.shouldActivateCheck (c : Controller) (now hour : Nat) : Bool × Controller :=
  if !c.fan.inSleepMode then (true, c)
  else
    let checkInterval := getCheckInterval hour
    if usub now c.fan.lastCheckTime ≥ checkInterval then
      (true,
        { c with
          fan := { c.fan with lastCheckTime := now % ULONG_SIZE }
          status := { c.status with autoModeStatus := .checkingForActivity } })
    else if usub now c.fan.lastCheckTime < Config.CHECK_DURATION then (true, c)
    else
      (false,
        { c with
          status := { c.status with
            autoModeStatus :=
              .sleepNextCheck (usub checkInterval (usub now c.fan.lastCheckTime) / 60000) } })

/-- The clock reads of one call of `calculateTargetSpeed`, in program order. -/
structure FanClock where
  /-- The `millis()` of `timeDiff = millis() - lastTempUpdate`. -/
  tRate : Nat
  /-- The `millis()` inside `shouldActivateCheck`. -/
  tCheck : Nat
  /-- The hour read by `getCheckInterval` inside `shouldActivateCheck`. -/
  hour : Nat
  /-- The `millis()` inside the countdown status message. -/
  tStatus : Nat
  /-- The `millis()` of `lastTempUpdate = millis()`. -/
  tStore : Nat

/-- The `timeDiff` of `calculateTargetSpeed`. -/
def FanState.timeDiff (f : FanState) (k : FanClock) : Nat := usub k.tRate f.lastTempUpdate

/-- The `tempChangeRate` of `calculateTargetSpeed` for the sample `temp`. -/
def FanState.tempChangeRate (f : FanState) (k : FanClock) (temp : ℚ) : ℚ :=
  if f.timeDiff k > 0 then (temp - f.lastTemperature) / ((f.timeDiff k : ℚ) / 60000) else 0

/-- `FanController::calculateTargetSpeed`: the returned speed and the state after the call. -/
def Controller.calculateTargetSpeed (c : Controller) (k : FanClock) : ℚ × Controller :=
  let temp := c.status.temperature
  let c := { c with fan := c.fan.updateTempHistory temp }
  let tempTrend := c.fan.getTempTrend
  let tempChangeRate := c.fan.tempChangeRate k temp
  let store (c : Controller) : Controller :=
    { c with fan := { c.fan with lastTemperature := temp, lastTempUpdate := k.tStore % ULONG_SIZE } }
  let finish (c : Controller) (targetSpeed : ℚ) (statusMsg : StatusText) : ℚ × Controller :=
    let c := store c
    (targetSpeed, { c with status := { c.status with autoModeStatus := statusMsg } })
  if temp < FanController.SLEEP_TEMP_THRESHOLD then
    let (go, c) := c.shouldActivateCheck k.tCheck k.hour
    if !go then (0, store c)
    else if tempChangeRate > FanController.TEMP_RISE_THRESHOLD ∨
        tempTrend > FanController.TEMP_RISE_THRESHOLD then
      finish { c with fan := { c.fan with inSleepMode := false } }
        FanController.MIN_SPEED .activityDetected
    else
      finish c FanController.MIN_SPEED
        (.checkingCountdown (usub Config.CHECK_DURATION (usub k.tStatus c.fan.lastCheckTime) / 1000))
  else
    let c := { c with fan := { c.fan with inSleepMode := false } }
    if tempChangeRate > 0.5 ∨ tempTrend > 0.3 then
      let normalizedTemp := (temp - Config.TEMP_THRESHOLD) / (Config.MAX_TEMP - Config.TEMP_THRESHOLD)
      let targetSpeed := 0.6 + normalizedTemp * 0.4
      finish c targetSpeed (.warmUp (targetSpeed * 100))
    else if temp ≥ Config.TEMP_THRESHOLD + Config.HYSTERESIS then
      let normalizedTemp := (temp - Config.TEMP_THRESHOLD) / (Config.MAX_TEMP - Config.TEMP_THRESHOLD)
      let targetSpeed := 0.3 + normalizedTemp ^ 2 * 0.7
      finish c targetSpeed (.operating (targetSpeed * 100))
    else if temp > Config.TEMP_THRESHOLD - Config.HYSTERESIS then
      if c.status.currentFanSpeed < 0.1 then
        if tempChangeRate < 0 ∧ temp < FanController.SLEEP_TEMP_THRESHOLD then
          finish { c with fan := { c.fan with inSleepMode := true } } 0 .enteringSleep
        else finish c 0 .coolingFanOff
      else finish c 0.3 .coolingResidual
    else finish c 0 .empty

/-- `FanController::updateAutomaticMode`. -/
def Controller.updateAutomaticMode (c : Controller) (k : FanClock) : Controller :=
  if !c.status.autoMode then c
  else
    let (targetSpeed, c) := c.calculateTargetSpeed k
    let c := { c with status := { c.status with targetFanSpeed := targetSpeed } }
    let c :=
      if targetSpeed > 0 then
        let c := if !c.status.fanOn then c.toggleFan true else c
        c.setFanSpeed targetSpeed
      else if c.status.fanOn then c.toggleFan false
      else c
    c.clearErrors

/-! ## The sensor poll (`SensorManager::update`) -/

/-- The whole controller: a `SensorManager` with the `FanController` and the
status record it references. -/
structure System where
  ctl : Controller
  sensor : SensorState

/-- `SensorManager::getSensorInterval`; `hour` is `timeinfo->tm_hour`. -/
def System.getSensorInterval (s : System) (hour : Nat) : Nat :=
  if hour ≥ 22 ∨ hour < 6 then SensorManager.NIGHT_MODE_INTERVAL
  else if s.ctl.fan.inSleepMode then SensorManager.SLEEP_MODE_INTERVAL
  else SensorManager.ACTIVE_MODE_INTERVAL

/-- `SensorManager::updateErrorState`. -/
def System.updateErrorState (s : System) (success : Bool) : System :=
  if !success then
    let s1 : System := { s with sensor := { s.sensor with errorCount := inc8 s.sensor.errorCount } }
    if s1.sensor.errorCount ≥ SensorManager.MAX_ERRORS then
      { s1 with ctl := { s1.ctl with status := { s1.ctl.status with errorState := .SENSOR_ERROR } } }
    else s1
  else
    let s1 : System := { s with sensor := { s.sensor with errorCount := 0 } }
    if s1.ctl.status.errorState = .SENSOR_ERROR then
      { s1 with ctl := { s1.ctl with status := { s1.ctl.status with errorState := .NONE } } }
    else s1

/-- Everything one call of `SensorManager::update` reads from outside. -/
structure PollInput where
  /-- The `millis()` of `unsigned long now = millis()`. -/
  now : Nat
  /-- The hour read by `getSensorInterval`. -/
  hour : Nat
  /-- The result of `sht4.getEvent`: `none` when it returns `false`, otherwise
  the temperature and the relative humidity. -/
  reading : Option (ℚ × ℚ)
  /-- The clock reads of `controller.updateAutomaticMode()`. -/
  fanClock : FanClock
  /-- The `millis()` of `initializeSystem`, if `updateHeatCalculation` calls it. -/
  tHeatInit : Nat
  /-- The `millis()` of `updateHeatCalculation`. -/
  tHeat : Nat

/-- How a call of `SensorManager::update` ended. -/
inductive PollResult where
  /-- The interval has not elapsed (`return true` without reading). -/
  | notDue
  /-- The reading was accepted (`return true`). -/
  | success
  /-- `getEvent` failed (`return false`). -/
  | readFailed
  /-- `checkSensorValues` rejected the reading (`return false`). -/
  | rejected (why : CheckOutcome)
  deriving DecidableEq, Repr

/-- The `bool` that `SensorManager::update` returns. -/
def PollResult.ok : PollResult → Bool
  | .notDue => true
  | .success => true
  | _ => false

/-- The block of `SensorManager::update` that runs when `checkSensorValues`
returned `true`: the record is updated, the controller and the accumulators
run, and the error state is cleared. -/
def System.commitReading (s : System) (p : PollInput) (newTemp newHum : ℚ) : System :=
  let st := { s.ctl.status with temperature := newTemp, humidity := newHum }
  let st := st.updateMinMaxTemperature newTemp
  let st := { st with lastSensorUpdate := p.now % ULONG_SIZE }
  let c : Controller := { s.ctl with status := st }
  let c := if c.status.autoMode then c.updateAutomaticMode p.fanClock else c
  let c := { c with status := c.status.updateOperatingStats }
  let c := { c with status := c.status.updateHeatCalculation p.tHeatInit p.tHeat }
  System.updateErrorState { s with ctl := c } true

/-- `SensorManager::update`. -/
def System.update (s : System) (p : PollInput) : PollResult × System :=
  if usub p.now s.sensor.lastUpdate < s.getSensorInterval p.hour then (.notDue, s)
  else
    let s : System := { s with sensor := { s.sensor with lastUpdate := p.now % ULONG_SIZE } }
    match p.reading with
    | some (newTemp, newHum) =>
      let checked := s.sensor.checkSensorValues newTemp newHum
      let s : System := { s with sensor := checked.2 }
      if checked.1.ok then (.success, s.commitReading p newTemp newHum)
      else (.rejected checked.1, s.updateErrorState false)
    | none => (.readFailed, s.updateErrorState false)

/-- State after a sequence of polls. -/
def System.pollAll (s : System) : List PollInput → System
  | [] => s
  | p :: ps => System.pollAll (s.update p).2 ps

/-- Every poll of the sequence is due and fails (`update` returns `false`). -/
def System.allFail (s : System) : List PollInput → Bool
  | [] => true
  | p :: ps => !(s.update p).1.ok && System.allFail (s.update p).2 ps

/-- State at power-up: the constructors of `SystemStatus`, `FanController` and
`SensorManager` have run (`now`, `hour`: their clock reads) and the MOSFET pin
has been driven low by `initPWM`. -/
def System.boot (now hour : Nat) : System where
  ctl :=
    { status := SystemStatus.construct now
      fan := FanState.construct now hour
      hw := { mosfet := false, duty := 0 } }
  sensor := SensorState.fresh

/-- Five readings of 20 °C with distinct humidities (sample input). -/
def rs5 : List (ℚ × ℚ) := [(20, 50), (20, 51), (20, 52), (20, 53), (20, 54)]

/-- A poll at time `now` (hour 12) whose acquisition fails (sample input). -/
def failedPoll (now : Nat) : PollInput where
  now := now
  hour := 12
  reading := none
  fanClock := { tRate := now, tCheck := now, hour := 12, tStatus := now, tStore := now }
  tHeatInit := now
  tHeat := now

/-- `n` failing polls, 20 s apart (sample input). -/
def failedPolls (n : Nat) : List PollInput :=
  (List.range n).map (fun i => failedPoll (20000 * (i + 1)))
/-- A poll at time `now` (hour 12) that reads `temp` °C at `hum` % (sample input). -/
def goodPoll (now : Nat) (temp hum : ℚ) : PollInput :=
  { failedPoll now with reading := some (temp, hum) }

/-- The `tempTrend` of a call of `calculateTargetSpeed`: the trend right after
the current temperature has been pushed into the history. -/
def Controller.trend (c : Controller) : ℚ :=
  (c.fan.updateTempHistory c.status.temperature).getTempTrend

/-- The `tempChangeRate` of a call of `calculateTargetSpeed`. -/
def Controller.rate (c : Controller) (k : FanClock) : ℚ :=
  c.fan.tempChangeRate k c.status.temperature

/-- The activity-check window is open at the `millis()` read `now`: either a
check interval has elapsed since `lastCheckTime` (a new window starts) or less
than `CHECK_DURATION` has (the current window is still running). These are the
two `return true` exits of `shouldActivateCheck` in sleep mode. -/
def FanState.windowOpen (f : FanState) (now hour : Nat) : Prop :=
  usub now f.lastCheckTime ≥ getCheckInterval hour ∨ usub now f.lastCheckTime < Config.CHECK_DURATION

/-- The spec's `clamp01`: the argument limited to the interval [0, 1]. -/
def clamp01 (x : ℚ) : ℚ := max 0 (min x 1)

/-- A clock on which every read of one `calculateTargetSpeed` call returns `now`
and the hour is 12 (sample input). -/
def clockAt (now : Nat) : FanClock :=
  { tRate := now, tCheck := now, hour := 12, tStatus := now, tStore := now }

/-- A controller whose record shows `temp` °C and commanded speed `speed`, whose
previous tick was at time 0 with `last` °C, whose trend buffer holds `last` in
every cell, and which is in sleep mode iff `asleep` (sample input). -/
def sampleController (temp last speed : ℚ) (asleep : Bool) : Controller where
  status := { SystemStatus.construct 0 with temperature := temp, currentFanSpeed := speed }
  fan :=
    { FanState.construct 0 12 with
      lastTemperature := last
      inSleepMode := asleep
      tempHistory := fun _ => last }
  hw := { mosfet := false, duty := 0 }

/-! ## Heat-recovery estimator (`HeatCalculator`) -/

/-- `SystemStatus::needsHeatCalc`; `now` is its `millis()` read. -/
def SystemStatus.needsHeatCalc (st : SystemStatus) (now : Nat) : Bool :=
  decide (usub now st.lastHeatCalc ≥ Config.Heat.CALC_INTERVAL)

/-- The `millis()` reads of one call of `HeatCalculator::update`, in program order. -/
structure HeatClock where
  /-- The `millis()` inside `needsHeatCalc`. -/
  tNeeds : Nat
  /-- The `millis()` of `deltaTime = (millis() - lastHeatCalc) / 1000.0f`. -/
  tDelta : Nat
  /-- The `millis()` of `lastHeatCalc = millis()`. -/
  tStore : Nat

namespace HeatCalculator

/-- `HeatCalculator::calculateAirDensity`. -/
def calculateAirDensity (st : SystemStatus) : ℚ :=
  let tempKelvin := st.temperature + 273.15
  let density := Config.Heat.AIR_DENSITY * (293.15 / tempKelvin)
  density * (1 - st.humidity * 0.0002)

/-- `HeatCalculator::calculateCurrentAirflow`. -/
def calculateCurrentAirflow (st : SystemStatus) : ℚ :=
  let maxAirflowPerSecond := Config.Heat.MAX_AIRFLOW / 3600
  maxAirflowPerSecond * st.currentFanSpeed ^ 3

/-- `HeatCalculator::calculateTempDifference`. -/
def calculateTempDifference (st : SystemStatus) : ℚ :=
  let tempDiff := st.temperature - st.referenceTemp
  if tempDiff < Config.Heat.MIN_TEMP_DIFF then 0 else tempDiff

/-- `HeatCalculator::initialize` (that name is reserved here). The member
`SystemStatus::initHeatCalculation` it calls is not declared in
`system_status.h`; it is the parameter `initHeatCalculation`. -/
def initializeCalculator (initHeatCalculation : SystemStatus → ℚ → SystemStatus) (st : SystemStatus) :
    SystemStatus :=
  if !st.heatCalcInitialized then initHeatCalculation st st.temperature else st

/-- `HeatCalculator::update`. -/
def update (st : SystemStatus) (k : HeatClock) : SystemStatus :=
  if !st.heatCalcInitialized ∨ !st.fanOn ∨ !st.needsHeatCalc k.tNeeds then st
  else
    let deltaTime : ℚ := (usub k.tDelta st.lastHeatCalc : ℚ) / 1000
    let st := { st with lastHeatCalc := k.tStore % ULONG_SIZE }
    let airDensity := calculateAirDensity st
    let airflow := calculateCurrentAirflow st
    let tempDiff := calculateTempDifference st
    let st := { st with airVolumeMoved := st.airVolumeMoved + airflow * deltaTime }
    let massFlowRate := airDensity * airflow
    let st := { st with
      currentHeatPower := massFlowRate * Config.Heat.AIR_SPECIFIC_HEAT * tempDiff *
        Config.Heat.SYSTEM_EFFICIENCY }
    let energyKWh := (st.currentHeatPower * deltaTime) / 3600000
    { st with totalHeatEnergy := st.totalHeatEnergy + energyKWh, heatCalcInitialized := true }

/-- `HeatCalculator::calculateCostSaving`. -/
def calculateCostSaving (st : SystemStatus) (pricePerKWh : ℚ) : ℚ :=
  st.totalHeatEnergy * pricePerKWh

/-- `HeatCalculator::calculateMaxPossiblePower`. -/
def calculateMaxPossiblePower (st : SystemStatus) : ℚ :=
  let airDensity := calculateAirDensity st
  let maxAirflow := Config.Heat.MAX_AIRFLOW / 3600
  let tempDiff := calculateTempDifference st
  airDensity * maxAirflow * Config.Heat.AIR_SPECIFIC_HEAT * tempDiff

/-- `HeatCalculator::calculateCurrentEfficiency`. -/
def calculateCurrentEfficiency (st : SystemStatus) : ℚ :=
  if !st.fanOn ∨ st.currentHeatPower ≤ 0 then 0
  else
    let maxPossiblePower := calculateMaxPossiblePower st
    if maxPossiblePower ≤ 0 then 0
    else (st.currentHeatPower / maxPossiblePower) * 100

end HeatCalculator

/-! ## HTTP command handlers (`WebServerManager`) -/

/-- The `float` returned by `String::toFloat`. -/
inductive FloatVal where
  | nan
  | num (q : ℚ)

/-- What a handler reads from the request it serves. -/
structure Request where
  /-- Whether `server.method() == HTTP_POST`. -/
  isPost : Bool
  /-- The value of `server.arg("mode")`, `none` when `hasArg("mode")` is false. -/
  mode : Option String
  /-- The value of `server.arg("speed").toFloat()`, `none` when `hasArg("speed")` is false. -/
  speed : Option FloatVal
  /-- The clock reads of `controller.updateAutomaticMode()`, should the handler call it. -/
  clock : FanClock

/-- The reply of a handler: `sendSuccess` or `sendError` with its status code. -/
inductive Response where
  | success
  | error (code : Nat)
  deriving DecidableEq, Repr

/-- `WebServerManager::handleToggleFan`. -/
def Controller.handleToggleFan (c : Controller) (r : Request) : Response × Controller :=
  if !r.isPost then (.error 405, c)
  else if c.status.autoMode then (.error 400, c)
  else
    let c : Controller := { c with status := { c.status with fanOn := !c.status.fanOn } }
    let c := c.toggleFan c.status.fanOn
    let c := if c.status.fanOn then c.setFanSpeed c.status.manualFanSpeed else c.setFanSpeed 0
    (.success, c)

/-- `WebServerManager::handleSetAutoMode`. -/
def Controller.handleSetAutoMode (c : Controller) (r : Request) : Response × Controller :=
  if !r.isPost then (.error 405, c)
  else
    match r.mode with
    | none => (.error 400, c)
    | some mode =>
      let newMode : Bool := mode == "1" || mode.toLower == "true"
      let c : Controller := { c with status := c.status.setAutoMode newMode }
      let c :=
        if newMode then c.updateAutomaticMode r.clock
        else if c.status.fanOn then c.setFanSpeed c.status.manualFanSpeed
        else c
      (.success, c)

/-- `WebServerManager::handleSetFanSpeed`. -/
def Controller.handleSetFanSpeed (c : Controller) (r : Request) : Response × Controller :=
  if !r.isPost then (.error 405, c)
  else if c.status.autoMode then (.error 400, c)
  else
    match r.speed with
    | none => (.error 400, c)
    | some .nan => (.error 400, c)
    | some (.num speed) =>
      if speed < 0 ∨ speed > 1 then (.error 400, c)
      else
        let c : Controller := { c with status := { c.status with manualFanSpeed := speed } }
        let c := if c.status.fanOn then c.setFanSpeed speed else c
        (.success, c)

/-- `WebServerManager::handleResetTemperature`. -/
def Controller.handleResetTemperature (c : Controller) (r : Request) : Response × Controller :=
  if !r.isPost then (.error 405, c)
  else (.success, { c with status := c.status.resetMinMaxTemperature })

/-! ## Operations on the running system -/

/-- One operation of the main loop or of a client, with everything it reads. -/
inductive Op where
  /-- `SensorManager::update`. -/
  | poll (p : PollInput)
  /-- `FanController::updateAutomaticMode`. -/
  | tick (k : FanClock)
  /-- `FanController::setFanSpeed`. -/
  | setFanSpeed (speed : ℚ)
  /-- `FanController::toggleFan`. -/
  | toggleFan (turnOn : Bool)
  /-- `WebServerManager::handleToggleFan`. -/
  | httpToggleFan (r : Request)
  /-- `WebServerManager::handleSetAutoMode`. -/
  | httpSetAutoMode (r : Request)
  /-- `WebServerManager::handleSetFanSpeed`. -/
  | httpSetFanSpeed (r : Request)
  /-- `WebServerManager::handleResetTemperature`. -/
  | httpResetTemperature (r : Request)
  /-- `SystemStatus::setAutoMode`. -/
  | setAutoMode (enable : Bool)
  /-- `SystemStatus::resetMinMaxTemperature`. -/
  | resetMinMaxTemperature
  /-- `SystemStatus::updateHeatCalculation`. -/
  | updateHeatCalculation (tInit tNow : Nat)
  /-- `HeatCalculator::update`. -/
  | heatUpdate (k : HeatClock)
  /-- `HeatCalculator::initialize`, for any body of the undeclared `initHeatCalculation`. -/
  | heatInitialize (initHeatCalculation : SystemStatus → ℚ → SystemStatus)

/-- The record with `f` applied to it, everything else as it was. -/
def System.onStatus (s : System) (f : SystemStatus → SystemStatus) : System :=
  { s with ctl := { s.ctl with status := f s.ctl.status } }

/-- State after one operation. -/
def System.step (s : System) : Op → System
  | .poll p => (s.update p).2
  | .tick k => { s with ctl := s.ctl.updateAutomaticMode k }
  | .setFanSpeed speed => { s with ctl := s.ctl.setFanSpeed speed }
  | .toggleFan turnOn => { s with ctl := s.ctl.toggleFan turnOn }
  | .httpToggleFan r => { s with ctl := (s.ctl.handleToggleFan r).2 }
  | .httpSetAutoMode r => { s with ctl := (s.ctl.handleSetAutoMode r).2 }
  | .httpSetFanSpeed r => { s with ctl := (s.ctl.handleSetFanSpeed r).2 }
  | .httpResetTemperature r => { s with ctl := (s.ctl.handleResetTemperature r).2 }
  | .setAutoMode enable => s.onStatus (fun st => st.setAutoMode enable)
  | .resetMinMaxTemperature => s.onStatus SystemStatus.resetMinMaxTemperature
  | .updateHeatCalculation tInit tNow => s.onStatus (fun st => st.updateHeatCalculation tInit tNow)
  | .heatUpdate k => s.onStatus (fun st => HeatCalculator.update st k)
  | .heatInitialize init => s.onStatus (HeatCalculator.initializeCalculator init)

/-- State after a sequence of operations. -/
def System.run (s : System) : List Op → System
  | [] => s
  | op :: ops => System.run (s.step op) ops

/-- Every sensor reading offered by the operation has a temperature of at most `m`. -/
def Op.readsAtMost (m : ℚ) : Op → Prop
  | .poll p => ∀ t h, p.reading = some (t, h) → t ≤ m
  | _ => True

/-- A record with the fan on at duty `duty`, showing `temp` °C at `hum` %, with
reference temperature `ref` and the last integration at time 0 (sample input). -/
def heatSample (duty temp ref hum : ℚ) : SystemStatus :=
  { SystemStatus.construct 0 with
    fanOn := true
    currentFanSpeed := duty
    temperature := temp
    referenceTemp := ref
    humidity := hum }

/-- A clock on which every read of one `HeatCalculator::update` call returns `now` (sample input). -/
def heatClockAt (now : Nat) : HeatClock := { tNeeds := now, tDelta := now, tStore := now }

/-- One heat-estimator update: `HeatCalculator::update` or
`SystemStatus::updateHeatCalculation`, with the clock reads of the call. -/
inductive HeatOp where
  | calculator (k : HeatClock)
  | status (tInit tNow : Nat)

/-- The record after one heat-estimator update. -/
def SystemStatus.heatStep (st : SystemStatus) : HeatOp → SystemStatus
  | .calculator k => HeatCalculator.update st k
  | .status tInit tNow => st.updateHeatCalculation tInit tNow

/-- The record after a sequence of heat-estimator updates. -/
def SystemStatus.heatRun (st : SystemStatus) : List HeatOp → SystemStatus
  | [] => st
  | op :: ops => SystemStatus.heatRun (st.heatStep op) ops

/-- The ranges in which the estimator's inputs lie: duty in [0, 1], temperature
in [-40, 125], humidity in [0, 100]. -/
def SystemStatus.HeatInputsOK (st : SystemStatus) : Prop :=
  (0 ≤ st.currentFanSpeed ∧ st.currentFanSpeed ≤ 1) ∧
  (-40 ≤ st.temperature ∧ st.temperature ≤ 125) ∧
  (0 ≤ st.humidity ∧ st.humidity ≤ 100)

/-- The fields of the record that no `FanController` member writes. -/
def SystemStatus.sensed (st : SystemStatus) : ℚ × ℚ × ℚ × ℚ × Bool × ℚ × ℚ × Bool :=
  (st.temperature, st.minTemperature, st.maxTemperature, st.humidity, st.autoMode,
    st.manualFanSpeed, st.referenceTemp, st.heatCalcInitialized)

/-- The fields of the record that `FanController` members write, the narrative apart. -/
def SystemStatus.actuation (st : SystemStatus) : Bool × ℚ × ℚ :=
  (st.fanOn, st.currentFanSpeed, st.targetFanSpeed)

/-- The part of the claimed invariant that holds in every reachable state: the
heat calculation is initialized with reference temperature 0, `manualFanSpeed`
and `currentFanSpeed` lie in [0, 1], and `targetFanSpeed` is not negative. -/
def SystemStatus.Stable (st : SystemStatus) : Prop :=
  st.heatCalcInitialized = true ∧ st.referenceTemp = 0 ∧
  (0 ≤ st.manualFanSpeed ∧ st.manualFanSpeed ≤ 1) ∧
  (0 ≤ st.currentFanSpeed ∧ st.currentFanSpeed ≤ 1) ∧
  0 ≤ st.targetFanSpeed

/-- The record shows at most 100 °C and a target speed of at most 1. -/
def SystemStatus.Cool (st : SystemStatus) : Prop :=
  st.temperature ≤ 100 ∧ st.targetFanSpeed ≤ 1

/-- The controller as `SensorManager::update` hands it to `updateAutomaticMode`
after accepting the reading `(newTemp, newHum)`. -/
def System.recorded (s : System) (p : PollInput) (newTemp newHum : ℚ) : Controller :=
  { s.ctl with
    status :=
      { ({ s.ctl.status with temperature := newTemp, humidity := newHum }).updateMinMaxTemperature
          newTemp with lastSensorUpdate := p.now % ULONG_SIZE } }

/-- The recorded extremes bracket the recorded temperature. -/
def SystemStatus.Bracketed (st : SystemStatus) : Prop :=
  st.minTemperature ≤ st.temperature ∧ st.temperature ≤ st.maxTemperature

/-- The spec's list of conditions under which the set-manual-duty command is
refused: automatic mode is active, the speed argument is missing, or its value is
NaN, below 0 or above 1. -/
def Controller.refusesSpeed (c : Controller) (r : Request) : Prop :=
  c.status.autoMode = true ∨ r.speed = none ∨ r.speed = some .nan ∨
    ∃ q, r.speed = some (.num q) ∧ (q < 0 ∨ q > 1)

/-- A POST request carrying the speed argument `q` (sample input). -/
def speedRequest (q : ℚ) : Request :=
  { isPost := true, mode := none, speed := some (.num q), clock := clockAt 0 }

/-- The controller at power-up switched to manual mode, with the fan on or off (sample input). -/
def manualController (fanOn : Bool) : Controller :=
  { (System.boot 0 12).ctl with
    status := { (System.boot 0 12).ctl.status with autoMode := false, fanOn := fanOn } }

/-! ## The trend buffer as a sequence of pushed samples -/

/-- The trend buffer after `updateTempHistory` has been called with each element
of `xs` in turn, starting from `f`. -/
def FanState.pushAll (f : FanState) (xs : List ℚ) : FanState :=
  xs.foldl FanState.updateTempHistory f

/-- The spec's view of the pushed samples: the `k`-th newest of the samples `xs`
pushed so far (`k = 0` is the newest), a sample that was never pushed counting as 0. -/
def sampleAt (xs : List ℚ) (k : Nat) : ℚ := xs.reverse.getD k 0

/-- The spec's trend: the mean of the five consecutive differences between the
last six pushed samples. -/
def meanOfDeltas (xs : List ℚ) : ℚ :=
  ((List.range 5).map (fun k => sampleAt xs k - sampleAt xs (k + 1))).sum / 5

/-- A sequence of ticks of `updateAutomaticMode`, each preceded by an arbitrary
rewrite of the record (any temperature, any commanded speed, any mode) and run
with its own clock reads. -/
def Controller.ticksAfter (c : Controller) :
    List ((SystemStatus → SystemStatus) × FanClock) → Controller
  | [] => c
  | (f, k) :: rest =>
    Controller.ticksAfter (Controller.updateAutomaticMode { c with status := f c.status } k) rest

/-- A running system around the controller `c`, with a sensor filter that has
seen no reading (sample input). -/
def systemAround (c : Controller) : System := { ctl := c, sensor := SensorState.fresh }

/-- The controller as the first tick after construction at (`now`, `hour`) finds
it, the record showing `temp` °C (sample input). -/
def firstTickController (now hour : Nat) (temp : ℚ) : Controller :=
  { (System.boot now hour).ctl with
    status := { (System.boot now hour).ctl.status with temperature := temp } }

/-- A clock on which every `millis()` read of one `calculateTargetSpeed` call
returns `now` and the wall clock shows `hour` (sample input). -/
def clockAtHour (now hour : Nat) : FanClock :=
  { tRate := now, tCheck := now, hour := hour, tStatus := now, tStore := now }

/-- The filter after five accepted readings of 20 °C: a wrapped history with
mean 20 (sample input). -/
def wrappedSensor : SensorState := SensorState.fresh.submitAll rs5

/-- A system at power-up whose filter holds a wrapped history with mean 20 (sample input). -/
def wrappedSystem : System := { ctl := (System.boot 0 12).ctl, sensor := wrappedSensor }

/-- A fan that is off has `currentFanSpeed = 0`. -/
def SystemStatus.OffMeansZero (st : SystemStatus) : Prop :=
  st.fanOn = false → st.currentFanSpeed = 0

/-- The operation is not a bare call of `FanController::setFanSpeed`: that
member runs only inside `toggleFan`, `updateAutomaticMode` and the commands. -/
def Op.viaCommands : Op → Prop
  | .setFanSpeed _ => False
  | _ => True

/-! ## Properties of the plausibility filter -/

theorem inRange_20_50 : InRange 20 50 := by
  unfold InRange SensorManager.MIN_VALID_TEMP SensorManager.MAX_VALID_TEMP
    SensorManager.MIN_VALID_HUM SensorManager.MAX_VALID_HUM
  norm_num

theorem inRange_not_sentinel {t h : ℚ} (hr : InRange t h) : t ≠ -300 := by
  unfold InRange SensorManager.MIN_VALID_TEMP at hr
  intro h0
  rw [h0] at hr
  norm_num at hr

/-- One accepted step while the history has not wrapped. -/
theorem check_accept_unwrapped (s : SensorState) (t h : ℚ) (hr : InRange t h)
    (hinit : s.historyInitialized = false)
    (hstuck : ¬ (t = s.lastTemp ∧ h = s.lastHum) ∨ inc8 s.sameValueCount < 5) :
    (s.checkSensorValues t h).1 = .accepted ∧
    (s.checkSensorValues t h).2.lastTemp = t ∧
    (s.checkSensorValues t h).2.lastHum = h ∧
    (s.checkSensorValues t h).2.sameValueCount =
      (if t = s.lastTemp ∧ h = s.lastHum then inc8 s.sameValueCount else 0) ∧
    (s.checkSensorValues t h).2.tempHistoryIndex.val = (s.tempHistoryIndex.val + 1) % 5 ∧
    (s.checkSensorValues t h).2.historyInitialized =
      decide ((s.tempHistoryIndex.val + 1) % 5 = 0) := by
  obtain ⟨h1, h2, h3, h4⟩ := hr
  have hrange : ¬ (t < SensorManager.MIN_VALID_TEMP ∨ t > SensorManager.MAX_VALID_TEMP ∨
      h < SensorManager.MIN_VALID_HUM ∨ h > SensorManager.MAX_VALID_HUM) := by
    simp only [not_or, not_lt, gt_iff_lt]
    exact ⟨h1, h2, h3, h4⟩
  unfold SensorState.checkSensorValues
  rw [if_neg hrange]
  by_cases hs : t = s.lastTemp ∧ h = s.lastHum
  · have hc : inc8 s.sameValueCount < 5 := by
      rcases hstuck with h' | h'
      · exact absurd hs h'
      · exact h'
    simp [hs, hc, SensorState.isTemperatureSpike, SensorState.updateTempHistory, hinit, Nat.not_le.mpr hc]
  · simp [hs, SensorState.isTemperatureSpike, SensorState.updateTempHistory, hinit]

theorem check_in_range_unfold (s : SensorState) (t h : ℚ) (hr : InRange t h) :
    s.checkSensorValues t h =
      (let same : Bool := decide (t = s.lastTemp ∧ h = s.lastHum)
       let count : Nat := if same then inc8 s.sameValueCount else 0
       let s1 : SensorState := { s with sameValueCount := count }
       if same ∧ count ≥ 5 then (.stuck, s1)
       else if s1.isTemperatureSpike t then (.spike, s1)
       else (.accepted, ({ s1 with lastTemp := t, lastHum := h }).updateTempHistory t)) := by
  obtain ⟨h1, h2, h3, h4⟩ := hr
  have hrange : ¬ (t < SensorManager.MIN_VALID_TEMP ∨ t > SensorManager.MAX_VALID_TEMP ∨
      h < SensorManager.MIN_VALID_HUM ∨ h > SensorManager.MAX_VALID_HUM) := by
    simp only [not_or, not_lt, gt_iff_lt]
    exact ⟨h1, h2, h3, h4⟩
  unfold SensorState.checkSensorValues
  rw [if_neg hrange]

theorem check_stuck (s : SensorState) (t h : ℚ) (hr : InRange t h)
    (hsame : t = s.lastTemp ∧ h = s.lastHum) (hc : 5 ≤ inc8 s.sameValueCount) :
    (s.checkSensorValues t h).1 = .stuck := by
  rw [check_in_range_unfold s t h hr]
  simp [hsame, hc]

/-- The state reached from a fresh pipeline by `k` submissions of one in-range pair, `1 ≤ k ≤ 5`. -/
theorem fresh_repeated (t h : ℚ) (hr : InRange t h) (k : Nat) (hk : k < 5) :
    (SensorState.fresh.submitRepeated t h k).checkSensorValues t h
      = (.accepted, SensorState.fresh.submitRepeated t h (k + 1)) ∧
    (SensorState.fresh.submitRepeated t h (k + 1)).lastTemp = t ∧
    (SensorState.fresh.submitRepeated t h (k + 1)).lastHum = h ∧
    (SensorState.fresh.submitRepeated t h (k + 1)).sameValueCount = k ∧
    (SensorState.fresh.submitRepeated t h (k + 1)).tempHistoryIndex.val = (k + 1) % 5 ∧
    (SensorState.fresh.submitRepeated t h (k + 1)).historyInitialized = decide (k + 1 = 5) := by
  induction k with
  | zero =>
    have h0 := check_accept_unwrapped SensorState.fresh t h hr rfl
      (Or.inl (fun hh => inRange_not_sentinel hr hh.1))
    have hne : ¬ (t = SensorState.fresh.lastTemp ∧ h = SensorState.fresh.lastHum) :=
      fun hh => inRange_not_sentinel hr hh.1
    simp only [SensorState.submitRepeated]
    refine ⟨Prod.ext h0.1 rfl, h0.2.1, h0.2.2.1, ?_, ?_, ?_⟩
    · rw [h0.2.2.2.1, if_neg hne]
    · rw [h0.2.2.2.2.1]; rfl
    · rw [h0.2.2.2.2.2]; rfl
  | succ k ih =>
    obtain ⟨_, hT, hH, hC, hI, hW⟩ := ih (by omega)
    have hW' : (SensorState.fresh.submitRepeated t h (k + 1)).historyInitialized = false := by
      rw [hW]; simp; omega
    have hinc : inc8 (SensorState.fresh.submitRepeated t h (k + 1)).sameValueCount = k + 1 := by
      rw [hC]; unfold inc8; omega
    have h0 := check_accept_unwrapped (SensorState.fresh.submitRepeated t h (k + 1)) t h hr hW'
      (Or.inr (by rw [hinc]; omega))
    have hsame : t = (SensorState.fresh.submitRepeated t h (k + 1)).lastTemp ∧
        h = (SensorState.fresh.submitRepeated t h (k + 1)).lastHum := ⟨hT.symm, hH.symm⟩
    have hmod : (k + 1) % 5 = k + 1 := Nat.mod_eq_of_lt (by omega)
    refine ⟨Prod.ext h0.1 rfl, h0.2.1, h0.2.2.1, ?_, ?_, ?_⟩
    · show ((SensorState.fresh.submitRepeated t h (k + 1)).checkSensorValues t h).2.sameValueCount = _
      rw [h0.2.2.2.1, if_pos hsame, hinc]
    · show ((SensorState.fresh.submitRepeated t h (k + 1)).checkSensorValues t h).2.tempHistoryIndex.val = _
      rw [h0.2.2.2.2.1, hI, hmod]
    · show ((SensorState.fresh.submitRepeated t h (k + 1)).checkSensorValues t h).2.historyInitialized = _
      rw [h0.2.2.2.2.2, hI, hmod]
      have : k + 1 + 1 < 5 ∨ k + 1 + 1 = 5 := by omega
      rcases this with h5 | h5
      · rw [Nat.mod_eq_of_lt h5]; simp; omega
      · rw [h5]; simp

/-- C1 (amended): from a fresh pipeline, the first five consecutive submissions
of one in-range pair are accepted and the sixth is rejected as stuck. -/
theorem stuck_after_five_repeats (t h : ℚ) (hr : InRange t h) :
    (∀ n, 1 ≤ n → n ≤ 5 → SensorState.fresh.nthOutcome t h n = .accepted) ∧
    SensorState.fresh.nthOutcome t h 6 = .stuck := by
  constructor
  · intro n h1 h5
    obtain ⟨k, rfl⟩ : ∃ k, n = k + 1 := ⟨n - 1, by omega⟩
    have := (fresh_repeated t h hr k (by omega)).1
    simp only [SensorState.nthOutcome, Nat.add_sub_cancel]
    rw [this]
  · obtain ⟨_, hT, hH, hC, _, _⟩ := fresh_repeated t h hr 4 (by decide)
    simp only [SensorState.nthOutcome]
    exact check_stuck _ t h hr ⟨hT.symm, hH.symm⟩ (by rw [hC]; decide)

/-- Witness of `stuck_after_five_repeats` at the pair (20, 50). -/
theorem stuck_after_five_repeats_witness :
    InRange 20 50 ∧
    ((∀ n, 1 ≤ n → n ≤ 5 → SensorState.fresh.nthOutcome 20 50 n = .accepted) ∧
      SensorState.fresh.nthOutcome 20 50 6 = .stuck) :=
  ⟨inRange_20_50, stuck_after_five_repeats 20 50 inRange_20_50⟩

/-- C1 (counterexample): the fifth consecutive submission of the in-range pair
(20, 50) to a fresh pipeline is accepted, so it is not rejected as stuck. -/
theorem fifth_identical_reading_accepted :
    InRange 20 50 ∧ (SensorState.fresh.nthOutcome 20 50 5).ok = true := by
  refine ⟨inRange_20_50, ?_⟩
  have := (fresh_repeated 20 50 inRange_20_50 4 (by decide)).1
  simp only [SensorState.nthOutcome]
  rw [this]
  rfl

theorem avgTemp_eq (s : SensorState) :
    s.avgTemp = (s.tempHistory 0 + s.tempHistory 1 + s.tempHistory 2 + s.tempHistory 3 +
      s.tempHistory 4) / 5 := by
  simp [SensorState.avgTemp, List.finRange, List.pmap, List.range, List.range.loop]
  rfl

theorem isTemperatureSpike_iff (s : SensorState) (t : ℚ) :
    s.isTemperatureSpike t = true ↔ s.historyInitialized = true ∧ |t - s.avgTemp| > 5 := by
  unfold SensorState.isTemperatureSpike SensorManager.MAX_TEMP_CHANGE
  cases hI : s.historyInitialized <;> simp

theorem check_in_range_eq (s : SensorState) (t h : ℚ) (hr : InRange t h) :
    s.checkSensorValues t h =
      if (t = s.lastTemp ∧ h = s.lastHum) ∧ 5 ≤ inc8 s.sameValueCount then
        (.stuck, s.counted t h)
      else if s.isTemperatureSpike t = true then (.spike, s.counted t h)
      else (.accepted,
        ({ s.counted t h with lastTemp := t, lastHum := h }).updateTempHistory t) := by
  rw [check_in_range_unfold s t h hr]
  by_cases hsame : t = s.lastTemp ∧ h = s.lastHum
  · simp only [SensorState.counted, hsame, and_self, decide_True, if_true, true_and, ge_iff_le]
    rfl
  · simp only [SensorState.counted, hsame, decide_False, if_false, false_and,
      Bool.false_eq_true]
    rfl

/-- The four exits of `checkSensorValues`, one equation each. -/
theorem check_cases (s : SensorState) (t h : ℚ) :
    ((t < -40 ∨ t > 125 ∨ h < 0 ∨ h > 100) ∧ s.checkSensorValues t h = (.outOfRange, s)) ∨
    (InRange t h ∧ ((t = s.lastTemp ∧ h = s.lastHum) ∧ 5 ≤ inc8 s.sameValueCount) ∧
      s.checkSensorValues t h = (.stuck, s.counted t h)) ∨
    (InRange t h ∧ ¬ ((t = s.lastTemp ∧ h = s.lastHum) ∧ 5 ≤ inc8 s.sameValueCount) ∧
      (s.historyInitialized = true ∧ |t - s.avgTemp| > 5) ∧
      s.checkSensorValues t h = (.spike, s.counted t h)) ∨
    (InRange t h ∧ ¬ ((t = s.lastTemp ∧ h = s.lastHum) ∧ 5 ≤ inc8 s.sameValueCount) ∧
      ¬ (s.historyInitialized = true ∧ |t - s.avgTemp| > 5) ∧
      s.checkSensorValues t h = (.accepted, s.accept t h)) := by
  by_cases hr : t < -40 ∨ t > 125 ∨ h < 0 ∨ h > 100
  · left
    refine ⟨hr, ?_⟩
    unfold SensorState.checkSensorValues SensorManager.MIN_VALID_TEMP SensorManager.MAX_VALID_TEMP
      SensorManager.MIN_VALID_HUM SensorManager.MAX_VALID_HUM
    rw [if_pos hr]
  · right
    have hin : InRange t h := by
      unfold InRange SensorManager.MIN_VALID_TEMP SensorManager.MAX_VALID_TEMP
        SensorManager.MIN_VALID_HUM SensorManager.MAX_VALID_HUM
      simp only [not_or, not_lt, gt_iff_lt] at hr
      exact hr
    rw [check_in_range_eq s t h hin]
    by_cases hst : (t = s.lastTemp ∧ h = s.lastHum) ∧ 5 ≤ inc8 s.sameValueCount
    · left
      exact ⟨hin, hst, by rw [if_pos hst]⟩
    · right
      by_cases hsp : s.historyInitialized = true ∧ |t - s.avgTemp| > 5
      · left
        exact ⟨hin, hst, hsp, by rw [if_neg hst, if_pos ((isTemperatureSpike_iff s t).2 hsp)]⟩
      · right
        exact ⟨hin, hst, hsp, by
          rw [if_neg hst, if_neg (fun hh => hsp ((isTemperatureSpike_iff s t).1 hh))]; rfl⟩

/-- Cursor and wrapped flag after any sequence of submissions, in terms of the
number of accepted readings. -/
theorem submitAll_cursor (rs : List (ℚ × ℚ)) :
    ∀ (s : SensorState) (n : Nat), s.tempHistoryIndex.val = n % 5 →
      s.historyInitialized = decide (5 ≤ n) →
      (s.submitAll rs).tempHistoryIndex.val = (n + s.acceptedCount rs) % 5 ∧
      (s.submitAll rs).historyInitialized = decide (5 ≤ n + s.acceptedCount rs) := by
  induction rs with
  | nil => intro s n h1 h2; exact ⟨h1, h2⟩
  | cons r rs ih =>
    intro s n h1 h2
    simp only [SensorState.submitAll, SensorState.acceptedCount]
    rcases check_cases s r.1 r.2 with ⟨_, he⟩ | ⟨_, _, he⟩ | ⟨_, _, _, he⟩ | ⟨_, _, _, he⟩
    · simpa [he, CheckOutcome.ok] using ih s n h1 h2
    · simpa [he, CheckOutcome.ok] using ih (s.counted r.1 r.2) n h1 h2
    · simpa [he, CheckOutcome.ok] using ih (s.counted r.1 r.2) n h1 h2
    · simp only [he]
      have hidx : (s.accept r.1 r.2).tempHistoryIndex.val = (n + 1) % 5 := by
        show (s.tempHistoryIndex.val + 1) % 5 = (n + 1) % 5
        rw [h1]; omega
      have hini : (s.accept r.1 r.2).historyInitialized = decide (5 ≤ n + 1) := by
        show (if (s.tempHistoryIndex.val + 1) % 5 = 0 then true else s.historyInitialized) = _
        rw [h1, h2]
        by_cases h0 : (n % 5 + 1) % 5 = 0
        · rw [if_pos h0]; symm; simp; omega
        · rw [if_neg h0]; simp; omega
      simpa [CheckOutcome.ok, Nat.add_assoc] using ih _ (n + 1) hidx hini

/-- C2: after at least five accepted readings an in-range reading that is not
rejected as stuck is rejected exactly when it differs from the mean of the five
history cells by more than 5.0; before five readings were accepted nothing is
rejected as a spike; with a wrapped history of mean 20 a reading of 26 is
rejected and a reading of 24 that is not stuck is accepted. -/
theorem spike_rejection_iff (rs : List (ℚ × ℚ)) (t h : ℚ) (hr : InRange t h) :
    (5 ≤ SensorState.fresh.acceptedCount rs →
      ((SensorState.fresh.submitAll rs).checkSensorValues t h).1 ≠ .stuck →
      ((((SensorState.fresh.submitAll rs).checkSensorValues t h).1.ok = false) ↔
        |t - ((SensorState.fresh.submitAll rs).tempHistory 0 +
              (SensorState.fresh.submitAll rs).tempHistory 1 +
              (SensorState.fresh.submitAll rs).tempHistory 2 +
              (SensorState.fresh.submitAll rs).tempHistory 3 +
              (SensorState.fresh.submitAll rs).tempHistory 4) / 5| > 5)) ∧
    (SensorState.fresh.acceptedCount rs < 5 →
      ((SensorState.fresh.submitAll rs).checkSensorValues t h).1 ≠ .spike) ∧
    (∀ s : SensorState, s.historyInitialized = true →
      (s.tempHistory 0 + s.tempHistory 1 + s.tempHistory 2 + s.tempHistory 3 +
        s.tempHistory 4) / 5 = 20 →
      (s.checkSensorValues 26 h).1.ok = false ∧
      ((s.checkSensorValues 24 h).1 ≠ .stuck → (s.checkSensorValues 24 h).1 = .accepted)) := by
  have hinv := submitAll_cursor rs SensorState.fresh 0 rfl rfl
  simp only [Nat.zero_add] at hinv
  refine ⟨?_, ?_, ?_⟩
  · intro h5 hns
    rw [← avgTemp_eq]
    have hI : (SensorState.fresh.submitAll rs).historyInitialized = true := by
      rw [hinv.2]; simpa using h5
    rcases check_cases (SensorState.fresh.submitAll rs) t h with
      ⟨hb, _⟩ | ⟨_, _, he⟩ | ⟨_, _, hsp, he⟩ | ⟨_, _, hsp, he⟩
    · exfalso
      obtain ⟨h1, h2, h3, h4⟩ := hr
      unfold SensorManager.MIN_VALID_TEMP SensorManager.MAX_VALID_TEMP
        SensorManager.MIN_VALID_HUM SensorManager.MAX_VALID_HUM at *
      rcases hb with hb | hb | hb | hb <;> linarith
    · rw [he] at hns; exact absurd rfl hns
    · rw [he]; simp [CheckOutcome.ok, hsp.2]
    · rw [he]
      have : ¬ |t - (SensorState.fresh.submitAll rs).avgTemp| > 5 := fun hh => hsp ⟨hI, hh⟩
      simp [CheckOutcome.ok, this]
  · intro h5
    have hI : (SensorState.fresh.submitAll rs).historyInitialized = false := by
      rw [hinv.2]; simp; omega
    rcases check_cases (SensorState.fresh.submitAll rs) t h with
      ⟨_, he⟩ | ⟨_, _, he⟩ | ⟨_, _, hsp, _⟩ | ⟨_, _, _, he⟩
    · rw [he]; simp
    · rw [he]; simp
    · rw [hI] at hsp; exact absurd hsp.1 (by simp)
    · rw [he]; simp
  · intro s hI havg
    rw [← avgTemp_eq] at havg
    constructor
    · rcases check_cases s 26 h with ⟨_, he⟩ | ⟨_, _, he⟩ | ⟨_, _, _, he⟩ | ⟨_, _, hsp, _⟩
      · rw [he]; rfl
      · rw [he]; rfl
      · rw [he]; rfl
      · exfalso; apply hsp; refine ⟨hI, ?_⟩; rw [havg]; norm_num
    · intro hns
      rcases check_cases s 24 h with ⟨hb, he⟩ | ⟨_, _, he⟩ | ⟨_, _, hsp, _⟩ | ⟨_, _, _, he⟩
      · exfalso
        obtain ⟨h1, h2, h3, h4⟩ := hr
        unfold SensorManager.MIN_VALID_HUM SensorManager.MAX_VALID_HUM at *
        rcases hb with hb | hb | hb | hb
        · norm_num at hb
        · norm_num at hb
        · linarith
        · linarith
      · rw [he] at hns; exact absurd rfl hns
      · exfalso; have := hsp.2; rw [havg] at this; norm_num at this
      · rw [he]

theorem inRange_26_50 : InRange 26 50 := by
  unfold InRange SensorManager.MIN_VALID_TEMP SensorManager.MAX_VALID_TEMP
    SensorManager.MIN_VALID_HUM SensorManager.MAX_VALID_HUM
  norm_num

/-- Witness of `spike_rejection_iff`: after five accepted readings of 20 a reading of 26 is rejected. -/
theorem spike_rejection_iff_witness :
    InRange 26 50 ∧ 5 ≤ SensorState.fresh.acceptedCount rs5 ∧
      ((SensorState.fresh.submitAll rs5).checkSensorValues 26 50).1.ok = false := by
  have h5 : 5 ≤ SensorState.fresh.acceptedCount rs5 := by decide
  have hT : (SensorState.fresh.submitAll rs5).lastTemp = 20 := by decide
  have hns : ((SensorState.fresh.submitAll rs5).checkSensorValues 26 50).1 ≠ .stuck := by
    rcases check_cases (SensorState.fresh.submitAll rs5) 26 50 with
      ⟨_, he⟩ | ⟨_, hst, _⟩ | ⟨_, _, _, he⟩ | ⟨_, _, _, he⟩
    · rw [he]; simp
    · exfalso; have := hst.1.1; rw [hT] at this; norm_num at this
    · rw [he]; simp
    · rw [he]; simp
  have c0 : (SensorState.fresh.submitAll rs5).tempHistory 0 = 20 := by decide
  have c1 : (SensorState.fresh.submitAll rs5).tempHistory 1 = 20 := by decide
  have c2 : (SensorState.fresh.submitAll rs5).tempHistory 2 = 20 := by decide
  have c3 : (SensorState.fresh.submitAll rs5).tempHistory 3 = 20 := by decide
  have c4 : (SensorState.fresh.submitAll rs5).tempHistory 4 = 20 := by decide
  exact ⟨inRange_26_50, h5,
    ((spike_rejection_iff rs5 26 50 inRange_26_50).1 h5 hns).2
      (by rw [c0, c1, c2, c3, c4]; norm_num)⟩

/-- C3: a reading outside temperature [-40, 125] or humidity [0, 100] is
rejected as out of range and leaves the whole filter state (stuck-value state
and spike history included) as it was; a reading inside both intervals, the
four boundary values included, is never rejected by the range check. -/
theorem range_check_exact (s : SensorState) (t h : ℚ) :
    ((t < -40 ∨ t > 125 ∨ h < 0 ∨ h > 100) → s.checkSensorValues t h = (.outOfRange, s)) ∧
    ((-40 ≤ t ∧ t ≤ 125 ∧ 0 ≤ h ∧ h ≤ 100) → (s.checkSensorValues t h).1 ≠ .outOfRange) ∧
    (s.checkSensorValues (-40) 0).1 ≠ .outOfRange ∧
    (s.checkSensorValues 125 100).1 ≠ .outOfRange := by
  have key : ∀ t h : ℚ, (-40 ≤ t ∧ t ≤ 125 ∧ 0 ≤ h ∧ h ≤ 100) →
      (s.checkSensorValues t h).1 ≠ .outOfRange := by
    intro t h ⟨h1, h2, h3, h4⟩
    rcases check_cases s t h with ⟨hb, _⟩ | ⟨_, _, he⟩ | ⟨_, _, _, he⟩ | ⟨_, _, _, he⟩
    · exfalso
      rcases hb with hb | hb | hb | hb <;> linarith
    · rw [he]; simp
    · rw [he]; simp
    · rw [he]; simp
  refine ⟨?_, key t h, key (-40) 0 (by norm_num), key 125 100 (by norm_num)⟩
  intro hb
  rcases check_cases s t h with ⟨_, he⟩ | ⟨⟨h1, h2, h3, h4⟩, _⟩ | ⟨⟨h1, h2, h3, h4⟩, _⟩ |
    ⟨⟨h1, h2, h3, h4⟩, _⟩
  · exact he
  all_goals
    exfalso
    unfold SensorManager.MIN_VALID_TEMP at h1
    unfold SensorManager.MAX_VALID_TEMP at h2
    unfold SensorManager.MIN_VALID_HUM at h3
    unfold SensorManager.MAX_VALID_HUM at h4
    rcases hb with hb | hb | hb | hb <;> linarith

/-- Witness of `range_check_exact`: -41 °C is rejected without a state change, 20 °C at 50 % is in range. -/
theorem range_check_exact_witness :
    SensorState.fresh.checkSensorValues (-41) 50 = (.outOfRange, SensorState.fresh) ∧
    (SensorState.fresh.checkSensorValues 20 50).1 ≠ .outOfRange :=
  ⟨(range_check_exact SensorState.fresh (-41) 50).1 (by norm_num),
   (range_check_exact SensorState.fresh 20 50).2.1 (by norm_num)⟩

/-! ## Properties of the sensor poll -/

theorem clearErrors_frame (c : Controller) :
    c.clearErrors.status.errorState = c.status.errorState := by
  unfold Controller.clearErrors
  split_ifs <;> rfl

theorem setFanSpeed_errorState (c : Controller) (v : ℚ) :
    (c.setFanSpeed v).status.errorState = c.status.errorState := by
  unfold Controller.setFanSpeed
  rw [clearErrors_frame]

theorem toggleFan_errorState (c : Controller) (b : Bool) :
    (c.toggleFan b).status.errorState = c.status.errorState := by
  unfold Controller.toggleFan
  cases b <;> simp [clearErrors_frame, setFanSpeed_errorState]

theorem shouldActivateCheck_errorState (c : Controller) (now hour : Nat) :
    (c.shouldActivateCheck now hour).2.status.errorState = c.status.errorState := by
  simp only [Controller.shouldActivateCheck]
  split_ifs <;> rfl

theorem calculateTargetSpeed_errorState (c : Controller) (k : FanClock) :
    (c.calculateTargetSpeed k).2.status.errorState = c.status.errorState := by
  simp only [Controller.calculateTargetSpeed]
  split_ifs <;> simp [shouldActivateCheck_errorState]

theorem updateAutomaticMode_errorState (c : Controller) (k : FanClock) :
    (c.updateAutomaticMode k).status.errorState = c.status.errorState := by
  simp only [Controller.updateAutomaticMode]
  split_ifs <;>
    simp [clearErrors_frame, setFanSpeed_errorState, toggleFan_errorState,
      calculateTargetSpeed_errorState]

theorem updateOperatingStats_errorState (st : SystemStatus) :
    st.updateOperatingStats.errorState = st.errorState := by
  simp only [SystemStatus.updateOperatingStats]
  split_ifs <;> rfl

theorem updateHeatCalculation_errorState (st : SystemStatus) (a b : Nat) :
    (st.updateHeatCalculation a b).errorState = st.errorState := by
  simp only [SystemStatus.updateHeatCalculation, SystemStatus.initializeSystem]
  split_ifs <;> rfl

theorem updateMinMaxTemperature_errorState (st : SystemStatus) (t : ℚ) :
    (st.updateMinMaxTemperature t).errorState = st.errorState := by
  simp only [SystemStatus.updateMinMaxTemperature]
  split_ifs <;> rfl


/-- A failed poll is `updateErrorState(false)` applied to the entry state with
only private sensor members other than `errorCount` changed. -/
theorem update_fail (s : System) (p : PollInput) (hf : (s.update p).1.ok = false) :
    ∃ sens : SensorState, sens.errorCount = s.sensor.errorCount ∧
      (s.update p).2 = System.updateErrorState { s with sensor := sens } false := by
  unfold System.update at hf ⊢
  by_cases hdue : usub p.now s.sensor.lastUpdate < s.getSensorInterval p.hour
  · rw [if_pos hdue] at hf
    exact absurd hf (by simp [PollResult.ok])
  · rw [if_neg hdue] at hf ⊢
    split
    · next t h hread =>
      by_cases hok : ((SensorState.checkSensorValues
          { s.sensor with lastUpdate := p.now % ULONG_SIZE } t h).1.ok) = true
      · exfalso
        simp only [hread, hok, if_true] at hf
        exact absurd hf (by simp [PollResult.ok])
      · simp only [hok, if_false]
        refine ⟨(SensorState.checkSensorValues
          { s.sensor with lastUpdate := p.now % ULONG_SIZE } t h).2, ?_, rfl⟩
        rcases check_cases { s.sensor with lastUpdate := p.now % ULONG_SIZE } t h with
          ⟨_, he⟩ | ⟨_, _, he⟩ | ⟨_, _, _, he⟩ | ⟨_, _, _, he⟩ <;> rw [he] <;> rfl
    · exact ⟨{ s.sensor with lastUpdate := p.now % ULONG_SIZE }, rfl, rfl⟩

/-- A successful poll ends with `updateErrorState(true)` on a state whose fault
state is still the one at entry. -/
theorem update_success (s : System) (p : PollInput) (hs : (s.update p).1 = .success) :
    ∃ x : System, x.ctl.status.errorState = s.ctl.status.errorState ∧
      (s.update p).2 = x.updateErrorState true := by
  unfold System.update at hs ⊢
  by_cases hdue : usub p.now s.sensor.lastUpdate < s.getSensorInterval p.hour
  · rw [if_pos hdue] at hs
    exact absurd hs (by simp)
  · rw [if_neg hdue] at hs ⊢
    split
    · next t h hread =>
      by_cases hok : ((SensorState.checkSensorValues
          { s.sensor with lastUpdate := p.now % ULONG_SIZE } t h).1.ok) = true
      · simp only [hok, if_true]
        unfold System.commitReading
        refine ⟨_, ?_, rfl⟩
        simp only []
        split_ifs <;>
          simp [updateHeatCalculation_errorState, updateOperatingStats_errorState,
            updateAutomaticMode_errorState, updateMinMaxTemperature_errorState]
      · exfalso
        simp only [hread, hok, if_false] at hs
        exact absurd hs (by simp)
    · next hread =>
      exfalso
      simp only [hread] at hs
      exact absurd hs (by simp)

theorem updateErrorState_false (s : System) :
    (s.updateErrorState false).sensor.errorCount = inc8 s.sensor.errorCount ∧
    (s.updateErrorState false).ctl.status =
      { s.ctl.status with errorState :=
          (if 3 ≤ inc8 s.sensor.errorCount then ErrorState.SENSOR_ERROR
           else s.ctl.status.errorState) } ∧
    (s.updateErrorState false).ctl.fan = s.ctl.fan ∧
    (s.updateErrorState false).ctl.hw = s.ctl.hw ∧
    (s.updateErrorState false).sensor = { s.sensor with errorCount := inc8 s.sensor.errorCount } := by
  simp only [System.updateErrorState, SensorManager.MAX_ERRORS]
  by_cases h3 : 3 ≤ inc8 s.sensor.errorCount
  · simp [h3]
  · simp [h3]

/-- C4: a due poll that fails (acquisition failure or rejected reading) leaves
every field of the status record except `errorState` as it was, and leaves the
fan controller and the fan hardware untouched. -/
theorem failed_poll_frame (s : System) (p : PollInput) (hf : (s.update p).1.ok = false) :
    (s.update p).2.ctl.status =
      { s.ctl.status with errorState := (s.update p).2.ctl.status.errorState } ∧
    (s.update p).2.ctl.fan = s.ctl.fan ∧
    (s.update p).2.ctl.hw = s.ctl.hw := by
  obtain ⟨sens, _, he⟩ := update_fail s p hf
  obtain ⟨_, h2, h3, h4, _⟩ := updateErrorState_false { s with sensor := sens }
  rw [he]
  refine ⟨?_, h3, h4⟩
  rw [h2]

/-- Witness of `failed_poll_frame`: a failed acquisition 20 s after power-up. -/
theorem failed_poll_frame_witness :
    ((System.boot 0 12).update (failedPoll 20000)).1.ok = false ∧
    ((System.boot 0 12).update (failedPoll 20000)).2.ctl.status =
      { (System.boot 0 12).ctl.status with
        errorState := ((System.boot 0 12).update (failedPoll 20000)).2.ctl.status.errorState } ∧
    ((System.boot 0 12).update (failedPoll 20000)).2.ctl.fan = (System.boot 0 12).ctl.fan ∧
    ((System.boot 0 12).update (failedPoll 20000)).2.ctl.hw = (System.boot 0 12).ctl.hw :=
  ⟨by decide, failed_poll_frame (System.boot 0 12) (failedPoll 20000) (by decide)⟩

theorem update_fail_count (s : System) (p : PollInput) (hf : (s.update p).1.ok = false) :
    (s.update p).2.sensor.errorCount = inc8 s.sensor.errorCount ∧
    (s.update p).2.ctl.status.errorState =
      (if 3 ≤ inc8 s.sensor.errorCount then ErrorState.SENSOR_ERROR
       else s.ctl.status.errorState) := by
  obtain ⟨sens, hc, he⟩ := update_fail s p hf
  obtain ⟨h1, h2, _⟩ := updateErrorState_false { s with sensor := sens }
  rw [he, h1, h2]
  simp only [hc]
  exact ⟨trivial, trivial⟩

theorem allFail_cons (s : System) (p : PollInput) (ps : List PollInput)
    (h : s.allFail (p :: ps) = true) :
    (s.update p).1.ok = false ∧ System.allFail (s.update p).2 ps = true := by
  simp only [System.allFail, Bool.and_eq_true, Bool.not_eq_true'] at h
  exact h

theorem pollAll_fail_count (ps : List PollInput) :
    ∀ s : System, s.allFail ps = true → s.sensor.errorCount < 256 →
      (s.pollAll ps).sensor.errorCount = (s.sensor.errorCount + ps.length) % 256 := by
  induction ps with
  | nil => intro s _ hlt; simp [System.pollAll]; omega
  | cons p ps ih =>
    intro s hf hlt
    obtain ⟨h1, h2⟩ := allFail_cons s p ps hf
    have hc := (update_fail_count s p h1).1
    have := ih (s.update p).2 h2 (by rw [hc]; unfold inc8; omega)
    simp only [System.pollAll, List.length_cons]
    rw [this, hc]
    unfold inc8
    omega

theorem pollAll_fail_sticky (ps : List PollInput) :
    ∀ s : System, s.allFail ps = true → s.ctl.status.errorState = .SENSOR_ERROR →
      (s.pollAll ps).ctl.status.errorState = .SENSOR_ERROR := by
  induction ps with
  | nil => intro s _ h; exact h
  | cons p ps ih =>
    intro s hf hE
    obtain ⟨h1, h2⟩ := allFail_cons s p ps hf
    have hs := (update_fail_count s p h1).2
    refine ih (s.update p).2 h2 ?_
    rw [hs, hE]
    simp

theorem pollAll_fail_below (ps : List PollInput) :
    ∀ s : System, s.allFail ps = true → s.sensor.errorCount + ps.length < 3 →
      (s.pollAll ps).ctl.status.errorState = s.ctl.status.errorState := by
  induction ps with
  | nil => intro s _ _; rfl
  | cons p ps ih =>
    intro s hf hlt
    simp only [List.length_cons] at hlt
    obtain ⟨h1, h2⟩ := allFail_cons s p ps hf
    obtain ⟨hc, hs⟩ := update_fail_count s p h1
    have hinc : inc8 s.sensor.errorCount = s.sensor.errorCount + 1 := by unfold inc8; omega
    have := ih (s.update p).2 h2 (by rw [hc, hinc]; omega)
    simp only [System.pollAll]
    rw [this, hs, hinc, if_neg (by omega)]

theorem pollAll_fail_reach (ps : List PollInput) :
    ∀ s : System, s.allFail ps = true → s.sensor.errorCount < 3 →
      3 ≤ s.sensor.errorCount + ps.length →
      (s.pollAll ps).ctl.status.errorState = .SENSOR_ERROR := by
  induction ps with
  | nil => intro s _ h1 h2; simp only [List.length_nil] at h2; omega
  | cons p ps ih =>
    intro s hf hlt hge
    simp only [List.length_cons] at hge
    obtain ⟨h1, h2⟩ := allFail_cons s p ps hf
    obtain ⟨hc, hs⟩ := update_fail_count s p h1
    have hinc : inc8 s.sensor.errorCount = s.sensor.errorCount + 1 := by unfold inc8; omega
    simp only [System.pollAll]
    by_cases h3 : 3 ≤ s.sensor.errorCount + 1
    · apply pollAll_fail_sticky ps _ h2
      rw [hs, hinc, if_pos h3]
    · exact ih (s.update p).2 h2 (by rw [hc, hinc]; omega) (by rw [hc, hinc]; omega)

/-- C5 (amended): from an error counter of 0, after `k` consecutive failed due
polls the counter is `k mod 256` (so `k` itself while `k < 256`), the fault
state is unchanged for `k < 3` and is `SENSOR_ERROR` for every `k ≥ 3`. -/
theorem failure_counter_and_fault (s : System) (ps : List PollInput)
    (h0 : s.sensor.errorCount = 0) (hf : s.allFail ps = true) :
    (s.pollAll ps).sensor.errorCount = ps.length % 256 ∧
    (ps.length < 256 → (s.pollAll ps).sensor.errorCount = ps.length) ∧
    (ps.length < 3 → (s.pollAll ps).ctl.status.errorState = s.ctl.status.errorState) ∧
    (3 ≤ ps.length → (s.pollAll ps).ctl.status.errorState = .SENSOR_ERROR) := by
  have hc := pollAll_fail_count ps s hf (by rw [h0]; decide)
  rw [h0, Nat.zero_add] at hc
  refine ⟨hc, ?_, ?_, ?_⟩
  · intro hlt; rw [hc, Nat.mod_eq_of_lt hlt]
  · intro hlt; exact pollAll_fail_below ps s hf (by rw [h0]; omega)
  · intro hge; exact pollAll_fail_reach ps s hf (by rw [h0]; decide) (by rw [h0]; omega)

theorem failedPolls_allFail_4 : (System.boot 0 12).allFail (failedPolls 4) = true := by decide

/-- Witness of `failure_counter_and_fault`: four failed acquisitions after power-up. -/
theorem failure_counter_and_fault_witness :
    (System.boot 0 12).sensor.errorCount = 0 ∧
    (System.boot 0 12).allFail (failedPolls 4) = true ∧
    ((System.boot 0 12).pollAll (failedPolls 4)).sensor.errorCount = 4 ∧
    ((System.boot 0 12).pollAll (failedPolls 4)).ctl.status.errorState = .SENSOR_ERROR :=
  ⟨rfl, failedPolls_allFail_4,
    (failure_counter_and_fault (System.boot 0 12) (failedPolls 4) rfl failedPolls_allFail_4).2.1
      (by decide),
    (failure_counter_and_fault (System.boot 0 12) (failedPolls 4) rfl failedPolls_allFail_4).2.2.2
      (by decide)⟩

set_option maxRecDepth 100000 in
theorem failedPolls_allFail_256 : (System.boot 0 12).allFail (failedPolls 256) = true := by
  decide

/-- C5 (counterexample): after 256 consecutive failed due polls from power-up
(counter 0, no fault) the 8-bit error counter is 0, not 256. -/
theorem failure_counter_wraps_at_256 :
    (System.boot 0 12).sensor.errorCount = 0 ∧
    (System.boot 0 12).ctl.status.errorState ≠ .SENSOR_ERROR ∧
    (System.boot 0 12).allFail (failedPolls 256) = true ∧
    (failedPolls 256).length = 256 ∧
    ((System.boot 0 12).pollAll (failedPolls 256)).sensor.errorCount = 0 := by
  refine ⟨rfl, by decide, failedPolls_allFail_256, by simp [failedPolls], ?_⟩
  rw [pollAll_fail_count _ _ failedPolls_allFail_256 (by decide)]
  simp [failedPolls, System.boot, SensorState.fresh]

theorem updateErrorState_true (s : System) :
    (s.updateErrorState true).sensor.errorCount = 0 ∧
    (s.updateErrorState true).ctl.status.errorState =
      (if s.ctl.status.errorState = .SENSOR_ERROR then ErrorState.NONE
       else s.ctl.status.errorState) := by
  simp only [System.updateErrorState]
  by_cases h : s.ctl.status.errorState = .SENSOR_ERROR
  · simp [h]
  · simp [h]

/-- C6: an accepted reading resets the pipeline error counter to 0 whatever it
was, turns the fault state `SENSOR_ERROR` into `NONE`, and leaves `NONE`,
`WIFI_ERROR` and `FAN_ERROR` as they were. -/
theorem accepted_reading_clears_fault (s : System) (p : PollInput)
    (hs : (s.update p).1 = .success) :
    (s.update p).2.sensor.errorCount = 0 ∧
    (s.ctl.status.errorState = .SENSOR_ERROR → (s.update p).2.ctl.status.errorState = .NONE) ∧
    (s.ctl.status.errorState = .NONE → (s.update p).2.ctl.status.errorState = .NONE) ∧
    (s.ctl.status.errorState = .WIFI_ERROR →
      (s.update p).2.ctl.status.errorState = .WIFI_ERROR) ∧
    (s.ctl.status.errorState = .FAN_ERROR →
      (s.update p).2.ctl.status.errorState = .FAN_ERROR) := by
  obtain ⟨x, hx, he⟩ := update_success s p hs
  obtain ⟨h1, h2⟩ := updateErrorState_true x
  rw [he, h1, h2, hx]
  refine ⟨rfl, ?_, ?_, ?_, ?_⟩ <;> intro h <;> rw [h] <;> simp

/-- Witness of `accepted_reading_clears_fault`: after three failed acquisitions
a reading of 20 °C at 50 % is accepted and clears counter and fault. -/
theorem accepted_reading_clears_fault_witness :
    (((System.boot 0 12).pollAll (failedPolls 3)).update (goodPoll 80000 20 50)).1 = .success ∧
    ((System.boot 0 12).pollAll (failedPolls 3)).ctl.status.errorState = .SENSOR_ERROR ∧
    (((System.boot 0 12).pollAll (failedPolls 3)).update
      (goodPoll 80000 20 50)).2.sensor.errorCount = 0 ∧
    (((System.boot 0 12).pollAll (failedPolls 3)).update
      (goodPoll 80000 20 50)).2.ctl.status.errorState = .NONE :=
  ⟨by decide, by decide,
    (accepted_reading_clears_fault _ (goodPoll 80000 20 50) (by decide)).1,
    (accepted_reading_clears_fault _ (goodPoll 80000 20 50) (by decide)).2.1 (by decide)⟩

/-! ## Properties of the fan state machine -/

theorem tempChangeRate_updateTempHistory (f : FanState) (k : FanClock) (a b : ℚ) :
    (f.updateTempHistory a).tempChangeRate k b = f.tempChangeRate k b := rfl

/-- The branch of `calculateTargetSpeed` for `temp ≥ SLEEP_TEMP_THRESHOLD`. -/
theorem calculateTargetSpeed_active (c : Controller) (k : FanClock)
    (hT : 22 ≤ c.status.temperature) :
    (c.calculateTargetSpeed k).2.fan.inSleepMode = false ∧
    ((c.rate k > 0.5 ∨ c.trend > 0.3) →
      (c.calculateTargetSpeed k).1 = 0.6 + (c.status.temperature - 25) / (100 - 25) * 0.4) ∧
    (¬ (c.rate k > 0.5 ∨ c.trend > 0.3) → 27 ≤ c.status.temperature →
      (c.calculateTargetSpeed k).1 =
        0.3 + ((c.status.temperature - 25) / (100 - 25)) ^ 2 * 0.7) ∧
    (¬ (c.rate k > 0.5 ∨ c.trend > 0.3) → c.status.temperature < 27 →
      23 < c.status.temperature →
      (c.calculateTargetSpeed k).1 = if c.status.currentFanSpeed < 0.1 then 0 else 0.3) ∧
    (¬ (c.rate k > 0.5 ∨ c.trend > 0.3) → c.status.temperature ≤ 23 →
      (c.calculateTargetSpeed k).1 = 0 ∧
      (c.calculateTargetSpeed k).2.status.autoModeStatus = .empty) := by
  have hT' : ¬ c.status.temperature < FanController.SLEEP_TEMP_THRESHOLD := by
    unfold FanController.SLEEP_TEMP_THRESHOLD; linarith
  simp only [Controller.calculateTargetSpeed, Controller.rate, Controller.trend,
    Config.TEMP_THRESHOLD, Config.MAX_TEMP, Config.HYSTERESIS]
  rw [if_neg hT']
  simp only [tempChangeRate_updateTempHistory]
  have h22 : ¬ c.status.temperature < FanController.SLEEP_TEMP_THRESHOLD := hT'
  by_cases hw : c.fan.tempChangeRate k c.status.temperature > 0.5 ∨
      (c.fan.updateTempHistory c.status.temperature).getTempTrend > 0.3
  · rw [if_pos hw]
    exact ⟨rfl, fun _ => rfl, fun h => absurd hw h, fun h => absurd hw h, fun h => absurd hw h⟩
  · rw [if_neg hw]
    by_cases h27 : c.status.temperature ≥ 25 + 2
    · rw [if_pos h27]
      refine ⟨rfl, fun h => absurd h hw, fun _ _ => rfl, fun _ h => ?_, fun _ h => ?_⟩
      · exfalso; linarith
      · exfalso; linarith
    · rw [if_neg h27]
      by_cases h23 : c.status.temperature > 25 - 2
      · rw [if_pos h23]
        have hdead : ¬ (c.fan.tempChangeRate k c.status.temperature < 0 ∧
            c.status.temperature < FanController.SLEEP_TEMP_THRESHOLD) := fun h => h22 h.2
        rw [if_neg hdead]
        by_cases hcur : c.status.currentFanSpeed < 0.1
        · rw [if_pos hcur]
          refine ⟨rfl, fun h => absurd h hw, fun _ h => ?_, fun _ _ _ => by rw [if_pos hcur],
            fun _ h => ?_⟩
          · exfalso; linarith
          · exfalso; linarith
        · rw [if_neg hcur]
          refine ⟨rfl, fun h => absurd h hw, fun _ h => ?_, fun _ _ _ => by rw [if_neg hcur],
            fun _ h => ?_⟩
          · exfalso; linarith
          · exfalso; linarith
      · rw [if_neg h23]
        refine ⟨rfl, fun h => absurd h hw, fun _ h => ?_, fun _ _ h => ?_, fun _ _ => ⟨rfl, rfl⟩⟩
        · exfalso; linarith
        · exfalso; linarith

theorem shouldActivateCheck_cases (c : Controller) (now hour : Nat) :
    (c.fan.inSleepMode = false ∧ c.shouldActivateCheck now hour = (true, c)) ∨
    (c.fan.inSleepMode = true ∧ usub now c.fan.lastCheckTime ≥ getCheckInterval hour ∧
      c.shouldActivateCheck now hour =
        (true, { c with
          fan := { c.fan with lastCheckTime := now % ULONG_SIZE }
          status := { c.status with autoModeStatus := .checkingForActivity } })) ∨
    (c.fan.inSleepMode = true ∧ ¬ usub now c.fan.lastCheckTime ≥ getCheckInterval hour ∧
      usub now c.fan.lastCheckTime < Config.CHECK_DURATION ∧
      c.shouldActivateCheck now hour = (true, c)) ∨
    (c.fan.inSleepMode = true ∧ ¬ c.fan.windowOpen now hour ∧
      (c.shouldActivateCheck now hour).1 = false ∧
      (c.shouldActivateCheck now hour).2.fan = c.fan) := by
  unfold Controller.shouldActivateCheck FanState.windowOpen
  cases hs : c.fan.inSleepMode with
  | false => left; simp
  | true =>
    right
    simp only [Bool.not_true, Bool.false_eq_true, if_false]
    by_cases h1 : usub now c.fan.lastCheckTime ≥ getCheckInterval hour
    · left; exact ⟨trivial, h1, by rw [if_pos h1]⟩
    · right
      by_cases h2 : usub now c.fan.lastCheckTime < Config.CHECK_DURATION
      · left; exact ⟨trivial, h1, h2, by rw [if_neg h1, if_pos h2]⟩
      · right
        refine ⟨trivial, ?_, ?_, ?_⟩
        · rintro (h | h)
          · exact h1 h
          · exact h2 h
        · rw [if_neg h1, if_neg h2]
        · rw [if_neg h1, if_neg h2]

/-- The branch of `calculateTargetSpeed` for `temp < SLEEP_TEMP_THRESHOLD`. -/
theorem calculateTargetSpeed_sleep (c : Controller) (k : FanClock)
    (hT : c.status.temperature < 22) :
    ((c.fan.inSleepMode = false ∨ c.fan.windowOpen k.tCheck k.hour) →
      (c.calculateTargetSpeed k).1 = 0.2 ∧
      (c.calculateTargetSpeed k).2.fan.inSleepMode =
        (if c.rate k > 0.2 ∨ c.trend > 0.2 then false else c.fan.inSleepMode)) ∧
    (c.fan.inSleepMode = true → ¬ c.fan.windowOpen k.tCheck k.hour →
      (c.calculateTargetSpeed k).1 = 0 ∧
      (c.calculateTargetSpeed k).2.fan.inSleepMode = true) := by
  have hT' : c.status.temperature < FanController.SLEEP_TEMP_THRESHOLD := by
    unfold FanController.SLEEP_TEMP_THRESHOLD; exact hT
  simp only [Controller.calculateTargetSpeed, Controller.rate, Controller.trend,
    FanController.TEMP_RISE_THRESHOLD, FanController.MIN_SPEED]
  rw [if_pos hT']
  simp only [tempChangeRate_updateTempHistory]
  have hwin : ∀ f : FanState, f = c.fan.updateTempHistory c.status.temperature →
      (f.windowOpen k.tCheck k.hour ↔ c.fan.windowOpen k.tCheck k.hour) := by
    intro f hf; rw [hf]; rfl
  rcases shouldActivateCheck_cases
      { status := c.status, fan := c.fan.updateTempHistory c.status.temperature, hw := c.hw }
      k.tCheck k.hour with ⟨hs, he⟩ | ⟨hs, h1, he⟩ | ⟨hs, h1, h2, he⟩ | ⟨hs, hno, he1, he2⟩
  · have hs' : c.fan.inSleepMode = false := hs
    simp only [he, Bool.not_true, Bool.false_eq_true, if_false]
    constructor
    · intro _
      by_cases hw : c.fan.tempChangeRate k c.status.temperature > 0.2 ∨
          (c.fan.updateTempHistory c.status.temperature).getTempTrend > 0.2
      · simp only [if_pos hw]; exact ⟨trivial, trivial⟩
      · simp only [if_neg hw]; exact ⟨trivial, rfl⟩
    · intro h; rw [hs'] at h; exact absurd h (by simp)
  · have hs' : c.fan.inSleepMode = true := hs
    have hopen : c.fan.windowOpen k.tCheck k.hour := Or.inl h1
    simp only [he, Bool.not_true, Bool.false_eq_true, if_false]
    constructor
    · intro _
      by_cases hw : c.fan.tempChangeRate k c.status.temperature > 0.2 ∨
          (c.fan.updateTempHistory c.status.temperature).getTempTrend > 0.2
      · simp only [if_pos hw]; exact ⟨trivial, trivial⟩
      · simp only [if_neg hw]; exact ⟨trivial, rfl⟩
    · intro _ h; exact absurd hopen h
  · have hs' : c.fan.inSleepMode = true := hs
    have hopen : c.fan.windowOpen k.tCheck k.hour := Or.inr h2
    simp only [he, Bool.not_true, Bool.false_eq_true, if_false]
    constructor
    · intro _
      by_cases hw : c.fan.tempChangeRate k c.status.temperature > 0.2 ∨
          (c.fan.updateTempHistory c.status.temperature).getTempTrend > 0.2
      · simp only [if_pos hw]; exact ⟨trivial, trivial⟩
      · simp only [if_neg hw]; exact ⟨trivial, rfl⟩
    · intro _ h; exact absurd hopen h
  · have hs' : c.fan.inSleepMode = true := hs
    have hno' : ¬ c.fan.windowOpen k.tCheck k.hour := hno
    simp only [he1, he2, Bool.not_false, if_true]
    constructor
    · intro h
      rcases h with h | h
      · rw [hs'] at h; exact absurd h (by simp)
      · exact absurd h hno'
    · intro _ _
      exact ⟨trivial, hs'⟩


/-- The loop of `getTempTrend` telescopes: the result is the difference between
the cell before the cursor (newest sample) and the cell at the cursor (oldest
sample), divided by 5. -/
theorem getTempTrend_eq (f : FanState) :
    f.getTempTrend =
      (f.tempHistory (cell6 (f.tempHistoryIndex.val + 5)) - f.tempHistory f.tempHistoryIndex) / 5 := by
  unfold FanState.getTempTrend
  generalize f.tempHistoryIndex = i
  generalize f.tempHistory = h
  fin_cases i <;> simp [List.range', cell6]

theorem cell6_newest : ∀ i : Fin 6, cell6 ((cell6 (i.val + 1)).val + 5) = i := by decide

theorem cell6_next_ne : ∀ i : Fin 6, cell6 (i.val + 1) ≠ i := by decide

/-- The trend seen by a tick: the pushed temperature minus the oldest remaining
sample, divided by 5. -/
theorem trend_eq (c : Controller) :
    c.trend =
      (c.status.temperature - c.fan.tempHistory (cell6 (c.fan.tempHistoryIndex.val + 1))) / 5 := by
  unfold Controller.trend
  rw [getTempTrend_eq]
  show ((if cell6 ((cell6 (c.fan.tempHistoryIndex.val + 1)).val + 5) = c.fan.tempHistoryIndex
      then c.status.temperature
      else c.fan.tempHistory (cell6 ((cell6 (c.fan.tempHistoryIndex.val + 1)).val + 5))) -
    (if cell6 (c.fan.tempHistoryIndex.val + 1) = c.fan.tempHistoryIndex
      then c.status.temperature
      else c.fan.tempHistory (cell6 (c.fan.tempHistoryIndex.val + 1)))) / 5 = _
  rw [if_pos (cell6_newest _), if_neg (cell6_next_ne _)]

theorem sampleController_trend (temp last speed : ℚ) (b : Bool) :
    (sampleController temp last speed b).trend = (temp - last) / 5 := by
  rw [trend_eq]; rfl

theorem sampleController_rate (temp last speed : ℚ) (b : Bool) :
    (sampleController temp last speed b).rate (clockAt 60000) = temp - last := by
  have ht : (sampleController temp last speed b).fan.timeDiff (clockAt 60000) = 60000 := by
    show usub 60000 0 = 60000
    decide
  unfold Controller.rate FanState.tempChangeRate
  rw [ht]
  simp [sampleController]

/-- C7 (amended): on a tick with T ≥ 22 in which the warm-up trigger holds the
target speed is 0.6 + 0.4 · (T − 25) / 75, without clamping; it lies in
[0.6, 1.0] exactly when 25 ≤ T ≤ 100, and there it equals the clamped formula. -/
theorem warmup_target_speed (c : Controller) (k : FanClock)
    (hT : 22 ≤ c.status.temperature) (hw : c.rate k > 0.5 ∨ c.trend > 0.3) :
    (c.calculateTargetSpeed k).1 = 0.6 + 0.4 * ((c.status.temperature - 25) / 75) ∧
    ((25 ≤ c.status.temperature ∧ c.status.temperature ≤ 100) ↔
      (0.6 ≤ (c.calculateTargetSpeed k).1 ∧ (c.calculateTargetSpeed k).1 ≤ 1)) ∧
    ((25 ≤ c.status.temperature ∧ c.status.temperature ≤ 100) →
      (c.calculateTargetSpeed k).1 =
        0.6 + 0.4 * clamp01 ((c.status.temperature - 25) / 75)) := by
  have h := (calculateTargetSpeed_active c k hT).2.1 hw
  rw [h]
  refine ⟨by ring, ?_, ?_⟩
  · constructor
    · rintro ⟨h1, h2⟩; constructor <;> linarith
    · rintro ⟨h1, h2⟩; constructor <;> linarith
  · rintro ⟨h1, h2⟩
    have e1 : min ((c.status.temperature - 25) / 75) 1 = (c.status.temperature - 25) / 75 :=
      min_eq_left (by linarith)
    have e2 : max 0 ((c.status.temperature - 25) / 75) = (c.status.temperature - 25) / 75 :=
      max_eq_right (by linarith)
    unfold clamp01
    rw [e1, e2]
    ring

/-- Witness of `warmup_target_speed`: 40 °C, up from 30 °C one minute earlier. -/
theorem warmup_target_speed_witness :
    (22 : ℚ) ≤ (sampleController 40 30 0 false).status.temperature ∧
    ((sampleController 40 30 0 false).calculateTargetSpeed (clockAt 60000)).1
      = 0.6 + 0.4 * (((sampleController 40 30 0 false).status.temperature - 25) / 75) :=
  ⟨by show (22 : ℚ) ≤ 40; norm_num,
   (warmup_target_speed (sampleController 40 30 0 false) (clockAt 60000)
      (by show (22 : ℚ) ≤ 40; norm_num)
      (Or.inl (by rw [sampleController_rate]; norm_num))).1⟩

/-- C7 (counterexample): at T = 22 with the warm-up trigger on (rate 2 °C/min)
the target speed is 0.584, below 0.6 and different from the clamped formula. -/
theorem warmup_at_22_is_below_floor :
    (22 : ℚ) ≤ (sampleController 22 20 0 false).status.temperature ∧
    ((sampleController 22 20 0 false).rate (clockAt 60000) > 0.5 ∨
      (sampleController 22 20 0 false).trend > 0.3) ∧
    ((sampleController 22 20 0 false).calculateTargetSpeed (clockAt 60000)).1 = 0.584 ∧
    ((sampleController 22 20 0 false).calculateTargetSpeed (clockAt 60000)).1 ≠
      0.6 + 0.4 * clamp01 (((sampleController 22 20 0 false).status.temperature - 25) / 75) ∧
    ¬ (0.6 ≤ ((sampleController 22 20 0 false).calculateTargetSpeed (clockAt 60000)).1) := by
  have hT : (22 : ℚ) ≤ (sampleController 22 20 0 false).status.temperature := by
    show (22 : ℚ) ≤ 22; norm_num
  have hw : (sampleController 22 20 0 false).rate (clockAt 60000) > 0.5 ∨
      (sampleController 22 20 0 false).trend > 0.3 :=
    Or.inl (by rw [sampleController_rate]; norm_num)
  have h := (calculateTargetSpeed_active _ (clockAt 60000) hT).2.1 hw
  have hv : ((sampleController 22 20 0 false).calculateTargetSpeed (clockAt 60000)).1 = 0.584 := by
    rw [h]; show (0.6 : ℚ) + (22 - 25) / (100 - 25) * 0.4 = 0.584; norm_num
  refine ⟨hT, hw, hv, ?_, ?_⟩
  · rw [hv]
    show (0.584 : ℚ) ≠ 0.6 + 0.4 * clamp01 ((22 - 25) / 75)
    unfold clamp01
    norm_num
  · rw [hv]; norm_num


/-- Below 22 °C an Active machine takes the sleep-mode branch with the check
gate open: it commands `MIN_SPEED` and stays Active. -/
theorem active_tick_below_threshold (c : Controller) (k : FanClock)
    (ha : c.fan.inSleepMode = false) (hT : c.status.temperature < 22) :
    (c.calculateTargetSpeed k).1 = 0.2 ∧ (c.calculateTargetSpeed k).2.fan.inSleepMode = false := by
  obtain ⟨h1, h2⟩ := (calculateTargetSpeed_sleep c k hT).1 (Or.inl ha)
  refine ⟨h1, ?_⟩
  rw [h2, ha]
  simp

/-- C8 (code behaviour at the failing input): an Active machine at 21 °C,
cooling at 0.5 °C/min from 21.5 °C with commanded speed 0, is told to run at 0.2
and stays Active; the `inSleepMode = true` assignment is never reached. -/
theorem active_cooling_tick_stays_active :
    (sampleController 21 21.5 0 false).fan.inSleepMode = false ∧
    (sampleController 21 21.5 0 false).status.currentFanSpeed < 0.1 ∧
    (sampleController 21 21.5 0 false).rate (clockAt 60000) < 0 ∧
    (sampleController 21 21.5 0 false).status.temperature < 22 ∧
    ((sampleController 21 21.5 0 false).calculateTargetSpeed (clockAt 60000)).1 = 0.2 ∧
    ((sampleController 21 21.5 0 false).calculateTargetSpeed
      (clockAt 60000)).2.fan.inSleepMode = false := by
  have hT : (sampleController 21 21.5 0 false).status.temperature < 22 := by
    show (21 : ℚ) < 22; norm_num
  refine ⟨rfl, ?_, ?_, hT, active_tick_below_threshold _ _ rfl hT⟩
  · show (0 : ℚ) < 0.1; norm_num
  · rw [sampleController_rate]; norm_num

/-- C9: a tick in Sleep with T < 22 inside an activity-check window commands
the minimum speed 0.2; the machine becomes Active if rate > 0.2 or trend > 0.2
and stays in Sleep otherwise. With the previous tick at 20 °C less than five
minutes ago and T = 21, the machine becomes Active with a non-zero target. -/
theorem sleep_window_tick (c : Controller) (k : FanClock)
    (hs : c.fan.inSleepMode = true) (hT : c.status.temperature < 22)
    (hw : c.fan.windowOpen k.tCheck k.hour) :
    (c.calculateTargetSpeed k).1 = 0.2 ∧
    ((c.rate k > 0.2 ∨ c.trend > 0.2) → (c.calculateTargetSpeed k).2.fan.inSleepMode = false) ∧
    (¬ (c.rate k > 0.2 ∨ c.trend > 0.2) →
      (c.calculateTargetSpeed k).2.fan.inSleepMode = true) ∧
    (c.fan.lastTemperature = 20 → c.status.temperature = 21 →
      0 < c.fan.timeDiff k → c.fan.timeDiff k < 300000 →
      (c.calculateTargetSpeed k).2.fan.inSleepMode = false ∧ (c.calculateTargetSpeed k).1 ≠ 0) := by
  obtain ⟨h1, h2⟩ := (calculateTargetSpeed_sleep c k hT).1 (Or.inr hw)
  have hA : (c.rate k > 0.2 ∨ c.trend > 0.2) →
      (c.calculateTargetSpeed k).2.fan.inSleepMode = false := by
    intro h; rw [h2, if_pos h]
  refine ⟨h1, hA, ?_, ?_⟩
  · intro h; rw [h2, if_neg h, hs]
  · intro hl ht hpos hlt
    refine ⟨hA (Or.inl ?_), by rw [h1]; norm_num⟩
    unfold Controller.rate FanState.tempChangeRate
    rw [if_pos hpos, hl, ht]
    have hx : (0 : ℚ) < (c.fan.timeDiff k : ℚ) := by exact_mod_cast hpos
    have hy : (c.fan.timeDiff k : ℚ) < 300000 := by exact_mod_cast hlt
    rw [gt_iff_lt, lt_div_iff₀ (by positivity)]
    linarith

/-- Witness of `sleep_window_tick`: asleep at 21 °C, one minute after a tick at
20 °C, with a check interval elapsed since the last check. -/
theorem sleep_window_tick_witness :
    (sampleController 21 20 0 true).fan.inSleepMode = true ∧
    (sampleController 21 20 0 true).status.temperature < 22 ∧
    (sampleController 21 20 0 true).fan.windowOpen (clockAt 60000).tCheck (clockAt 60000).hour ∧
    ((sampleController 21 20 0 true).calculateTargetSpeed (clockAt 60000)).1 = 0.2 ∧
    ((sampleController 21 20 0 true).calculateTargetSpeed
      (clockAt 60000)).2.fan.inSleepMode = false := by
  have hT : (sampleController 21 20 0 true).status.temperature < 22 := by
    show (21 : ℚ) < 22; norm_num
  have hw : (sampleController 21 20 0 true).fan.windowOpen (clockAt 60000).tCheck
      (clockAt 60000).hour := Or.inl (by decide)
  exact ⟨rfl, hT, hw,
    (sleep_window_tick (sampleController 21 20 0 true) (clockAt 60000) rfl hT hw).1,
    ((sleep_window_tick (sampleController 21 20 0 true) (clockAt 60000) rfl hT hw).2.2.2
      rfl rfl (by decide) (by decide)).1⟩

/-- C10: on a tick with 23 < T < 27 in which the warm-up trigger does not hold
the target speed is 0.3 when the commanded speed is at least 0.1 and exactly 0
when it is below 0.1, and the machine is Active afterwards; in particular for
T = 24, commanded speed 0 and rate 0. -/
theorem cooling_band_tick (c : Controller) (k : FanClock)
    (h23 : 23 < c.status.temperature) (h27 : c.status.temperature < 27)
    (hno : c.rate k ≤ 0.5 ∧ c.trend ≤ 0.3) :
    (0.1 ≤ c.status.currentFanSpeed → (c.calculateTargetSpeed k).1 = 0.3) ∧
    (c.status.currentFanSpeed < 0.1 → (c.calculateTargetSpeed k).1 = 0) ∧
    (c.calculateTargetSpeed k).2.fan.inSleepMode = false ∧
    (c.status.temperature = 24 → c.status.currentFanSpeed = 0 → c.rate k = 0 →
      (c.calculateTargetSpeed k).1 = 0 ∧ (c.calculateTargetSpeed k).2.fan.inSleepMode = false) := by
  have hnw : ¬ (c.rate k > 0.5 ∨ c.trend > 0.3) := by
    rintro (h | h)
    · exact absurd h (not_lt.mpr hno.1)
    · exact absurd h (not_lt.mpr hno.2)
  obtain ⟨hA, _, _, hC, _⟩ := calculateTargetSpeed_active c k (by linarith)
  have hv := hC hnw h27 h23
  have hlow : c.status.currentFanSpeed < 0.1 → (c.calculateTargetSpeed k).1 = 0 := by
    intro h; rw [hv, if_pos h]
  refine ⟨?_, hlow, hA, ?_⟩
  · intro h; rw [hv, if_neg (not_lt.mpr h)]
  · intro _ hc _
    exact ⟨hlow (by rw [hc]; norm_num), hA⟩

/-- Witness of `cooling_band_tick`: steady 24 °C with the fan at rest. -/
theorem cooling_band_tick_witness :
    (23 : ℚ) < (sampleController 24 24 0 false).status.temperature ∧
    (sampleController 24 24 0 false).status.temperature < 27 ∧
    ((sampleController 24 24 0 false).rate (clockAt 60000) ≤ 0.5 ∧
      (sampleController 24 24 0 false).trend ≤ 0.3) ∧
    ((sampleController 24 24 0 false).calculateTargetSpeed (clockAt 60000)).1 = 0 ∧
    ((sampleController 24 24 0 false).calculateTargetSpeed
      (clockAt 60000)).2.fan.inSleepMode = false := by
  have h23 : (23 : ℚ) < (sampleController 24 24 0 false).status.temperature := by
    show (23 : ℚ) < 24; norm_num
  have h27 : (sampleController 24 24 0 false).status.temperature < 27 := by
    show (24 : ℚ) < 27; norm_num
  have hr : (sampleController 24 24 0 false).rate (clockAt 60000) = 0 := by
    rw [sampleController_rate]; norm_num
  have hno : (sampleController 24 24 0 false).rate (clockAt 60000) ≤ 0.5 ∧
      (sampleController 24 24 0 false).trend ≤ 0.3 := by
    rw [hr, sampleController_trend]; norm_num
  exact ⟨h23, h27, hno,
    (cooling_band_tick (sampleController 24 24 0 false) (clockAt 60000) h23 h27 hno).2.2.2
      rfl rfl hr⟩

/-! ## Operating phase and the phase gap -/

/-- The operating-phase speed is strictly increasing in the temperature above 25 °C. -/
theorem operating_speed_strictMono {a b : ℚ} (ha : 25 ≤ a) (hab : a < b) :
    0.3 + ((a - 25) / (100 - 25)) ^ 2 * 0.7 < 0.3 + ((b - 25) / (100 - 25)) ^ 2 * 0.7 := by
  have h1 : (0 : ℚ) ≤ (a - 25) / (100 - 25) := by
    apply div_nonneg <;> linarith
  have h2 : (a - 25) / (100 - 25) < (b - 25) / (100 - 25) := by
    apply div_lt_div_of_pos_right _ (by norm_num)
    linarith
  have h3 : ((a - 25) / (100 - 25)) ^ 2 < ((b - 25) / (100 - 25)) ^ 2 :=
    pow_lt_pow_left₀ h2 h1 (by norm_num)
  linarith

/-- C11: on a tick with T ≥ 27 without the warm-up trigger the target speed is
0.3 + 0.7 · ((T − 25) / 75)²; between two such ticks with 27 ≤ T₁ < T₂ ≤ 100
the target strictly increases, on [27, 100] it stays within [0.3, 1.0], and at
T = 100 it is 1.0. -/
theorem operating_target_speed (c : Controller) (k : FanClock)
    (hT : 27 ≤ c.status.temperature) (hno : ¬ (c.rate k > 0.5 ∨ c.trend > 0.3)) :
    (c.calculateTargetSpeed k).1 = 0.3 + 0.7 * ((c.status.temperature - 25) / 75) ^ 2 ∧
    (∀ (c2 : Controller) (k2 : FanClock), ¬ (c2.rate k2 > 0.5 ∨ c2.trend > 0.3) →
      c.status.temperature < c2.status.temperature → c2.status.temperature ≤ 100 →
      (c.calculateTargetSpeed k).1 < (c2.calculateTargetSpeed k2).1) ∧
    (c.status.temperature ≤ 100 →
      0.3 ≤ (c.calculateTargetSpeed k).1 ∧ (c.calculateTargetSpeed k).1 ≤ 1) ∧
    (c.status.temperature = 100 → (c.calculateTargetSpeed k).1 = 1) := by
  have h := (calculateTargetSpeed_active c k (by linarith)).2.2.1 hno hT
  refine ⟨by rw [h]; ring, ?_, ?_, ?_⟩
  · intro c2 k2 hno2 hlt _
    have h2 := (calculateTargetSpeed_active c2 k2 (by linarith)).2.2.1 hno2 (by linarith)
    rw [h, h2]
    exact operating_speed_strictMono (by linarith) hlt
  · intro h100
    rw [h]
    have h1 : (0 : ℚ) ≤ (c.status.temperature - 25) / (100 - 25) := by
      apply div_nonneg <;> linarith
    have h2 : (c.status.temperature - 25) / (100 - 25) ≤ 1 := by
      rw [div_le_one (by norm_num)]; linarith
    have h3 : ((c.status.temperature - 25) / (100 - 25)) ^ 2 ≤ 1 := pow_le_one₀ h1 h2
    have h4 : (0 : ℚ) ≤ ((c.status.temperature - 25) / (100 - 25)) ^ 2 := sq_nonneg _
    constructor <;> linarith
  · intro h100
    rw [h, h100]
    norm_num

/-- Witness of `operating_target_speed`: steady 50 °C. -/
theorem operating_target_speed_witness :
    (27 : ℚ) ≤ (sampleController 50 50 0.5 false).status.temperature ∧
    ¬ ((sampleController 50 50 0.5 false).rate (clockAt 60000) > 0.5 ∨
      (sampleController 50 50 0.5 false).trend > 0.3) ∧
    ((sampleController 50 50 0.5 false).calculateTargetSpeed (clockAt 60000)).1 =
      0.3 + 0.7 * (((sampleController 50 50 0.5 false).status.temperature - 25) / 75) ^ 2 := by
  have hT : (27 : ℚ) ≤ (sampleController 50 50 0.5 false).status.temperature := by
    show (27 : ℚ) ≤ 50; norm_num
  have hno : ¬ ((sampleController 50 50 0.5 false).rate (clockAt 60000) > 0.5 ∨
      (sampleController 50 50 0.5 false).trend > 0.3) := by
    rw [sampleController_rate, sampleController_trend]; norm_num
  exact ⟨hT, hno,
    (operating_target_speed (sampleController 50 50 0.5 false) (clockAt 60000) hT hno).1⟩

/-- C12 (code behaviour at the failing input): at a steady 22.5 °C no phase
matches; the target speed is 0, but the narrative, `systemStarted` before the
tick, is the empty string after it. -/
theorem gap_tick_blanks_status :
    (22 : ℚ) ≤ (sampleController 22.5 22.5 0 false).status.temperature ∧
    (sampleController 22.5 22.5 0 false).status.temperature ≤ 23 ∧
    (sampleController 22.5 22.5 0 false).rate (clockAt 60000) ≤ 0.5 ∧
    (sampleController 22.5 22.5 0 false).trend ≤ 0.3 ∧
    (sampleController 22.5 22.5 0 false).status.autoModeStatus = .systemStarted ∧
    ((sampleController 22.5 22.5 0 false).calculateTargetSpeed (clockAt 60000)).1 = 0 ∧
    ((sampleController 22.5 22.5 0 false).calculateTargetSpeed
      (clockAt 60000)).2.status.autoModeStatus = .empty := by
  have hT : (22 : ℚ) ≤ (sampleController 22.5 22.5 0 false).status.temperature := by
    show (22 : ℚ) ≤ 22.5; norm_num
  have h23 : (sampleController 22.5 22.5 0 false).status.temperature ≤ 23 := by
    show (22.5 : ℚ) ≤ 23; norm_num
  have hr : (sampleController 22.5 22.5 0 false).rate (clockAt 60000) ≤ 0.5 := by
    rw [sampleController_rate]; norm_num
  have ht : (sampleController 22.5 22.5 0 false).trend ≤ 0.3 := by
    rw [sampleController_trend]; norm_num
  have hno : ¬ ((sampleController 22.5 22.5 0 false).rate (clockAt 60000) > 0.5 ∨
      (sampleController 22.5 22.5 0 false).trend > 0.3) := by
    rintro (h | h)
    · exact absurd h (not_lt.mpr hr)
    · exact absurd h (not_lt.mpr ht)
  obtain ⟨h0, hm⟩ := (calculateTargetSpeed_active _ (clockAt 60000) hT).2.2.2.2 hno h23
  exact ⟨hT, h23, hr, ht, rfl, h0, hm⟩

/-! ## Properties of the heat-recovery estimator -/

/-- `HeatCalculator::update` when its guard lets it integrate. -/
theorem heatUpdate_integrates (st : SystemStatus) (k : HeatClock)
    (hi : st.heatCalcInitialized = true) (hf : st.fanOn = true)
    (hn : st.needsHeatCalc k.tNeeds = true) :
    HeatCalculator.update st k =
      { st with
        lastHeatCalc := k.tStore % ULONG_SIZE
        airVolumeMoved := st.airVolumeMoved +
          HeatCalculator.calculateCurrentAirflow st * ((usub k.tDelta st.lastHeatCalc : ℚ) / 1000)
        currentHeatPower := HeatCalculator.calculateAirDensity st *
          HeatCalculator.calculateCurrentAirflow st * Config.Heat.AIR_SPECIFIC_HEAT *
          HeatCalculator.calculateTempDifference st * Config.Heat.SYSTEM_EFFICIENCY
        totalHeatEnergy := st.totalHeatEnergy +
          (HeatCalculator.calculateAirDensity st * HeatCalculator.calculateCurrentAirflow st *
            Config.Heat.AIR_SPECIFIC_HEAT * HeatCalculator.calculateTempDifference st *
            Config.Heat.SYSTEM_EFFICIENCY * ((usub k.tDelta st.lastHeatCalc : ℚ) / 1000)) / 3600000
        heatCalcInitialized := true } := by
  have hg : ¬ ((!st.heatCalcInitialized) = true ∨ (!st.fanOn) = true ∨
      (!st.needsHeatCalc k.tNeeds) = true) := by
    rw [hi, hf, hn]; simp
  unfold HeatCalculator.update
  rw [if_neg hg]
  rfl

/-- `HeatCalculator::update` when its guard stops it. -/
theorem heatUpdate_skips (st : SystemStatus) (k : HeatClock)
    (hg : st.heatCalcInitialized = false ∨ st.fanOn = false ∨
      st.needsHeatCalc k.tNeeds = false) :
    HeatCalculator.update st k = st := by
  have hg' : (!st.heatCalcInitialized) = true ∨ (!st.fanOn) = true ∨
      (!st.needsHeatCalc k.tNeeds) = true := by
    rcases hg with h | h | h <;> rw [h] <;> simp
  unfold HeatCalculator.update
  rw [if_pos hg']

/-- C14: when `HeatCalculator::update` integrates over `dt` seconds it sets
`currentHeatPower` to P = ρ · V · 1.005 · ΔT · 0.85 with
ρ = 1.204 · (293.15 / (T + 273.15)) · (1 − 0.0002 · humidity),
V = (102.1 / 3600) · duty³ and ΔT = T − referenceTemp if that is at least 0.5,
else 0; it adds V · dt to `airVolumeMoved` and P · dt / 3600000 to
`totalHeatEnergy`. For duty 1, T = 30, reference 20, humidity 0 and dt = 10
both P and the energy increment are positive. -/
theorem heat_update_formula (st : SystemStatus) (k : HeatClock)
    (hi : st.heatCalcInitialized = true) (hf : st.fanOn = true)
    (hn : st.needsHeatCalc k.tNeeds = true)
    (dt rho V dT P : ℚ)
    (hdt : dt = (usub k.tDelta st.lastHeatCalc : ℚ) / 1000)
    (hrho : rho = 1.204 * (293.15 / (st.temperature + 273.15)) * (1 - 0.0002 * st.humidity))
    (hV : V = (102.1 / 3600) * st.currentFanSpeed ^ 3)
    (hdT : dT = if 0.5 ≤ st.temperature - st.referenceTemp
      then st.temperature - st.referenceTemp else 0)
    (hP : P = rho * V * 1.005 * dT * 0.85) :
    (HeatCalculator.update st k).currentHeatPower = P ∧
    (HeatCalculator.update st k).airVolumeMoved = st.airVolumeMoved + V * dt ∧
    (HeatCalculator.update st k).totalHeatEnergy = st.totalHeatEnergy + P * dt / 3600000 ∧
    (st.currentFanSpeed = 1 → st.temperature = 30 → st.referenceTemp = 20 → st.humidity = 0 →
      dt = 10 → 0 < P ∧ 0 < P * dt / 3600000) := by
  have hrho' : HeatCalculator.calculateAirDensity st = rho := by
    rw [hrho]
    simp only [HeatCalculator.calculateAirDensity, Config.Heat.AIR_DENSITY]
    ring
  have hV' : HeatCalculator.calculateCurrentAirflow st = V := by
    rw [hV]
    simp only [HeatCalculator.calculateCurrentAirflow, Config.Heat.MAX_AIRFLOW]
  have hdT' : HeatCalculator.calculateTempDifference st = dT := by
    rw [hdT]
    simp only [HeatCalculator.calculateTempDifference, Config.Heat.MIN_TEMP_DIFF]
    by_cases h : st.temperature - st.referenceTemp < 0.5
    · rw [if_pos h, if_neg (not_le.mpr h)]
    · rw [if_neg h, if_pos (not_lt.mp h)]
  rw [heatUpdate_integrates st k hi hf hn, hrho', hV', hdT', ← hdt]
  simp only [Config.Heat.AIR_SPECIFIC_HEAT, Config.Heat.SYSTEM_EFFICIENCY]
  refine ⟨by rw [hP], trivial, by rw [hP], ?_⟩
  intro h1 h2 h3 h4 h5
  rw [hP, hrho, hV, hdT, h1, h2, h3, h4, h5]
  norm_num

/-- Witness of `heat_update_formula`: duty 1 at 30 °C against a reference of
20 °C, dry air, 10 s after the last integration. -/
theorem heat_update_formula_witness :
    (heatSample 1 30 20 0).heatCalcInitialized = true ∧
    (heatSample 1 30 20 0).fanOn = true ∧
    (heatSample 1 30 20 0).needsHeatCalc (heatClockAt 10000).tNeeds = true ∧
    (HeatCalculator.update (heatSample 1 30 20 0) (heatClockAt 10000)).currentHeatPower =
      1.204 * (293.15 / (30 + 273.15)) * (1 - 0.0002 * 0) * ((102.1 / 3600) * 1 ^ 3) *
        1.005 * (30 - 20) * 0.85 ∧
    (0 : ℚ) < 1.204 * (293.15 / (30 + 273.15)) * (1 - 0.0002 * 0) * ((102.1 / 3600) * 1 ^ 3) *
        1.005 * (30 - 20) * 0.85 := by
  have hn : (heatSample 1 30 20 0).needsHeatCalc (heatClockAt 10000).tNeeds = true := by decide
  have hu : usub (heatClockAt 10000).tDelta (heatSample 1 30 20 0).lastHeatCalc = 10000 := by
    decide
  have key := heat_update_formula (heatSample 1 30 20 0) (heatClockAt 10000) rfl rfl hn
    10
    (1.204 * (293.15 / (30 + 273.15)) * (1 - 0.0002 * 0))
    ((102.1 / 3600) * 1 ^ 3)
    (30 - 20)
    (1.204 * (293.15 / (30 + 273.15)) * (1 - 0.0002 * 0) * ((102.1 / 3600) * 1 ^ 3) *
        1.005 * (30 - 20) * 0.85)
    (by rw [hu]; norm_num) rfl rfl
    (by show (30 - 20 : ℚ) = if (0.5 : ℚ) ≤ 30 - 20 then 30 - 20 else 0
        norm_num)
    rfl
  exact ⟨rfl, rfl, hn, key.1, (key.2.2.2 rfl rfl rfl rfl rfl).1⟩


theorem usub_cast_nonneg (a b : Nat) : (0 : ℚ) ≤ (usub a b : ℚ) / 1000 := by
  apply div_nonneg
  · exact Nat.cast_nonneg _
  · norm_num

theorem airDensity_nonneg (st : SystemStatus) (hT : -40 ≤ st.temperature)
    (hH : st.humidity ≤ 100) : 0 ≤ HeatCalculator.calculateAirDensity st := by
  simp only [HeatCalculator.calculateAirDensity, Config.Heat.AIR_DENSITY]
  have h1 : (0 : ℚ) ≤ 293.15 / (st.temperature + 273.15) := by
    apply div_nonneg
    · norm_num
    · linarith
  have h2 : (0 : ℚ) ≤ 1 - st.humidity * 0.0002 := by linarith
  exact mul_nonneg (mul_nonneg (by norm_num) h1) h2

theorem airflow_nonneg (st : SystemStatus) (hd : 0 ≤ st.currentFanSpeed) :
    0 ≤ HeatCalculator.calculateCurrentAirflow st := by
  simp only [HeatCalculator.calculateCurrentAirflow, Config.Heat.MAX_AIRFLOW]
  exact mul_nonneg (by norm_num) (pow_nonneg hd 3)

theorem tempDifference_nonneg (st : SystemStatus) :
    0 ≤ HeatCalculator.calculateTempDifference st := by
  simp only [HeatCalculator.calculateTempDifference, Config.Heat.MIN_TEMP_DIFF]
  split_ifs with h
  · exact le_refl _
  · linarith

/-- `HeatCalculator::update` changes none of its inputs and lowers no accumulator. -/
theorem heatUpdate_mono (st : SystemStatus) (k : HeatClock) (hok : st.HeatInputsOK) :
    (HeatCalculator.update st k).HeatInputsOK ∧
    st.totalHeatEnergy ≤ (HeatCalculator.update st k).totalHeatEnergy ∧
    st.airVolumeMoved ≤ (HeatCalculator.update st k).airVolumeMoved := by
  by_cases hg : st.heatCalcInitialized = false ∨ st.fanOn = false ∨
      st.needsHeatCalc k.tNeeds = false
  · rw [heatUpdate_skips st k hg]
    exact ⟨hok, le_refl _, le_refl _⟩
  · have hi : st.heatCalcInitialized = true := by
      cases h : st.heatCalcInitialized
      · exact absurd (Or.inl h) hg
      · rfl
    have hf : st.fanOn = true := by
      cases h : st.fanOn
      · exact absurd (Or.inr (Or.inl h)) hg
      · rfl
    have hn : st.needsHeatCalc k.tNeeds = true := by
      cases h : st.needsHeatCalc k.tNeeds
      · exact absurd (Or.inr (Or.inr h)) hg
      · rfl
    rw [heatUpdate_integrates st k hi hf hn]
    obtain ⟨⟨hd0, hd1⟩, ⟨hT0, hT1⟩, ⟨hH0, hH1⟩⟩ := hok
    have hdt := usub_cast_nonneg k.tDelta st.lastHeatCalc
    have hrho := airDensity_nonneg st hT0 hH1
    have hV := airflow_nonneg st hd0
    have hdT := tempDifference_nonneg st
    have hP : 0 ≤ HeatCalculator.calculateAirDensity st *
        HeatCalculator.calculateCurrentAirflow st * Config.Heat.AIR_SPECIFIC_HEAT *
        HeatCalculator.calculateTempDifference st * Config.Heat.SYSTEM_EFFICIENCY := by
      simp only [Config.Heat.AIR_SPECIFIC_HEAT, Config.Heat.SYSTEM_EFFICIENCY]
      exact mul_nonneg (mul_nonneg (mul_nonneg (mul_nonneg hrho hV) (by norm_num)) hdT)
        (by norm_num)
    refine ⟨⟨⟨hd0, hd1⟩, ⟨hT0, hT1⟩, ⟨hH0, hH1⟩⟩, ?_, ?_⟩
    · show st.totalHeatEnergy ≤ st.totalHeatEnergy + _ / 3600000
      have := div_nonneg (mul_nonneg hP hdt) (by norm_num : (0 : ℚ) ≤ 3600000)
      linarith
    · show st.airVolumeMoved ≤ st.airVolumeMoved + _
      have := mul_nonneg hV hdt
      linarith

/-- `SystemStatus::updateHeatCalculation` on an initialized record. -/
theorem updateHeatCalculation_initialized (st : SystemStatus) (tInit tNow : Nat)
    (hi : st.heatCalcInitialized = true) :
    st.updateHeatCalculation tInit tNow =
      if st.fanOn = false then st
      else if st.temperature - st.referenceTemp > 0.5 then
        { st with
          lastHeatCalc := tNow
          currentHeatPower := 1.204 * (293.15 / (st.temperature + 273.15)) *
            (102.1 / 3600 * st.currentFanSpeed) * 1.005 *
            (st.temperature - st.referenceTemp) * 0.85
          totalHeatEnergy := st.totalHeatEnergy +
            (1.204 * (293.15 / (st.temperature + 273.15)) *
              (102.1 / 3600 * st.currentFanSpeed) * 1.005 *
              (st.temperature - st.referenceTemp) * 0.85 *
              ((usub tNow st.lastHeatCalc : ℚ) / 1000)) / 3600000
          airVolumeMoved := st.airVolumeMoved +
            102.1 / 3600 * st.currentFanSpeed * ((usub tNow st.lastHeatCalc : ℚ) / 1000) }
      else { st with lastHeatCalc := tNow } := by
  unfold SystemStatus.updateHeatCalculation
  simp only [hi, Bool.not_true, Bool.false_eq_true, if_false, Config.Heat.MIN_TEMP_DIFF,
    Config.Heat.MAX_AIRFLOW, Config.Heat.AIR_DENSITY, Config.Heat.AIR_SPECIFIC_HEAT,
    Config.Heat.SYSTEM_EFFICIENCY]
  cases hf : st.fanOn
  · simp
  · simp

/-- `SystemStatus::updateHeatCalculation` on a record that is not initialized:
it initializes first, which makes the temperature difference 0. -/
theorem updateHeatCalculation_uninitialized (st : SystemStatus) (tInit tNow : Nat)
    (hi : st.heatCalcInitialized = false) :
    st.updateHeatCalculation tInit tNow =
      if st.fanOn = false then st.initializeSystem tInit
      else { st.initializeSystem tInit with lastHeatCalc := tNow } := by
  unfold SystemStatus.updateHeatCalculation
  simp only [hi, Bool.not_false, if_true, Config.Heat.MIN_TEMP_DIFF]
  have hz : ¬ ((st.initializeSystem tInit).temperature -
      (st.initializeSystem tInit).referenceTemp > 0.5) := by
    show ¬ (st.temperature - st.temperature > 0.5)
    norm_num
  cases hf : st.fanOn
  · simp [SystemStatus.initializeSystem, hf]
  · have hf' : (st.initializeSystem tInit).fanOn = true := hf
    simp only [hf', Bool.not_true, Bool.false_eq_true, if_false]
    rw [if_neg hz]
    simp

/-- `SystemStatus::updateHeatCalculation` changes none of the estimator's inputs
and lowers no accumulator. -/
theorem updateHeatCalculation_mono (st : SystemStatus) (tInit tNow : Nat)
    (hok : st.HeatInputsOK) :
    (st.updateHeatCalculation tInit tNow).HeatInputsOK ∧
    st.totalHeatEnergy ≤ (st.updateHeatCalculation tInit tNow).totalHeatEnergy ∧
    st.airVolumeMoved ≤ (st.updateHeatCalculation tInit tNow).airVolumeMoved := by
  cases hi : st.heatCalcInitialized
  · rw [updateHeatCalculation_uninitialized st tInit tNow hi]
    split_ifs
    · exact ⟨hok, le_refl _, le_refl _⟩
    · exact ⟨hok, le_refl _, le_refl _⟩
  · rw [updateHeatCalculation_initialized st tInit tNow hi]
    obtain ⟨⟨hd0, hd1⟩, ⟨hT0, hT1⟩, ⟨hH0, hH1⟩⟩ := hok
    split_ifs with h1 h2
    · exact ⟨⟨⟨hd0, hd1⟩, ⟨hT0, hT1⟩, ⟨hH0, hH1⟩⟩, le_refl _, le_refl _⟩
    · have hdt := usub_cast_nonneg tNow st.lastHeatCalc
      have hflow : (0 : ℚ) ≤ 102.1 / 3600 * st.currentFanSpeed :=
        mul_nonneg (by norm_num) hd0
      have hrho : (0 : ℚ) ≤ 1.204 * (293.15 / (st.temperature + 273.15)) := by
        apply mul_nonneg (by norm_num)
        apply div_nonneg (by norm_num)
        linarith
      have hd : 0 ≤ st.temperature - st.referenceTemp := by linarith
      have hP := mul_nonneg (mul_nonneg (mul_nonneg (mul_nonneg hrho hflow)
        (by norm_num : (0 : ℚ) ≤ 1.005)) hd) (by norm_num : (0 : ℚ) ≤ 0.85)
      refine ⟨⟨⟨hd0, hd1⟩, ⟨hT0, hT1⟩, ⟨hH0, hH1⟩⟩, ?_, ?_⟩
      · show st.totalHeatEnergy ≤ st.totalHeatEnergy + _ / 3600000
        have := div_nonneg (mul_nonneg hP hdt) (by norm_num : (0 : ℚ) ≤ 3600000)
        linarith
      · show st.airVolumeMoved ≤ st.airVolumeMoved + _
        have := mul_nonneg hflow hdt
        linarith
    · exact ⟨⟨⟨hd0, hd1⟩, ⟨hT0, hT1⟩, ⟨hH0, hH1⟩⟩, le_refl _, le_refl _⟩

theorem heatStep_mono (st : SystemStatus) (op : HeatOp) (hok : st.HeatInputsOK) :
    (st.heatStep op).HeatInputsOK ∧
    st.totalHeatEnergy ≤ (st.heatStep op).totalHeatEnergy ∧
    st.airVolumeMoved ≤ (st.heatStep op).airVolumeMoved := by
  cases op with
  | calculator k => exact heatUpdate_mono st k hok
  | status tInit tNow => exact updateHeatCalculation_mono st tInit tNow hok

theorem heatRun_mono (ops : List HeatOp) :
    ∀ st : SystemStatus, st.HeatInputsOK →
      (st.heatRun ops).HeatInputsOK ∧
      st.totalHeatEnergy ≤ (st.heatRun ops).totalHeatEnergy ∧
      st.airVolumeMoved ≤ (st.heatRun ops).airVolumeMoved := by
  induction ops with
  | nil => intro st hok; exact ⟨hok, le_refl _, le_refl _⟩
  | cons op ops ih =>
    intro st hok
    obtain ⟨h1, h2, h3⟩ := heatStep_mono st op hok
    obtain ⟨g1, g2, g3⟩ := ih (st.heatStep op) h1
    exact ⟨g1, le_trans h2 g2, le_trans h3 g3⟩

/-- C15: from a record with duty in [0, 1], temperature in [-40, 125] and
humidity in [0, 100], after any sequence of heat-estimator updates (of either
estimator, at any clock reads) one more update leaves `totalHeatEnergy` and
`airVolumeMoved` at least as large as before it, and both are at least their
initial values. -/
theorem heat_accumulators_never_decrease (st : SystemStatus) (ops : List HeatOp) (op : HeatOp)
    (hok : st.HeatInputsOK) :
    (st.heatRun ops).totalHeatEnergy ≤ ((st.heatRun ops).heatStep op).totalHeatEnergy ∧
    (st.heatRun ops).airVolumeMoved ≤ ((st.heatRun ops).heatStep op).airVolumeMoved ∧
    st.totalHeatEnergy ≤ (st.heatRun ops).totalHeatEnergy ∧
    st.airVolumeMoved ≤ (st.heatRun ops).airVolumeMoved := by
  obtain ⟨h1, h2, h3⟩ := heatRun_mono ops st hok
  obtain ⟨_, g2, g3⟩ := heatStep_mono (st.heatRun ops) op h1
  exact ⟨g2, g3, h2, h3⟩

theorem heatSample_ok : (heatSample 1 30 20 0).HeatInputsOK := by
  unfold SystemStatus.HeatInputsOK
  show ((0 : ℚ) ≤ 1 ∧ (1 : ℚ) ≤ 1) ∧ ((-40 : ℚ) ≤ 30 ∧ (30 : ℚ) ≤ 125) ∧
    ((0 : ℚ) ≤ 0 ∧ (0 : ℚ) ≤ 100)
  norm_num

/-- Witness of `heat_accumulators_never_decrease`: one update of each estimator
followed by another calculator update. -/
theorem heat_accumulators_never_decrease_witness :
    (heatSample 1 30 20 0).HeatInputsOK ∧
    ((heatSample 1 30 20 0).heatRun
        [.calculator (heatClockAt 10000), .status 15000 15000]).totalHeatEnergy ≤
      (((heatSample 1 30 20 0).heatRun
        [.calculator (heatClockAt 10000), .status 15000 15000]).heatStep
          (.calculator (heatClockAt 30000))).totalHeatEnergy :=
  ⟨heatSample_ok,
    (heat_accumulators_never_decrease (heatSample 1 30 20 0)
      [.calculator (heatClockAt 10000), .status 15000 15000]
      (.calculator (heatClockAt 30000)) heatSample_ok).1⟩

/-- C16 (code behaviour at the failing inputs): with the fan on at duty 0.5,
30 °C against the reference 0 °C and 50 % humidity, 5 s after the last
integration `updateHeatCalculation` integrates while `HeatCalculator::update`
does nothing; 10 s after it, both integrate but `updateHeatCalculation` moves
the linear air volume (102.1 / 3600) · 0.5 · 10, four times the cubic one, and
reports a different power. -/
theorem status_estimator_differs_from_calculator :
    HeatCalculator.update (heatSample 0.5 30 0 50) (heatClockAt 5000) = heatSample 0.5 30 0 50 ∧
    ((heatSample 0.5 30 0 50).updateHeatCalculation 5000 5000).lastHeatCalc = 5000 ∧
    (heatSample 0.5 30 0 50).airVolumeMoved <
      ((heatSample 0.5 30 0 50).updateHeatCalculation 5000 5000).airVolumeMoved ∧
    ((heatSample 0.5 30 0 50).updateHeatCalculation 10000 10000).airVolumeMoved =
      102.1 / 3600 * 0.5 * 10 ∧
    (HeatCalculator.update (heatSample 0.5 30 0 50) (heatClockAt 10000)).airVolumeMoved =
      102.1 / 3600 * 0.5 ^ 3 * 10 ∧
    ((heatSample 0.5 30 0 50).updateHeatCalculation 10000 10000).currentHeatPower ≠
      (HeatCalculator.update (heatSample 0.5 30 0 50) (heatClockAt 10000)).currentHeatPower := by
  have hgt : (heatSample 0.5 30 0 50).temperature - (heatSample 0.5 30 0 50).referenceTemp
      > 0.5 := by
    show (30 : ℚ) - 0 > 0.5; norm_num
  have hon : ¬ ((heatSample 0.5 30 0 50).fanOn = false) := by decide
  have e5 := updateHeatCalculation_initialized (heatSample 0.5 30 0 50) 5000 5000 rfl
  have e10 := updateHeatCalculation_initialized (heatSample 0.5 30 0 50) 10000 10000 rfl
  rw [if_neg hon, if_pos hgt] at e5 e10
  have c10 := heatUpdate_integrates (heatSample 0.5 30 0 50) (heatClockAt 10000) rfl rfl
    (by decide)
  have u5 : usub 5000 (heatSample 0.5 30 0 50).lastHeatCalc = 5000 := by decide
  have u10 : usub 10000 (heatSample 0.5 30 0 50).lastHeatCalc = 10000 := by decide
  have v10 : usub (heatClockAt 10000).tDelta (heatSample 0.5 30 0 50).lastHeatCalc = 10000 := by
    decide
  refine ⟨heatUpdate_skips _ _ (Or.inr (Or.inr (by decide))), ?_, ?_, ?_, ?_, ?_⟩
  · rw [e5]
  · rw [e5]
    show (0 : ℚ) < 0 + 102.1 / 3600 * 0.5 * ((usub 5000 (heatSample 0.5 30 0 50).lastHeatCalc : ℚ) / 1000)
    rw [u5]; norm_num
  · rw [e10]
    show (0 : ℚ) + 102.1 / 3600 * 0.5 *
      ((usub 10000 (heatSample 0.5 30 0 50).lastHeatCalc : ℚ) / 1000) = _
    rw [u10]; norm_num
  · rw [c10]
    show (0 : ℚ) + 102.1 / 3600 * 0.5 ^ 3 *
      ((usub (heatClockAt 10000).tDelta (heatSample 0.5 30 0 50).lastHeatCalc : ℚ) / 1000) = _
    rw [v10]; norm_num
  · rw [e10, c10]
    show (1.204 : ℚ) * (293.15 / (30 + 273.15)) * (102.1 / 3600 * 0.5) * 1.005 * (30 - 0) * 0.85 ≠
      1.204 * (293.15 / (30 + 273.15)) * (1 - 50 * 0.0002) * (102.1 / 3600 * 0.5 ^ 3) * 1.005 *
        (if (30 : ℚ) - 0 < 0.5 then 0 else 30 - 0) * 0.85
    norm_num

/-- C18 (amended): the cost estimate is `totalHeatEnergy · pricePerUnit` in
every state, whether or not the fan is on; the live efficiency is 0 whenever
the fan is off or `currentHeatPower` is not positive. -/
theorem derived_queries (st : SystemStatus) (pricePerKWh : ℚ) :
    HeatCalculator.calculateCostSaving st pricePerKWh = st.totalHeatEnergy * pricePerKWh ∧
    ((st.fanOn = false ∨ st.currentHeatPower ≤ 0) →
      HeatCalculator.calculateCurrentEfficiency st = 0) := by
  refine ⟨rfl, ?_⟩
  intro h
  unfold HeatCalculator.calculateCurrentEfficiency
  have hg : (!st.fanOn) = true ∨ st.currentHeatPower ≤ 0 := by
    rcases h with h | h
    · left; rw [h]; rfl
    · right; exact h
  rw [if_pos hg]

/-- Witness of `derived_queries`: the record at power-up (fan off). -/
theorem derived_queries_witness :
    (SystemStatus.construct 0).fanOn = false ∧
    HeatCalculator.calculateCurrentEfficiency (SystemStatus.construct 0) = 0 :=
  ⟨rfl, (derived_queries (SystemStatus.construct 0) 0).2 (Or.inl rfl)⟩

/-- C18 (counterexample): with the fan off and no heat power, a record holding
2 kWh of recovered energy yields the cost estimate 0.6 at a price of 0.3, not 0. -/
theorem cost_estimate_nonzero_with_fan_off :
    ({ SystemStatus.construct 0 with totalHeatEnergy := 2 } : SystemStatus).fanOn = false ∧
    ({ SystemStatus.construct 0 with totalHeatEnergy := 2 } : SystemStatus).currentHeatPower ≤ 0 ∧
    HeatCalculator.calculateCostSaving { SystemStatus.construct 0 with totalHeatEnergy := 2 } 0.3
      ≠ 0 := by
  refine ⟨rfl, ?_, ?_⟩
  · show (0 : ℚ) ≤ 0; norm_num
  · show (2 : ℚ) * 0.3 ≠ 0; norm_num

/-! ## What the fan controller writes to the record -/

theorem clearErrors_fields (c : Controller) :
    c.clearErrors.status.sensed = c.status.sensed ∧
    c.clearErrors.status.actuation = c.status.actuation := by
  unfold Controller.clearErrors
  split_ifs <;> exact ⟨rfl, rfl⟩

theorem setFanSpeed_fields (c : Controller) (v : ℚ) :
    (c.setFanSpeed v).status.sensed = c.status.sensed ∧
    (c.setFanSpeed v).status.actuation =
      (c.status.fanOn, constrain v 0 1, c.status.targetFanSpeed) := by
  unfold Controller.setFanSpeed
  simp only []
  constructor
  · rw [(clearErrors_fields _).1]; rfl
  · rw [(clearErrors_fields _).2]; rfl

theorem constrain_zero : constrain 0 0 1 = 0 := by
  unfold constrain; norm_num

theorem constrain_bounds (v : ℚ) : 0 ≤ constrain v 0 1 ∧ constrain v 0 1 ≤ 1 := by
  unfold constrain
  split_ifs with h1 h2
  · norm_num
  · norm_num
  · constructor <;> linarith

theorem toggleFan_fields (c : Controller) (b : Bool) :
    (c.toggleFan b).status.sensed = c.status.sensed ∧
    (c.toggleFan b).status.actuation =
      (b, (if b then c.status.currentFanSpeed else 0), c.status.targetFanSpeed) := by
  unfold Controller.toggleFan
  cases b
  · simp only [Bool.not_false, if_true, Bool.false_eq_true, if_false]
    constructor
    · rw [(clearErrors_fields _).1, (setFanSpeed_fields _ _).1]; rfl
    · rw [(clearErrors_fields _).2, (setFanSpeed_fields _ _).2, constrain_zero]
  · simp only [Bool.not_true, Bool.false_eq_true, if_false, if_true]
    constructor
    · rw [(clearErrors_fields _).1]; rfl
    · rw [(clearErrors_fields _).2]; rfl

theorem shouldActivateCheck_fields (c : Controller) (now hour : Nat) :
    (c.shouldActivateCheck now hour).2.status.sensed = c.status.sensed ∧
    (c.shouldActivateCheck now hour).2.status.actuation = c.status.actuation := by
  simp only [Controller.shouldActivateCheck]
  split_ifs <;> exact ⟨rfl, rfl⟩

theorem calculateTargetSpeed_fields (c : Controller) (k : FanClock) :
    (c.calculateTargetSpeed k).2.status.sensed = c.status.sensed ∧
    (c.calculateTargetSpeed k).2.status.actuation = c.status.actuation := by
  simp only [Controller.calculateTargetSpeed]
  split_ifs <;>
    first
      | exact ⟨rfl, rfl⟩
      | exact shouldActivateCheck_fields _ _ _

theorem actuation_eq {st : SystemStatus} {x : Bool} {y z : ℚ}
    (h : st.actuation = (x, y, z)) :
    st.fanOn = x ∧ st.currentFanSpeed = y ∧ st.targetFanSpeed = z := by
  simp only [SystemStatus.actuation, Prod.mk.injEq] at h
  exact h

/-- What `updateAutomaticMode` leaves in the record when automatic mode is on. -/
theorem updateAutomaticMode_fields (c : Controller) (k : FanClock)
    (ha : c.status.autoMode = true) :
    (c.updateAutomaticMode k).status.sensed = c.status.sensed ∧
    (c.updateAutomaticMode k).status.actuation =
      (if (c.calculateTargetSpeed k).1 > 0 then
        (true, constrain (c.calculateTargetSpeed k).1 0 1, (c.calculateTargetSpeed k).1)
       else (false, (if c.status.fanOn then 0 else c.status.currentFanSpeed),
        (c.calculateTargetSpeed k).1)) := by
  have hf := calculateTargetSpeed_fields c k
  unfold Controller.updateAutomaticMode
  rw [ha]
  simp only [Bool.not_true, Bool.false_eq_true, if_false]
  rcases hr : c.calculateTargetSpeed k with ⟨t, c'⟩
  rw [hr] at hf
  obtain ⟨hs, hact⟩ := hf
  simp only [] at hs hact ⊢
  have hon : c'.status.fanOn = c.status.fanOn := congrArg (fun x => x.1) hact
  have hcur : c'.status.currentFanSpeed = c.status.currentFanSpeed :=
    congrArg (fun x => x.2.1) hact
  by_cases ht : t > 0
  · rw [if_pos ht, if_pos ht]
    cases hfan : c'.status.fanOn
    · simp only [hfan, Bool.not_false, if_true]
      constructor
      · rw [(clearErrors_fields _).1, (setFanSpeed_fields _ _).1, (toggleFan_fields _ _).1]
        exact hs
      · rw [(clearErrors_fields _).2, (setFanSpeed_fields _ _).2]
        obtain ⟨h1, _, h3⟩ := actuation_eq (toggleFan_fields
          { c' with status := { c'.status with targetFanSpeed := t } } true).2
        simp only [hfan] at h1 h3
        rw [h1, h3]
    · simp only [hfan, Bool.not_true, Bool.false_eq_true, if_false]
      constructor
      · rw [(clearErrors_fields _).1, (setFanSpeed_fields _ _).1]
        exact hs
      · rw [(clearErrors_fields _).2, (setFanSpeed_fields _ _).2]
  · rw [if_neg ht, if_neg ht]
    cases hfan : c'.status.fanOn
    · have hfan' : c.status.fanOn = false := by rw [← hon]; exact hfan
      simp only [hfan, hfan', Bool.false_eq_true, if_false]
      constructor
      · rw [(clearErrors_fields _).1]
        exact hs
      · rw [(clearErrors_fields _).2]
        show (false, c'.status.currentFanSpeed, t) = _
        rw [hcur]
    · have hfan' : c.status.fanOn = true := by rw [← hon]; exact hfan
      simp only [hfan, hfan', if_true]
      constructor
      · rw [(clearErrors_fields _).1, (toggleFan_fields _ _).1]
        exact hs
      · rw [(clearErrors_fields _).2, (toggleFan_fields _ _).2]
        simp

theorem updateAutomaticMode_manual (c : Controller) (k : FanClock)
    (ha : c.status.autoMode = false) : c.updateAutomaticMode k = c := by
  unfold Controller.updateAutomaticMode
  rw [ha]; rfl

/-- The target speed is never negative, and is at most 1 up to 100 °C. -/
theorem calculateTargetSpeed_bounds (c : Controller) (k : FanClock) :
    0 ≤ (c.calculateTargetSpeed k).1 ∧
    (c.status.temperature ≤ 100 → (c.calculateTargetSpeed k).1 ≤ 1) := by
  by_cases hT : c.status.temperature < 22
  · obtain ⟨hopen, hclosed⟩ := calculateTargetSpeed_sleep c k hT
    by_cases hg : c.fan.inSleepMode = false ∨ c.fan.windowOpen k.tCheck k.hour
    · rw [(hopen hg).1]; norm_num
    · have hs : c.fan.inSleepMode = true := by
        cases h : c.fan.inSleepMode
        · exact absurd (Or.inl h) hg
        · rfl
      rw [(hclosed hs (fun h => hg (Or.inr h))).1]; norm_num
  · have hT' : 22 ≤ c.status.temperature := not_lt.mp hT
    obtain ⟨_, hw, hop, hcool, hgap⟩ := calculateTargetSpeed_active c k hT'
    by_cases htr : c.rate k > 0.5 ∨ c.trend > 0.3
    · rw [hw htr]
      constructor
      · linarith
      · intro h100; linarith
    · by_cases h27 : 27 ≤ c.status.temperature
      · rw [hop htr h27]
        have h1 : (0 : ℚ) ≤ (c.status.temperature - 25) / (100 - 25) := by
          apply div_nonneg <;> linarith
        have h4 : (0 : ℚ) ≤ ((c.status.temperature - 25) / (100 - 25)) ^ 2 := sq_nonneg _
        constructor
        · linarith
        · intro h100
          have h2 : (c.status.temperature - 25) / (100 - 25) ≤ 1 := by
            rw [div_le_one (by norm_num)]; linarith
          have h3 : ((c.status.temperature - 25) / (100 - 25)) ^ 2 ≤ 1 := pow_le_one₀ h1 h2
          linarith
      · by_cases h23 : 23 < c.status.temperature
        · rw [hcool htr (not_le.mp h27) h23]
          split_ifs <;> norm_num
        · rw [(hgap htr (not_lt.mp h23)).1]; norm_num

theorem updateOperatingStats_fields (st : SystemStatus) :
    st.updateOperatingStats.sensed = st.sensed ∧
    st.updateOperatingStats.actuation = st.actuation := by
  simp only [SystemStatus.updateOperatingStats]
  split_ifs <;> exact ⟨rfl, rfl⟩

/-- `updateHeatCalculation` writes no actuation field and no sensed field,
except that on a record not yet initialized it sets the reference temperature
and the initialized flag. -/
theorem updateHeatCalculation_fields (st : SystemStatus) (a b : Nat) :
    (st.updateHeatCalculation a b).actuation = st.actuation ∧
    (st.updateHeatCalculation a b).temperature = st.temperature ∧
    (st.updateHeatCalculation a b).minTemperature = st.minTemperature ∧
    (st.updateHeatCalculation a b).maxTemperature = st.maxTemperature ∧
    (st.updateHeatCalculation a b).manualFanSpeed = st.manualFanSpeed ∧
    (st.heatCalcInitialized = true → (st.updateHeatCalculation a b).sensed = st.sensed) := by
  cases hi : st.heatCalcInitialized
  · rw [updateHeatCalculation_uninitialized st a b hi]
    split_ifs <;> exact ⟨rfl, rfl, rfl, rfl, rfl, fun h => absurd h (by simp)⟩
  · rw [updateHeatCalculation_initialized st a b hi]
    split_ifs <;> exact ⟨rfl, rfl, rfl, rfl, rfl, fun _ => rfl⟩

theorem updateErrorState_fields (s : System) (b : Bool) :
    (s.updateErrorState b).ctl.status.sensed = s.ctl.status.sensed ∧
    (s.updateErrorState b).ctl.status.actuation = s.ctl.status.actuation := by
  simp only [System.updateErrorState]
  split_ifs <;> exact ⟨rfl, rfl⟩

theorem updateMinMaxTemperature_fields (st : SystemStatus) (t : ℚ) :
    (st.updateMinMaxTemperature t).actuation = st.actuation ∧
    (st.updateMinMaxTemperature t).temperature = st.temperature ∧
    (st.updateMinMaxTemperature t).minTemperature =
      (if t < st.minTemperature then t else st.minTemperature) ∧
    (st.updateMinMaxTemperature t).maxTemperature =
      (if t > st.maxTemperature then t else st.maxTemperature) ∧
    (st.updateMinMaxTemperature t).humidity = st.humidity ∧
    (st.updateMinMaxTemperature t).autoMode = st.autoMode ∧
    (st.updateMinMaxTemperature t).manualFanSpeed = st.manualFanSpeed ∧
    (st.updateMinMaxTemperature t).referenceTemp = st.referenceTemp ∧
    (st.updateMinMaxTemperature t).heatCalcInitialized = st.heatCalcInitialized := by
  simp only [SystemStatus.updateMinMaxTemperature]
  split_ifs <;> simp_all [SystemStatus.actuation]

theorem sensed_eq {a b : SystemStatus} (h : a.sensed = b.sensed) :
    a.temperature = b.temperature ∧ a.minTemperature = b.minTemperature ∧
    a.maxTemperature = b.maxTemperature ∧ a.humidity = b.humidity ∧
    a.autoMode = b.autoMode ∧ a.manualFanSpeed = b.manualFanSpeed ∧
    a.referenceTemp = b.referenceTemp ∧ a.heatCalcInitialized = b.heatCalcInitialized := by
  simp only [SystemStatus.sensed, Prod.mk.injEq] at h
  exact h

/-- The duty fields after `updateAutomaticMode`, in either mode. -/
theorem updateAutomaticMode_duty (c : Controller) (k : FanClock) :
    (c.updateAutomaticMode k).status.sensed = c.status.sensed ∧
    ((0 ≤ c.status.currentFanSpeed ∧ c.status.currentFanSpeed ≤ 1) →
      0 ≤ (c.updateAutomaticMode k).status.currentFanSpeed ∧
      (c.updateAutomaticMode k).status.currentFanSpeed ≤ 1) ∧
    (0 ≤ c.status.targetFanSpeed → 0 ≤ (c.updateAutomaticMode k).status.targetFanSpeed) ∧
    (c.status.temperature ≤ 100 → c.status.targetFanSpeed ≤ 1 →
      (c.updateAutomaticMode k).status.targetFanSpeed ≤ 1) := by
  cases ha : c.status.autoMode
  · rw [updateAutomaticMode_manual c k ha]
    exact ⟨rfl, fun h => h, fun h => h, fun _ h => h⟩
  · obtain ⟨hs, hact⟩ := updateAutomaticMode_fields c k ha
    obtain ⟨hb0, hb1⟩ := calculateTargetSpeed_bounds c k
    refine ⟨hs, ?_, ?_, ?_⟩
    · intro hcur
      by_cases ht : (c.calculateTargetSpeed k).1 > 0
      · rw [if_pos ht] at hact
        rw [(actuation_eq hact).2.1]
        exact constrain_bounds _
      · rw [if_neg ht] at hact
        rw [(actuation_eq hact).2.1]
        split_ifs
        · norm_num
        · exact hcur
    · intro _
      by_cases ht : (c.calculateTargetSpeed k).1 > 0
      · rw [if_pos ht] at hact
        rw [(actuation_eq hact).2.2]; exact hb0
      · rw [if_neg ht] at hact
        rw [(actuation_eq hact).2.2]; exact hb0
    · intro h100 _
      by_cases ht : (c.calculateTargetSpeed k).1 > 0
      · rw [if_pos ht] at hact
        rw [(actuation_eq hact).2.2]; exact hb1 h100
      · rw [if_neg ht] at hact
        rw [(actuation_eq hact).2.2]; exact hb1 h100

theorem updateAutomaticMode_ite (c : Controller) (k : FanClock) :
    (if c.status.autoMode = true then c.updateAutomaticMode k else c) = c.updateAutomaticMode k := by
  cases ha : c.status.autoMode
  · rw [updateAutomaticMode_manual c k ha]; simp
  · simp

/-- `commitReading` as a composition of the calls of the accepted-reading block. -/
theorem commitReading_eq (s : System) (p : PollInput) (t h : ℚ) :
    s.commitReading p t h =
      System.updateErrorState
        { s with ctl :=
          { (s.recorded p t h).updateAutomaticMode p.fanClock with
            status := (((s.recorded p t h).updateAutomaticMode
              p.fanClock).status.updateOperatingStats).updateHeatCalculation p.tHeatInit p.tHeat } }
        true := by
  unfold System.commitReading
  simp only []
  have := updateAutomaticMode_ite (s.recorded p t h) p.fanClock
  unfold System.recorded at this ⊢
  rw [this]

theorem recorded_fields (s : System) (p : PollInput) (t h : ℚ) :
    (s.recorded p t h).status.actuation = s.ctl.status.actuation ∧
    (s.recorded p t h).status.temperature = t ∧
    (s.recorded p t h).status.minTemperature =
      (if t < s.ctl.status.minTemperature then t else s.ctl.status.minTemperature) ∧
    (s.recorded p t h).status.maxTemperature =
      (if t > s.ctl.status.maxTemperature then t else s.ctl.status.maxTemperature) ∧
    (s.recorded p t h).status.manualFanSpeed = s.ctl.status.manualFanSpeed ∧
    (s.recorded p t h).status.referenceTemp = s.ctl.status.referenceTemp ∧
    (s.recorded p t h).status.heatCalcInitialized = s.ctl.status.heatCalcInitialized := by
  obtain ⟨h1, h2, h3, h4, _, _, h7, h8, h9⟩ :=
    updateMinMaxTemperature_fields { s.ctl.status with temperature := t, humidity := h } t
  exact ⟨h1, h2, h3, h4, h7, h8, h9⟩

/-- The record after an accepted reading. -/
theorem commitReading_status (s : System) (p : PollInput) (t h : ℚ) :
    (s.commitReading p t h).ctl.status.temperature = t ∧
    (s.commitReading p t h).ctl.status.minTemperature =
      (if t < s.ctl.status.minTemperature then t else s.ctl.status.minTemperature) ∧
    (s.commitReading p t h).ctl.status.maxTemperature =
      (if t > s.ctl.status.maxTemperature then t else s.ctl.status.maxTemperature) ∧
    (s.commitReading p t h).ctl.status.manualFanSpeed = s.ctl.status.manualFanSpeed ∧
    (s.ctl.status.heatCalcInitialized = true →
      (s.commitReading p t h).ctl.status.heatCalcInitialized = true ∧
      (s.commitReading p t h).ctl.status.referenceTemp = s.ctl.status.referenceTemp) ∧
    ((0 ≤ s.ctl.status.currentFanSpeed ∧ s.ctl.status.currentFanSpeed ≤ 1) →
      0 ≤ (s.commitReading p t h).ctl.status.currentFanSpeed ∧
      (s.commitReading p t h).ctl.status.currentFanSpeed ≤ 1) ∧
    (0 ≤ s.ctl.status.targetFanSpeed → 0 ≤ (s.commitReading p t h).ctl.status.targetFanSpeed) ∧
    (t ≤ 100 → s.ctl.status.targetFanSpeed ≤ 1 →
      (s.commitReading p t h).ctl.status.targetFanSpeed ≤ 1) := by
  rw [commitReading_eq]
  obtain ⟨r1, r2, r3, r4, r5, r6, r7⟩ := recorded_fields s p t h
  obtain ⟨ra1, ra2, ra3⟩ := actuation_eq r1
  obtain ⟨a1, a2, a3, a4⟩ := updateAutomaticMode_duty (s.recorded p t h) p.fanClock
  obtain ⟨as1, as2, as3, _, _, as6, as7, as8⟩ := sensed_eq a1
  obtain ⟨o1, o2⟩ := updateOperatingStats_fields
    ((s.recorded p t h).updateAutomaticMode p.fanClock).status
  obtain ⟨os1, os2, os3, _, _, os6, os7, os8⟩ := sensed_eq o1
  obtain ⟨_, oa2, oa3⟩ := actuation_eq o2
  obtain ⟨g1, g2, g3, g4, g5, g6⟩ := updateHeatCalculation_fields
    (((s.recorded p t h).updateAutomaticMode p.fanClock).status.updateOperatingStats)
    p.tHeatInit p.tHeat
  obtain ⟨_, ga2, ga3⟩ := actuation_eq g1
  obtain ⟨e1, e2⟩ := updateErrorState_fields
    { s with ctl :=
      { (s.recorded p t h).updateAutomaticMode p.fanClock with
        status := (((s.recorded p t h).updateAutomaticMode
          p.fanClock).status.updateOperatingStats).updateHeatCalculation p.tHeatInit p.tHeat } }
    true
  obtain ⟨es1, es2, es3, _, _, es6, es7, es8⟩ := sensed_eq e1
  obtain ⟨_, ea2, ea3⟩ := actuation_eq e2
  simp only [] at es1 es2 es3 es6 es7 es8 ea2 ea3
  refine ⟨?_, ?_, ?_, ?_, ?_, ?_, ?_, ?_⟩
  · rw [es1, g2, os1, as1, r2]
  · rw [es2, g3, os2, as2, r3]
  · rw [es3, g4, os3, as3, r4]
  · rw [es6, g5, os6, as6, r5]
  · intro hi
    have hi2 : (((s.recorded p t h).updateAutomaticMode
        p.fanClock).status.updateOperatingStats).heatCalcInitialized = true := by
      rw [os8, as8, r7]; exact hi
    obtain ⟨_, _, _, _, _, _, q7, q8⟩ := sensed_eq (g6 hi2)
    constructor
    · rw [es8, q8]; exact hi2
    · rw [es7, q7, os7, as7, r6]
  · intro hc
    rw [ea2, ga2, oa2]
    exact a2 (by rw [ra2]; exact hc)
  · intro ht
    rw [ea3, ga3, oa3]
    exact a3 (by rw [ra3]; exact ht)
  · intro h100 ht
    rw [ea3, ga3, oa3]
    exact a4 (by rw [r2]; exact h100) (by rw [ra3]; exact ht)

/-! ## Temperature extremes -/

/-- The three ways a poll can end, with the state each leaves. -/
theorem update_cases (s : System) (p : PollInput) :
    ((s.update p).1 = .notDue ∧ (s.update p).2 = s) ∨
    ((s.update p).1.ok = false) ∨
    (∃ t h sens, (s.update p).1 = .success ∧ p.reading = some (t, h) ∧ InRange t h ∧
      (s.update p).2 = System.commitReading { s with sensor := sens } p t h) := by
  unfold System.update
  by_cases hdue : usub p.now s.sensor.lastUpdate < s.getSensorInterval p.hour
  · left; rw [if_pos hdue]; exact ⟨rfl, rfl⟩
  · right
    rw [if_neg hdue]
    split
    · next t h hread =>
      by_cases hok : ((SensorState.checkSensorValues
          { s.sensor with lastUpdate := p.now % ULONG_SIZE } t h).1.ok) = true
      · right
        simp only [hok, if_true]
        refine ⟨t, h, _, trivial, hread, ?_, rfl⟩
        rcases check_cases { s.sensor with lastUpdate := p.now % ULONG_SIZE } t h with
          ⟨_, he⟩ | ⟨_, _, he⟩ | ⟨_, _, _, he⟩ | ⟨hin, _⟩
        · rw [he] at hok; exact absurd hok (by simp [CheckOutcome.ok])
        · rw [he] at hok; exact absurd hok (by simp [CheckOutcome.ok])
        · rw [he] at hok; exact absurd hok (by simp [CheckOutcome.ok])
        · exact hin
      · left
        simp only [hok, if_false]
        rfl
    · left; rfl

theorem commitReading_bracketed (s : System) (p : PollInput) (t h : ℚ) :
    (s.commitReading p t h).ctl.status.Bracketed := by
  obtain ⟨h1, h2, h3, _⟩ := commitReading_status s p t h
  unfold SystemStatus.Bracketed
  rw [h1, h2, h3]
  constructor
  · split_ifs with hlt
    · exact le_refl _
    · exact not_lt.mp hlt
  · split_ifs with hgt
    · exact le_refl _
    · exact not_lt.mp hgt

theorem update_fail_sensed (s : System) (p : PollInput) (hf : (s.update p).1.ok = false) :
    (s.update p).2.ctl.status.sensed = s.ctl.status.sensed ∧
    (s.update p).2.ctl.status.actuation = s.ctl.status.actuation := by
  obtain ⟨sens, _, he⟩ := update_fail s p hf
  rw [he]
  exact updateErrorState_fields { s with sensor := sens } false

/-- C19: after an accepted reading `minTemperature ≤ temperature ≤ maxTemperature`;
the relation survives every poll (accepted, rejected, failed or not due) and the
reset-extremes command, after which both extremes equal the temperature. -/
theorem extremes_bracket_temperature (s : System) (p : PollInput) (r : Request) :
    ((s.update p).1 = .success → (s.update p).2.ctl.status.Bracketed) ∧
    (s.ctl.status.Bracketed → (s.update p).2.ctl.status.Bracketed) ∧
    (s.ctl.status.Bracketed → (s.ctl.handleResetTemperature r).2.status.Bracketed) ∧
    (r.isPost = true →
      (s.ctl.handleResetTemperature r).2.status.minTemperature =
        (s.ctl.handleResetTemperature r).2.status.temperature ∧
      (s.ctl.handleResetTemperature r).2.status.maxTemperature =
        (s.ctl.handleResetTemperature r).2.status.temperature ∧
      (s.ctl.handleResetTemperature r).2.status.temperature = s.ctl.status.temperature) := by
  have hpoll : s.ctl.status.Bracketed ∨ (s.update p).1 = .success →
      (s.update p).2.ctl.status.Bracketed := by
    intro hb
    rcases update_cases s p with ⟨h1, h2⟩ | hf | ⟨t, h, sens, _, _, _, he⟩
    · rcases hb with hb | hb
      · rw [h2]; exact hb
      · rw [h1] at hb; exact absurd hb (by simp)
    · rcases hb with hb | hb
      · obtain ⟨q1, q2, q3, _⟩ := sensed_eq (update_fail_sensed s p hf).1
        unfold SystemStatus.Bracketed at hb ⊢
        rw [q1, q2, q3]; exact hb
      · rw [hb] at hf; exact absurd hf (by simp [PollResult.ok])
    · rw [he]; exact commitReading_bracketed _ p t h
  refine ⟨fun h => hpoll (Or.inr h), fun h => hpoll (Or.inl h), ?_, ?_⟩
  · intro hb
    unfold Controller.handleResetTemperature
    cases hp : r.isPost
    · exact hb
    · exact ⟨le_refl _, le_refl _⟩
  · intro hp
    unfold Controller.handleResetTemperature
    rw [hp]
    exact ⟨rfl, rfl, rfl⟩

/-- Witness of `extremes_bracket_temperature`: the first reading after power-up
(20 °C at 50 %) is accepted and leaves the extremes around the temperature. -/
theorem extremes_bracket_temperature_witness :
    ((System.boot 0 12).update (goodPoll 20000 20 50)).1 = .success ∧
    ((System.boot 0 12).update (goodPoll 20000 20 50)).2.ctl.status.Bracketed :=
  ⟨by decide,
   (extremes_bracket_temperature (System.boot 0 12) (goodPoll 20000 20 50)
      { isPost := true, mode := none, speed := none, clock := clockAt 0 }).1 (by decide)⟩

/-- The extremes after the first accepted reading following power-up. -/
theorem first_reading_extremes (now hour : Nat) (p : PollInput)
    (hs : ((System.boot now hour).update p).1 = .success) :
    ∃ t h, p.reading = some (t, h) ∧ InRange t h ∧
      ((System.boot now hour).update p).2.ctl.status.temperature = t ∧
      ((System.boot now hour).update p).2.ctl.status.minTemperature =
        (if t < 100 then t else 100) ∧
      ((System.boot now hour).update p).2.ctl.status.maxTemperature =
        (if t > -40 then t else -40) := by
  rcases update_cases (System.boot now hour) p with ⟨h1, _⟩ | hf | ⟨t, h, sens, _, hr, hin, he⟩
  · rw [h1] at hs; exact absurd hs (by simp)
  · rw [hs] at hf; exact absurd hf (by simp [PollResult.ok])
  · obtain ⟨q1, q2, q3, _⟩ := commitReading_status { System.boot now hour with sensor := sens } p t h
    refine ⟨t, h, hr, hin, ?_, ?_, ?_⟩
    · rw [he]; exact q1
    · rw [he]; exact q2
    · rw [he]; exact q3

/-- C20 (code behaviour at the failing input): the first reading after power-up,
110 °C at 50 %, is accepted; afterwards `maxTemperature` is 110 but
`minTemperature` is still the initial 100. -/
theorem first_reading_above_100_keeps_min :
    InRange 110 50 ∧
    ((System.boot 0 12).update (goodPoll 20000 110 50)).1 = .success ∧
    ((System.boot 0 12).update (goodPoll 20000 110 50)).2.ctl.status.temperature = 110 ∧
    ((System.boot 0 12).update (goodPoll 20000 110 50)).2.ctl.status.maxTemperature = 110 ∧
    ((System.boot 0 12).update (goodPoll 20000 110 50)).2.ctl.status.minTemperature = 100 := by
  have hs : ((System.boot 0 12).update (goodPoll 20000 110 50)).1 = .success := by decide
  obtain ⟨t, h, hr, _, h1, h2, h3⟩ := first_reading_extremes 0 12 _ hs
  have ht : t = 110 := by
    have : (some ((110 : ℚ), (50 : ℚ))) = some (t, h) := hr
    simp only [Option.some.injEq, Prod.mk.injEq] at this
    exact this.1.symm
  rw [ht] at h1 h2 h3
  refine ⟨?_, hs, h1, ?_, ?_⟩
  · unfold InRange SensorManager.MIN_VALID_TEMP SensorManager.MAX_VALID_TEMP
      SensorManager.MIN_VALID_HUM SensorManager.MAX_VALID_HUM
    norm_num
  · rw [h3]; norm_num
  · rw [h2]; norm_num

/-! ## Invariants of the running system -/

/-- Both invariants pass from a record to another one that agrees with it on
the fields they mention, or changes them within bounds. -/
theorem invariants_transfer {a b : SystemStatus}
    (h1 : b.heatCalcInitialized = a.heatCalcInitialized)
    (h2 : b.referenceTemp = a.referenceTemp)
    (h3 : b.manualFanSpeed = a.manualFanSpeed)
    (h4 : (0 ≤ a.currentFanSpeed ∧ a.currentFanSpeed ≤ 1) →
      (0 ≤ b.currentFanSpeed ∧ b.currentFanSpeed ≤ 1))
    (h5 : 0 ≤ a.targetFanSpeed → 0 ≤ b.targetFanSpeed)
    (h6 : b.temperature = a.temperature)
    (h7 : a.temperature ≤ 100 → a.targetFanSpeed ≤ 1 → b.targetFanSpeed ≤ 1) :
    (a.Stable → b.Stable) ∧ (a.Cool → b.Cool) := by
  constructor
  · rintro ⟨s1, s2, s3, s4, s5⟩
    exact ⟨by rw [h1]; exact s1, by rw [h2]; exact s2, by rw [h3]; exact s3, h4 s4, h5 s5⟩
  · rintro ⟨c1, c2⟩
    exact ⟨by rw [h6]; exact c1, h7 c1 c2⟩

/-- Transfer along equal sensed and actuation fields. -/
theorem invariants_of_fields {a b : SystemStatus}
    (hs : b.sensed = a.sensed) (ha : b.actuation = a.actuation) :
    (a.Stable → b.Stable) ∧ (a.Cool → b.Cool) := by
  obtain ⟨q1, _, _, _, _, q6, q7, q8⟩ := sensed_eq hs
  have hcur : b.currentFanSpeed = a.currentFanSpeed := congrArg (fun x => x.2.1) ha
  have htar : b.targetFanSpeed = a.targetFanSpeed := congrArg (fun x => x.2.2) ha
  exact invariants_transfer q8 q7 q6 (fun h => by rw [hcur]; exact h)
    (fun h => by rw [htar]; exact h) q1 (fun _ h => by rw [htar]; exact h)

theorem setFanSpeed_invariants (c : Controller) (v : ℚ) :
    (c.status.Stable → (c.setFanSpeed v).status.Stable) ∧
    (c.status.Cool → (c.setFanSpeed v).status.Cool) := by
  obtain ⟨hs, ha⟩ := setFanSpeed_fields c v
  obtain ⟨q1, _, _, _, _, q6, q7, q8⟩ := sensed_eq hs
  obtain ⟨_, a2, a3⟩ := actuation_eq ha
  exact invariants_transfer q8 q7 q6 (fun _ => by rw [a2]; exact constrain_bounds v)
    (fun h => by rw [a3]; exact h) q1 (fun _ h => by rw [a3]; exact h)

theorem toggleFan_invariants (c : Controller) (b : Bool) :
    (c.status.Stable → (c.toggleFan b).status.Stable) ∧
    (c.status.Cool → (c.toggleFan b).status.Cool) := by
  obtain ⟨hs, ha⟩ := toggleFan_fields c b
  obtain ⟨q1, _, _, _, _, q6, q7, q8⟩ := sensed_eq hs
  obtain ⟨_, a2, a3⟩ := actuation_eq ha
  refine invariants_transfer q8 q7 q6 (fun h => ?_)
    (fun h => by rw [a3]; exact h) q1 (fun _ h => by rw [a3]; exact h)
  rw [a2]
  cases b
  · simp
  · simpa using h

theorem updateAutomaticMode_invariants (c : Controller) (k : FanClock) :
    (c.status.Stable → (c.updateAutomaticMode k).status.Stable) ∧
    (c.status.Cool → (c.updateAutomaticMode k).status.Cool) := by
  obtain ⟨hs, h2, h3, h4⟩ := updateAutomaticMode_duty c k
  obtain ⟨q1, _, _, _, _, q6, q7, q8⟩ := sensed_eq hs
  exact invariants_transfer q8 q7 q6 h2 h3 q1 h4

theorem setAutoMode_invariants (st : SystemStatus) (b : Bool) :
    (st.Stable → (st.setAutoMode b).Stable) ∧ (st.Cool → (st.setAutoMode b).Cool) := by
  constructor
  · rintro ⟨s1, s2, s3, s4, s5⟩
    cases b
    · refine ⟨s1, s2, ?_, s4, s5⟩
      show 0 ≤ (if st.currentFanSpeed > 0 then st.currentFanSpeed else 0.5) ∧
        (if st.currentFanSpeed > 0 then st.currentFanSpeed else 0.5) ≤ 1
      split_ifs
      · exact s4
      · norm_num
    · exact ⟨s1, s2, s3, s4, s5⟩
  · intro hc
    cases b
    · exact hc
    · exact hc

theorem heatUpdate_fields (st : SystemStatus) (k : HeatClock) :
    (HeatCalculator.update st k).sensed = st.sensed ∧
    (HeatCalculator.update st k).actuation = st.actuation := by
  by_cases hg : st.heatCalcInitialized = false ∨ st.fanOn = false ∨
      st.needsHeatCalc k.tNeeds = false
  · rw [heatUpdate_skips st k hg]; exact ⟨rfl, rfl⟩
  · have hi : st.heatCalcInitialized = true := by
      cases h : st.heatCalcInitialized
      · exact absurd (Or.inl h) hg
      · rfl
    have hf : st.fanOn = true := by
      cases h : st.fanOn
      · exact absurd (Or.inr (Or.inl h)) hg
      · rfl
    have hn : st.needsHeatCalc k.tNeeds = true := by
      cases h : st.needsHeatCalc k.tNeeds
      · exact absurd (Or.inr (Or.inr h)) hg
      · rfl
    rw [heatUpdate_integrates st k hi hf hn]
    refine ⟨?_, rfl⟩
    simp only [SystemStatus.sensed, hi]

theorem handleToggleFan_invariants (c : Controller) (r : Request) :
    (c.status.Stable → (c.handleToggleFan r).2.status.Stable) ∧
    (c.status.Cool → (c.handleToggleFan r).2.status.Cool) := by
  unfold Controller.handleToggleFan
  split_ifs with h1 h2
  · exact ⟨id, id⟩
  · exact ⟨id, id⟩
  · simp only []
    have t1 := toggleFan_invariants
      { c with status := { c.status with fanOn := !c.status.fanOn } } (!c.status.fanOn)
    split_ifs
    · have t2 := setFanSpeed_invariants
        (Controller.toggleFan { c with status := { c.status with fanOn := !c.status.fanOn } }
          (!c.status.fanOn))
        (Controller.toggleFan { c with status := { c.status with fanOn := !c.status.fanOn } }
          (!c.status.fanOn)).status.manualFanSpeed
      exact ⟨fun h => t2.1 (t1.1 h), fun h => t2.2 (t1.2 h)⟩
    · have t2 := setFanSpeed_invariants
        (Controller.toggleFan { c with status := { c.status with fanOn := !c.status.fanOn } }
          (!c.status.fanOn)) 0
      exact ⟨fun h => t2.1 (t1.1 h), fun h => t2.2 (t1.2 h)⟩

theorem handleSetAutoMode_invariants (c : Controller) (r : Request) :
    (c.status.Stable → (c.handleSetAutoMode r).2.status.Stable) ∧
    (c.status.Cool → (c.handleSetAutoMode r).2.status.Cool) := by
  unfold Controller.handleSetAutoMode
  split_ifs with h1
  · exact ⟨id, id⟩
  · split
    · exact ⟨id, id⟩
    · next mode hm =>
      simp only []
      have t1 := setAutoMode_invariants c.status (mode == "1" || mode.toLower == "true")
      split_ifs
      · have t2 := updateAutomaticMode_invariants
          { c with status := c.status.setAutoMode (mode == "1" || mode.toLower == "true") }
          r.clock
        exact ⟨fun h => t2.1 (t1.1 h), fun h => t2.2 (t1.2 h)⟩
      · have t2 := setFanSpeed_invariants
          { c with status := c.status.setAutoMode (mode == "1" || mode.toLower == "true") }
          (c.status.setAutoMode (mode == "1" || mode.toLower == "true")).manualFanSpeed
        exact ⟨fun h => t2.1 (t1.1 h), fun h => t2.2 (t1.2 h)⟩
      · exact t1

theorem handleSetFanSpeed_invariants (c : Controller) (r : Request) :
    (c.status.Stable → (c.handleSetFanSpeed r).2.status.Stable) ∧
    (c.status.Cool → (c.handleSetFanSpeed r).2.status.Cool) := by
  unfold Controller.handleSetFanSpeed
  split_ifs with h1 h2
  · exact ⟨id, id⟩
  · exact ⟨id, id⟩
  · split
    · exact ⟨id, id⟩
    · exact ⟨id, id⟩
    · next speed hsp =>
      split_ifs with h3
      · exact ⟨id, id⟩
      · have h0 : 0 ≤ speed ∧ speed ≤ 1 := by
          constructor
          · exact not_lt.mp (fun h => h3 (Or.inl h))
          · exact not_lt.mp (fun h => h3 (Or.inr h))
        simp only []
        split_ifs
        · have t2 := setFanSpeed_invariants
            { c with status := { c.status with manualFanSpeed := speed } } speed
          exact ⟨fun ⟨s1, s2, _, s4, s5⟩ => t2.1 ⟨s1, s2, h0, s4, s5⟩, fun h => t2.2 h⟩
        · exact ⟨fun ⟨s1, s2, _, s4, s5⟩ => ⟨s1, s2, h0, s4, s5⟩, id⟩

theorem handleResetTemperature_invariants (c : Controller) (r : Request) :
    (c.status.Stable → (c.handleResetTemperature r).2.status.Stable) ∧
    (c.status.Cool → (c.handleResetTemperature r).2.status.Cool) := by
  unfold Controller.handleResetTemperature
  split_ifs <;> exact ⟨id, id⟩

theorem update_invariants (s : System) (p : PollInput) :
    (s.ctl.status.Stable → (s.update p).2.ctl.status.Stable) ∧
    (s.ctl.status.Stable → (∀ t h, p.reading = some (t, h) → t ≤ 100) →
      s.ctl.status.Cool → (s.update p).2.ctl.status.Cool) := by
  rcases update_cases s p with ⟨_, h2⟩ | hf | ⟨t, h, sens, _, hr, _, he⟩
  · rw [h2]; exact ⟨id, fun _ _ hc => hc⟩
  · obtain ⟨q1, q2⟩ := update_fail_sensed s p hf
    have := invariants_of_fields q1 q2
    exact ⟨this.1, fun _ _ hc => this.2 hc⟩
  · rw [he]
    obtain ⟨c1, _, _, c4, c5, c6, c7, c8⟩ :=
      commitReading_status { s with sensor := sens } p t h
    constructor
    · rintro ⟨s1, s2, s3, s4, s5⟩
      obtain ⟨i1, i2⟩ := c5 s1
      exact ⟨i1, by rw [i2]; exact s2, by rw [c4]; exact s3, c6 s4, c7 s5⟩
    · intro _ hle hc
      have ht : t ≤ 100 := hle t h hr
      exact ⟨by rw [c1]; exact ht, c8 ht hc.2⟩

/-- One operation preserves `Stable`; it preserves `Cool` as well when the
reading it offers, if any, is at most 100 °C. -/
theorem step_invariants (s : System) (op : Op) (hS : s.ctl.status.Stable) :
    (s.step op).ctl.status.Stable ∧
    (op.readsAtMost 100 → s.ctl.status.Cool → (s.step op).ctl.status.Cool) := by
  cases op with
  | poll p =>
    exact ⟨(update_invariants s p).1 hS, fun hr hc => (update_invariants s p).2 hS hr hc⟩
  | tick k =>
    exact ⟨(updateAutomaticMode_invariants s.ctl k).1 hS,
      fun _ hc => (updateAutomaticMode_invariants s.ctl k).2 hc⟩
  | setFanSpeed v =>
    exact ⟨(setFanSpeed_invariants s.ctl v).1 hS, fun _ hc => (setFanSpeed_invariants s.ctl v).2 hc⟩
  | toggleFan b =>
    exact ⟨(toggleFan_invariants s.ctl b).1 hS, fun _ hc => (toggleFan_invariants s.ctl b).2 hc⟩
  | httpToggleFan r =>
    exact ⟨(handleToggleFan_invariants s.ctl r).1 hS,
      fun _ hc => (handleToggleFan_invariants s.ctl r).2 hc⟩
  | httpSetAutoMode r =>
    exact ⟨(handleSetAutoMode_invariants s.ctl r).1 hS,
      fun _ hc => (handleSetAutoMode_invariants s.ctl r).2 hc⟩
  | httpSetFanSpeed r =>
    exact ⟨(handleSetFanSpeed_invariants s.ctl r).1 hS,
      fun _ hc => (handleSetFanSpeed_invariants s.ctl r).2 hc⟩
  | httpResetTemperature r =>
    exact ⟨(handleResetTemperature_invariants s.ctl r).1 hS,
      fun _ hc => (handleResetTemperature_invariants s.ctl r).2 hc⟩
  | setAutoMode b =>
    exact ⟨(setAutoMode_invariants s.ctl.status b).1 hS,
      fun _ hc => (setAutoMode_invariants s.ctl.status b).2 hc⟩
  | resetMinMaxTemperature => exact ⟨hS, fun _ hc => hc⟩
  | updateHeatCalculation a b =>
    obtain ⟨g1, _, _, _, _, g6⟩ := updateHeatCalculation_fields s.ctl.status a b
    have := invariants_of_fields (g6 hS.1) g1
    exact ⟨this.1 hS, fun _ hc => this.2 hc⟩
  | heatUpdate k =>
    obtain ⟨g1, g2⟩ := heatUpdate_fields s.ctl.status k
    have := invariants_of_fields g1 g2
    exact ⟨this.1 hS, fun _ hc => this.2 hc⟩
  | heatInitialize init =>
    have he : HeatCalculator.initializeCalculator init s.ctl.status = s.ctl.status := by
      unfold HeatCalculator.initializeCalculator
      rw [hS.1]; rfl
    show (HeatCalculator.initializeCalculator init s.ctl.status).Stable ∧
      (_ → s.ctl.status.Cool → (HeatCalculator.initializeCalculator init s.ctl.status).Cool)
    rw [he]
    exact ⟨hS, fun _ hc => hc⟩

theorem run_invariants (ops : List Op) :
    ∀ s : System, s.ctl.status.Stable →
      (s.run ops).ctl.status.Stable ∧
      ((∀ op ∈ ops, op.readsAtMost 100) → s.ctl.status.Cool → (s.run ops).ctl.status.Cool) := by
  induction ops with
  | nil => intro s hS; exact ⟨hS, fun _ hc => hc⟩
  | cons op ops ih =>
    intro s hS
    obtain ⟨h1, h2⟩ := step_invariants s op hS
    obtain ⟨g1, g2⟩ := ih (s.step op) h1
    refine ⟨g1, fun hall hc => ?_⟩
    exact g2 (fun o ho => hall o (List.mem_cons_of_mem _ ho))
      (h2 (hall op (List.mem_cons_self _ _)) hc)

theorem boot_invariants (now hour : Nat) :
    (System.boot now hour).ctl.status.Stable ∧ (System.boot now hour).ctl.status.Cool := by
  unfold SystemStatus.Stable SystemStatus.Cool
  show (true = true ∧ (0 : ℚ) = 0 ∧ ((0 : ℚ) ≤ 0.5 ∧ (0.5 : ℚ) ≤ 1) ∧
    ((0 : ℚ) ≤ 0 ∧ (0 : ℚ) ≤ 1) ∧ (0 : ℚ) ≤ 0) ∧ ((0 : ℚ) ≤ 100 ∧ (0 : ℚ) ≤ 1)
  norm_num


/-- C13 (amended): in every state reached from power-up by any sequence of
operations (polls, automatic-mode ticks, `setFanSpeed`, `toggleFan`, the HTTP
commands, the heat-estimator updates), `manualFanSpeed` and `currentFanSpeed`
lie in [0, 1] and `targetFanSpeed` is not negative; `targetFanSpeed` is at most
1 as well provided no reading offered to a poll exceeds 100 °C. -/
theorem duty_fields_in_range (now hour : Nat) (ops : List Op) :
    (0 ≤ ((System.boot now hour).run ops).ctl.status.manualFanSpeed ∧
      ((System.boot now hour).run ops).ctl.status.manualFanSpeed ≤ 1) ∧
    (0 ≤ ((System.boot now hour).run ops).ctl.status.currentFanSpeed ∧
      ((System.boot now hour).run ops).ctl.status.currentFanSpeed ≤ 1) ∧
    0 ≤ ((System.boot now hour).run ops).ctl.status.targetFanSpeed ∧
    ((∀ op ∈ ops, op.readsAtMost 100) →
      ((System.boot now hour).run ops).ctl.status.targetFanSpeed ≤ 1) := by
  obtain ⟨hS, hC⟩ := boot_invariants now hour
  obtain ⟨⟨_, _, s3, s4, s5⟩, g2⟩ := run_invariants ops (System.boot now hour) hS
  exact ⟨s3, s4, s5, fun hall => (g2 hall hC).2⟩

/-- Witness of `duty_fields_in_range`: a poll reading 20 °C, then a manual duty request. -/
theorem duty_fields_in_range_witness :
    (∀ op ∈ [Op.poll (goodPoll 20000 20 50), Op.setFanSpeed 0.7], op.readsAtMost 100) ∧
    ((System.boot 0 12).run
      [Op.poll (goodPoll 20000 20 50), Op.setFanSpeed 0.7]).ctl.status.targetFanSpeed ≤ 1 := by
  have hall : ∀ op ∈ [Op.poll (goodPoll 20000 20 50), Op.setFanSpeed 0.7],
      op.readsAtMost 100 := by
    intro op hop
    simp only [List.mem_cons, List.mem_singleton, List.not_mem_nil, or_false] at hop
    rcases hop with rfl | rfl
    · intro t h hr
      have : (some ((20 : ℚ), (50 : ℚ))) = some (t, h) := hr
      simp only [Option.some.injEq, Prod.mk.injEq] at this
      rw [← this.1]; norm_num
    · trivial
  exact ⟨hall, (duty_fields_in_range 0 12 _).2.2.2 hall⟩

/-- The target speed stored by an accepted reading in automatic mode is the one
`calculateTargetSpeed` returns for the record holding that reading. -/
theorem commitReading_target (s : System) (p : PollInput) (t h : ℚ)
    (ha : s.ctl.status.autoMode = true) :
    (s.commitReading p t h).ctl.status.targetFanSpeed =
      ((s.recorded p t h).calculateTargetSpeed p.fanClock).1 := by
  rw [commitReading_eq]
  obtain ⟨_, e2⟩ := updateErrorState_fields
    { s with ctl :=
      { (s.recorded p t h).updateAutomaticMode p.fanClock with
        status := (((s.recorded p t h).updateAutomaticMode
          p.fanClock).status.updateOperatingStats).updateHeatCalculation p.tHeatInit p.tHeat } }
    true
  obtain ⟨_, _, ea3⟩ := actuation_eq e2
  obtain ⟨g1, _⟩ := updateHeatCalculation_fields
    (((s.recorded p t h).updateAutomaticMode p.fanClock).status.updateOperatingStats)
    p.tHeatInit p.tHeat
  obtain ⟨_, _, ga3⟩ := actuation_eq g1
  obtain ⟨_, o2⟩ := updateOperatingStats_fields
    ((s.recorded p t h).updateAutomaticMode p.fanClock).status
  obtain ⟨_, _, oa3⟩ := actuation_eq o2
  have hrec : (s.recorded p t h).status.autoMode = true := by
    obtain ⟨_, _, _, _, _, q6, _⟩ :=
      updateMinMaxTemperature_fields { s.ctl.status with temperature := t, humidity := h } t
    exact q6.trans ha
  obtain ⟨_, hact⟩ := updateAutomaticMode_fields (s.recorded p t h) p.fanClock hrec
  simp only [] at ea3
  rw [ea3, ga3, oa3]
  by_cases ht : ((s.recorded p t h).calculateTargetSpeed p.fanClock).1 > 0
  · rw [if_pos ht] at hact
    exact (actuation_eq hact).2.2
  · rw [if_neg ht] at hact
    exact (actuation_eq hact).2.2

/-- C13 (counterexample): the first reading after power-up, 125 °C at 50 %, is
in the valid range and accepted; the automatic-mode tick it triggers stores a
`targetFanSpeed` above 1. -/
theorem target_speed_exceeds_one_at_125 :
    InRange 125 50 ∧
    ((System.boot 0 12).update (goodPoll 20000 125 50)).1 = .success ∧
    1 < ((System.boot 0 12).run [Op.poll (goodPoll 20000 125 50)]).ctl.status.targetFanSpeed := by
  have hs : ((System.boot 0 12).update (goodPoll 20000 125 50)).1 = .success := by decide
  refine ⟨?_, hs, ?_⟩
  · unfold InRange SensorManager.MIN_VALID_TEMP SensorManager.MAX_VALID_TEMP
      SensorManager.MIN_VALID_HUM SensorManager.MAX_VALID_HUM
    norm_num
  · show 1 < ((System.boot 0 12).update (goodPoll 20000 125 50)).2.ctl.status.targetFanSpeed
    rcases update_cases (System.boot 0 12) (goodPoll 20000 125 50) with
      ⟨h1, _⟩ | hf | ⟨t, h, sens, _, hr, _, he⟩
    · rw [h1] at hs; exact absurd hs (by simp)
    · rw [hs] at hf; exact absurd hf (by simp [PollResult.ok])
    · have ht : t = 125 := by
        have : (some ((125 : ℚ), (50 : ℚ))) = some (t, h) := hr
        simp only [Option.some.injEq, Prod.mk.injEq] at this
        exact this.1.symm
      subst ht
      rw [he, commitReading_target _ _ _ _ rfl]
      have hT : (({ System.boot 0 12 with sensor := sens } : System).recorded
          (goodPoll 20000 125 50) 125 h).status.temperature = 125 :=
        (recorded_fields _ _ _ _).2.1
      have htrend : (({ System.boot 0 12 with sensor := sens } : System).recorded
          (goodPoll 20000 125 50) 125 h).trend = 25 := by
        rw [trend_eq, hT]
        show ((125 : ℚ) - 0) / 5 = 25
        norm_num
      have hw := (calculateTargetSpeed_active _ (goodPoll 20000 125 50).fanClock
        (by rw [hT]; norm_num)).2.1 (Or.inr (by rw [htrend]; norm_num))
      rw [hw, hT]
      norm_num

/-- C17: the reference temperature is 0 (the initial temperature) at power-up
and after any sequence of operations, among them accepted readings, both heat
estimators, `HeatCalculator::initialize` with any body for the undeclared
`initHeatCalculation`, `setAutoMode` and `resetMinMaxTemperature`; the heat
calculation is initialized in every such state. -/
theorem reference_temperature_fixed (now hour : Nat) (ops : List Op) :
    (System.boot now hour).ctl.status.referenceTemp = (System.boot now hour).ctl.status.temperature ∧
    (System.boot now hour).ctl.status.temperature = 0 ∧
    ((System.boot now hour).run ops).ctl.status.referenceTemp = 0 ∧
    ((System.boot now hour).run ops).ctl.status.heatCalcInitialized = true := by
  obtain ⟨hS, _⟩ := boot_invariants now hour
  obtain ⟨⟨s1, s2, _⟩, _⟩ := run_invariants ops (System.boot now hour) hS
  exact ⟨rfl, rfl, s2, s1⟩

/-! ## The set-manual-duty command and the PWM duty -/

/-- The four exits of `handleSetFanSpeed` on a POST request. -/
theorem handleSetFanSpeed_post (c : Controller) (r : Request) (hp : r.isPost = true) :
    (c.refusesSpeed r ∧ c.handleSetFanSpeed r = (.error 400, c)) ∨
    (∃ q, c.status.autoMode = false ∧ r.speed = some (.num q) ∧ 0 ≤ q ∧ q ≤ 1 ∧
      c.handleSetFanSpeed r =
        (.success,
          if c.status.fanOn = true then
            Controller.setFanSpeed
              { c with status := { c.status with manualFanSpeed := q } } q
          else { c with status := { c.status with manualFanSpeed := q } })) := by
  unfold Controller.handleSetFanSpeed Controller.refusesSpeed
  rw [hp]
  simp only [Bool.not_true, Bool.false_eq_true, if_false]
  cases ha : c.status.autoMode
  · simp only [Bool.false_eq_true, if_false, false_or]
    rcases hs : r.speed with _ | v
    · left; exact ⟨Or.inl rfl, rfl⟩
    · cases v with
      | nan => left; exact ⟨Or.inr (Or.inl rfl), rfl⟩
      | num q =>
        by_cases hq : q < 0 ∨ q > 1
        · left
          refine ⟨Or.inr (Or.inr ⟨q, rfl, hq⟩), ?_⟩
          simp only [if_pos hq]
        · right
          refine ⟨q, trivial, rfl, not_lt.mp (fun h => hq (Or.inl h)),
            not_lt.mp (fun h => hq (Or.inr h)), ?_⟩
          simp only [if_neg hq]
  · left
    simp only [if_true]
    exact ⟨Or.inl trivial, trivial⟩

theorem constrain_id {v : ℚ} (h0 : 0 ≤ v) (h1 : v ≤ 1) : constrain v 0 1 = v := by
  unfold constrain
  rw [if_neg (not_lt.mpr h0), if_neg (not_lt.mpr h1)]

/-- C21: on a POST request `handleSetFanSpeed` answers with a rejection exactly
when automatic mode is active, the speed argument is missing, or its value is
NaN, below 0 or above 1, and then the controller and every field of the record
are unchanged; otherwise it answers success, stores the requested speed in
`manualFanSpeed`, and `currentFanSpeed` becomes the requested speed when the fan
is on and keeps its value when the fan is off. -/
theorem set_manual_duty_command (c : Controller) (r : Request) (hp : r.isPost = true) :
    ((c.handleSetFanSpeed r).1 ≠ Response.success ↔ c.refusesSpeed r) ∧
    (c.refusesSpeed r → (c.handleSetFanSpeed r).2 = c) ∧
    (∀ q, c.status.autoMode = false → r.speed = some (.num q) → 0 ≤ q → q ≤ 1 →
      (c.handleSetFanSpeed r).1 = Response.success ∧
      (c.handleSetFanSpeed r).2.status.manualFanSpeed = q ∧
      (c.handleSetFanSpeed r).2.status.fanOn = c.status.fanOn ∧
      (c.status.fanOn = true → (c.handleSetFanSpeed r).2.status.currentFanSpeed = q) ∧
      (c.status.fanOn = false →
        (c.handleSetFanSpeed r).2.status.currentFanSpeed = c.status.currentFanSpeed)) := by
  have hnot : ∀ q, c.status.autoMode = false → r.speed = some (.num q) → 0 ≤ q → q ≤ 1 →
      ¬ c.refusesSpeed r := by
    intro q ha hs h0 h1 hr
    rcases hr with h | h | h | ⟨p, hp2, h⟩
    · rw [ha] at h; exact Bool.noConfusion h
    · rw [hs] at h; exact Option.noConfusion h
    · rw [hs] at h; injection h with h; exact FloatVal.noConfusion h
    · rw [hs] at hp2
      injection hp2 with hp2
      injection hp2 with hp2
      subst hp2
      rcases h with h | h
      · exact absurd h0 (not_le.mpr h)
      · exact absurd h1 (not_le.mpr h)
  rcases handleSetFanSpeed_post c r hp with ⟨hr, he⟩ | ⟨q, ha, hs, h0, h1, he⟩
  · refine ⟨?_, ?_, ?_⟩
    · rw [he]
      exact ⟨fun _ => hr, fun _ h => Response.noConfusion h⟩
    · intro _; rw [he]
    · intro q ha hs h0 h1
      exact absurd hr (hnot q ha hs h0 h1)
  · have hsucc : (c.handleSetFanSpeed r).1 = Response.success := by rw [he]
    refine ⟨?_, ?_, ?_⟩
    · exact ⟨fun h => absurd hsucc h, fun h => absurd h (hnot q ha hs h0 h1)⟩
    · intro h; exact absurd h (hnot q ha hs h0 h1)
    · intro p _ hs2 _ _
      have hpq : p = q := by
        rw [hs] at hs2
        injection hs2 with hs2
        injection hs2 with hs2
        exact hs2.symm
      subst hpq
      refine ⟨hsucc, ?_⟩
      rw [he]
      cases hf : c.status.fanOn
      · simp only [Bool.false_eq_true, if_false]
        exact ⟨trivial, hf, fun h => h.elim, fun _ => trivial⟩
      · simp only [if_true]
        obtain ⟨hsen, hact⟩ := setFanSpeed_fields
          { c with status := { c.status with manualFanSpeed := p } } p
        obtain ⟨hon, hcur, -⟩ := actuation_eq hact
        have hman := (sensed_eq hsen).2.2.2.2.2.1
        refine ⟨hman, ?_, ?_, ?_⟩
        · rw [hon]; exact hf
        · intro _; rw [hcur]; exact constrain_id h0 h1
        · intro h; exact Bool.noConfusion h

theorem set_manual_duty_command_witness :
    (speedRequest (1/2)).isPost = true ∧
    ((manualController true).handleSetFanSpeed (speedRequest (1/2))).1 = Response.success ∧
    ((manualController true).handleSetFanSpeed (speedRequest (1/2))).2.status.manualFanSpeed
      = 1/2 ∧
    ((manualController true).handleSetFanSpeed (speedRequest (1/2))).2.status.currentFanSpeed
      = 1/2 :=
  have h := (set_manual_duty_command (manualController true) (speedRequest (1/2)) rfl).2.2
    (1/2) rfl rfl (by norm_num) (by norm_num)
  ⟨rfl, h.1, h.2.1, h.2.2.2.1 rfl⟩

theorem toLong_of_nonneg {x : ℚ} (h : 0 ≤ x) : toLong x = ⌊x⌋ := by
  unfold toLong
  rw [if_neg (not_lt.mpr h)]
  rfl

theorem constrain_mono {v w : ℚ} (h : v ≤ w) : constrain v 0 1 ≤ constrain w 0 1 := by
  unfold constrain
  split_ifs <;> linarith

theorem constrain_low {v : ℚ} (h : v ≤ 0) : constrain v 0 1 = 0 := by
  unfold constrain
  split_ifs <;> linarith

theorem constrain_high {v : ℚ} (h : 1 ≤ v) : constrain v 0 1 = 1 := by
  unfold constrain
  split_ifs <;> linarith

theorem constrain_eq_clamp01 (v : ℚ) : constrain v 0 1 = clamp01 v := by
  unfold constrain clamp01
  split_ifs with h1 h2
  · rw [min_eq_left (by linarith), max_eq_left (by linarith)]
  · rw [min_eq_right (by linarith), max_eq_right (by norm_num)]
  · rw [min_eq_left (by linarith), max_eq_right (by linarith)]

/-! ### Rounding to `float` -/

theorem roundTiesEven_bounds (x : ℚ) :
    ⌊x⌋ ≤ roundTiesEven x ∧ roundTiesEven x ≤ ⌊x⌋ + 1 := by
  unfold roundTiesEven
  show ⌊x⌋ ≤ (if x - ⌊x⌋ < 1 / 2 then ⌊x⌋ else if 1 / 2 < x - ⌊x⌋ then ⌊x⌋ + 1
      else if ⌊x⌋ % 2 = 0 then ⌊x⌋ else ⌊x⌋ + 1) ∧
    (if x - ⌊x⌋ < 1 / 2 then ⌊x⌋ else if 1 / 2 < x - ⌊x⌋ then ⌊x⌋ + 1
      else if ⌊x⌋ % 2 = 0 then ⌊x⌋ else ⌊x⌋ + 1) ≤ ⌊x⌋ + 1
  split_ifs <;> constructor <;> omega

theorem roundTiesEven_intCast (n : Int) : roundTiesEven (n : ℚ) = n := by
  unfold roundTiesEven
  show (if (n : ℚ) - ⌊(n : ℚ)⌋ < 1 / 2 then ⌊(n : ℚ)⌋ else _) = n
  rw [Int.floor_intCast, sub_self, if_pos (by norm_num)]

theorem roundTiesEven_mono {x y : ℚ} (h : x ≤ y) : roundTiesEven x ≤ roundTiesEven y := by
  have hf : ⌊x⌋ ≤ ⌊y⌋ := Int.floor_mono h
  rcases lt_or_eq_of_le hf with hlt | heq
  · have h1 := (roundTiesEven_bounds x).2
    have h2 := (roundTiesEven_bounds y).1
    omega
  · unfold roundTiesEven
    show (if x - ⌊x⌋ < 1 / 2 then ⌊x⌋ else if 1 / 2 < x - ⌊x⌋ then ⌊x⌋ + 1
        else if ⌊x⌋ % 2 = 0 then ⌊x⌋ else ⌊x⌋ + 1) ≤
      (if y - ⌊y⌋ < 1 / 2 then ⌊y⌋ else if 1 / 2 < y - ⌊y⌋ then ⌊y⌋ + 1
        else if ⌊y⌋ % 2 = 0 then ⌊y⌋ else ⌊y⌋ + 1)
    rw [← heq]
    split_ifs <;> first | omega | (exfalso; linarith)

theorem floatExponent_mono {x y : ℚ} (h0 : 0 < x) (h : x ≤ y) :
    floatExponent x ≤ floatExponent y := by
  unfold floatExponent
  exact max_le_max (Int.log_mono_right h0 h) (le_refl _)

theorem ulp_pos (e : Int) : (0 : ℚ) < 2 ^ (e - 23) := zpow_pos (by norm_num) _

theorem ulp_scale24 (e : Int) : ((2 ^ 24 : Int) : ℚ) * 2 ^ (e - 23) = 2 ^ (e + 1) := by
  have h : ((2 ^ 24 : Int) : ℚ) = (2 : ℚ) ^ (24 : Int) := by norm_num
  rw [h, ← zpow_add₀ (by norm_num : (2 : ℚ) ≠ 0)]
  congr 1
  ring

theorem ulp_scale23 (e : Int) : ((2 ^ 23 : Int) : ℚ) * 2 ^ (e - 23) = 2 ^ e := by
  have h : ((2 ^ 23 : Int) : ℚ) = (2 : ℚ) ^ (23 : Int) := by norm_num
  rw [h, ← zpow_add₀ (by norm_num : (2 : ℚ) ≠ 0)]
  congr 1
  ring

/-- A positive real rounds to at most the next power of two above it. -/
theorem roundFloat_le_pow {x : ℚ} (h0 : 0 < x) :
    roundFloat x ≤ 2 ^ (floatExponent x + 1) := by
  unfold roundFloat
  simp only [abs_of_pos h0]
  have hx : x < 2 ^ (floatExponent x + 1) := by
    have h1 := Int.lt_zpow_succ_log_self (R := ℚ) (b := 2) (by norm_num) x
    have h2 : ((2 : ℕ) : ℚ) ^ (Int.log 2 x + 1) ≤ 2 ^ (floatExponent x + 1) := by
      rw [Nat.cast_ofNat]
      apply zpow_le_zpow_right₀ (by norm_num)
      unfold floatExponent
      have := le_max_left (Int.log 2 x) (-126)
      omega
    linarith
  have hu := ulp_pos (floatExponent x)
  have hq : x / 2 ^ (floatExponent x - 23) ≤ ((2 ^ 24 : Int) : ℚ) := by
    rw [div_le_iff₀ hu]
    rw [ulp_scale24]
    exact le_of_lt hx
  have hr := roundTiesEven_mono hq
  rw [roundTiesEven_intCast] at hr
  have hr2 : (roundTiesEven (x / 2 ^ (floatExponent x - 23)) : ℚ) ≤ ((2 ^ 24 : Int) : ℚ) := by
    exact_mod_cast hr
  calc (roundTiesEven (x / 2 ^ (floatExponent x - 23)) : ℚ) * 2 ^ (floatExponent x - 23)
      ≤ ((2 ^ 24 : Int) : ℚ) * 2 ^ (floatExponent x - 23) :=
        mul_le_mul_of_nonneg_right hr2 (le_of_lt hu)
    _ = 2 ^ (floatExponent x + 1) := ulp_scale24 _

/-- A positive real in the normal range rounds to at least the power of two below it. -/
theorem pow_le_roundFloat {x : ℚ} (h0 : 0 < x) (hn : -126 < floatExponent x) :
    2 ^ floatExponent x ≤ roundFloat x := by
  have he : floatExponent x = Int.log 2 x := by
    unfold floatExponent at hn ⊢
    rcases max_cases (Int.log 2 x) (-126) with ⟨h1, _⟩ | ⟨h1, _⟩
    · exact h1
    · rw [h1] at hn; exact absurd hn (lt_irrefl _)
  unfold roundFloat
  simp only [abs_of_pos h0]
  have hx : (2 : ℚ) ^ floatExponent x ≤ x := by
    rw [he]
    have h1 := Int.zpow_log_le_self (R := ℚ) (b := 2) (by norm_num) h0
    rw [Nat.cast_ofNat] at h1
    exact h1
  have hu := ulp_pos (floatExponent x)
  have hpow := ulp_scale23 (floatExponent x)
  have hq : ((2 ^ 23 : Int) : ℚ) ≤ x / 2 ^ (floatExponent x - 23) := by
    rw [le_div_iff₀ hu, hpow]
    exact hx
  have hr := roundTiesEven_mono hq
  rw [roundTiesEven_intCast] at hr
  have hr2 : ((2 ^ 23 : Int) : ℚ) ≤ (roundTiesEven (x / 2 ^ (floatExponent x - 23)) : ℚ) := by
    exact_mod_cast hr
  calc (2 : ℚ) ^ floatExponent x
      = ((2 ^ 23 : Int) : ℚ) * 2 ^ (floatExponent x - 23) := hpow.symm
    _ ≤ (roundTiesEven (x / 2 ^ (floatExponent x - 23)) : ℚ) * 2 ^ (floatExponent x - 23) :=
        mul_le_mul_of_nonneg_right hr2 (le_of_lt hu)

theorem roundFloat_zero : roundFloat 0 = 0 := by
  unfold roundFloat
  simp only [zero_div]
  have h := roundTiesEven_intCast 0
  rw [Int.cast_zero] at h
  rw [h, Int.cast_zero, zero_mul]

theorem roundFloat_nonneg {x : ℚ} (h0 : 0 ≤ x) : 0 ≤ roundFloat x := by
  unfold roundFloat
  simp only []
  have hu := ulp_pos (floatExponent |x|)
  have hq : ((0 : Int) : ℚ) ≤ x / 2 ^ (floatExponent |x| - 23) := by
    rw [Int.cast_zero]; exact div_nonneg h0 (le_of_lt hu)
  have hr := roundTiesEven_mono hq
  rw [roundTiesEven_intCast] at hr
  exact mul_nonneg (by exact_mod_cast hr) (le_of_lt hu)

/-- Rounding to `float` is monotone on the non-negative reals. -/
theorem roundFloat_mono {x y : ℚ} (h0 : 0 ≤ x) (h : x ≤ y) : roundFloat x ≤ roundFloat y := by
  rcases eq_or_lt_of_le h0 with hz | hpos
  · rw [← hz, roundFloat_zero]
    exact roundFloat_nonneg (le_trans h0 h)
  · have hy : 0 < y := lt_of_lt_of_le hpos h
    rcases lt_or_eq_of_le (floatExponent_mono hpos h) with hlt | heq
    · have h1 := roundFloat_le_pow hpos
      have hlow : -126 < floatExponent y := by
        have : -126 ≤ floatExponent x := le_max_right _ _
        omega
      have h2 := pow_le_roundFloat hy hlow
      have h3 : (2 : ℚ) ^ (floatExponent x + 1) ≤ 2 ^ floatExponent y :=
        zpow_le_zpow_right₀ (by norm_num) (by omega)
      linarith
    · unfold roundFloat
      simp only [abs_of_pos hpos, abs_of_pos hy, heq]
      have hu := ulp_pos (floatExponent y)
      have hq : x / 2 ^ (floatExponent y - 23) ≤ y / 2 ^ (floatExponent y - 23) :=
        div_le_div_of_nonneg_right h (le_of_lt hu)
      have hr := roundTiesEven_mono hq
      exact mul_le_mul_of_nonneg_right (by exact_mod_cast hr) (le_of_lt hu)

/-- The exponent of a positive real between two consecutive powers of two. -/
theorem floatExponent_eq {x : ℚ} (e : Int) (he : -126 ≤ e) (h1 : 2 ^ e ≤ x)
    (h2 : x < 2 ^ (e + 1)) : floatExponent x = e := by
  have h0 : 0 < x := lt_of_lt_of_le (zpow_pos (by norm_num) e) h1
  have ha : e ≤ Int.log 2 x := by
    rw [← Int.zpow_le_iff_le_log (by norm_num) h0, Nat.cast_ofNat]; exact h1
  have hb : Int.log 2 x < e + 1 := by
    rw [← Int.lt_zpow_iff_log_lt (by norm_num) h0, Nat.cast_ofNat]; exact h2
  unfold floatExponent
  rw [max_eq_left (by omega)]
  omega

/-- A real that is a multiple of the unit in the last place is a `float`. -/
theorem roundFloat_exact {x : ℚ} (e n : Int) (he : -126 ≤ e) (h1 : 2 ^ e ≤ x)
    (h2 : x < 2 ^ (e + 1)) (hn : x = (n : ℚ) * 2 ^ (e - 23)) : roundFloat x = x := by
  have h0 : 0 < x := lt_of_lt_of_le (zpow_pos (by norm_num) e) h1
  unfold roundFloat
  simp only [abs_of_pos h0, floatExponent_eq e he h1 h2]
  have hu := ulp_pos e
  have : x / 2 ^ (e - 23) = (n : ℚ) := by
    rw [hn]; field_simp
  rw [this, roundTiesEven_intCast, ← hn]

theorem roundFloat_hundred : roundFloat 100 = 100 := by
  apply roundFloat_exact 6 13107200 (by norm_num) (by norm_num) (by norm_num)
  norm_num [zpow_neg]

theorem roundTiesEven_up {x : ℚ} (f : Int) (h1 : (f : ℚ) + 1 / 2 < x) (h2 : x < f + 1) :
    roundTiesEven x = f + 1 := by
  have hf : ⌊x⌋ = f := by
    rw [Int.floor_eq_iff]
    exact ⟨by linarith, h2⟩
  unfold roundTiesEven
  show (if x - ⌊x⌋ < 1 / 2 then ⌊x⌋ else if 1 / 2 < x - ⌊x⌋ then ⌊x⌋ + 1 else _) = f + 1
  rw [hf, if_neg (by linarith), if_pos (by linarith)]

/-- The `float` product at a real whose exponent and rounded significand are known. -/
theorem roundFloat_eval {x : ℚ} (e n : Int) (he : -126 ≤ e) (h1 : 2 ^ e ≤ x)
    (h2 : x < 2 ^ (e + 1)) (hr : roundTiesEven (x / 2 ^ (e - 23)) = n) :
    roundFloat x = (n : ℚ) * 2 ^ (e - 23) := by
  have h0 : 0 < x := lt_of_lt_of_le (zpow_pos (by norm_num) e) h1
  unfold roundFloat
  simp only [abs_of_pos h0, floatExponent_eq e he h1 h2, hr]

/-- The whole percent that `setFanSpeed` hands to `map`. -/
theorem percent_bounds (v : ℚ) :
    0 ≤ ⌊roundFloat (constrain v 0 1 * 100)⌋ ∧ ⌊roundFloat (constrain v 0 1 * 100)⌋ ≤ 100 := by
  obtain ⟨h0, h1⟩ := constrain_bounds v
  have hx : 0 ≤ constrain v 0 1 * 100 := by linarith
  constructor
  · exact Int.floor_nonneg.mpr (roundFloat_nonneg hx)
  · have hm : roundFloat (constrain v 0 1 * 100) ≤ 100 := by
      have := roundFloat_mono hx (show constrain v 0 1 * 100 ≤ 100 by linarith)
      rw [roundFloat_hundred] at this
      exact this
    have h := Int.floor_le (roundFloat (constrain v 0 1 * 100))
    have h2 : ((⌊roundFloat (constrain v 0 1 * 100)⌋ : Int) : ℚ) ≤ ((100 : Int) : ℚ) := by
      push_cast; linarith
    exact_mod_cast h2

/-- The duty value `setFanSpeed` writes to the PWM channel. -/
theorem setFanSpeed_duty (c : Controller) (v : ℚ) :
    ((c.setFanSpeed v).hw.duty : Int) =
      ⌊roundFloat (constrain v 0 1 * 100)⌋ * 235 / 100 + 20 := by
  obtain ⟨h0, h1⟩ := constrain_bounds v
  obtain ⟨hn0, hn1⟩ := percent_bounds v
  have hd : (c.setFanSpeed v).hw.duty =
      (map (toLong (roundFloat (constrain v 0 1 * 100))) 0 100 Config.PWM.MIN_DUTY
        Config.PWM.MAX_DUTY % (ULONG_SIZE : Int)).toNat := by
    unfold Controller.setFanSpeed Controller.clearErrors
    simp only []
    split_ifs <;> rfl
  have hm : map (toLong (roundFloat (constrain v 0 1 * 100))) 0 100 Config.PWM.MIN_DUTY
      Config.PWM.MAX_DUTY = ⌊roundFloat (constrain v 0 1 * 100)⌋ * 235 / 100 + 20 := by
    rw [toLong_of_nonneg (roundFloat_nonneg (by linarith))]
    unfold map Config.PWM.MIN_DUTY Config.PWM.MAX_DUTY
    simp only [sub_zero]
    rw [if_neg (by norm_num)]
    rw [Int.tdiv_eq_ediv (by positivity) (by norm_num)]
    norm_num
  have hq0 : 0 ≤ ⌊roundFloat (constrain v 0 1 * 100)⌋ * 235 / 100 :=
    Int.ediv_nonneg (by positivity) (by norm_num)
  have hq1 : ⌊roundFloat (constrain v 0 1 * 100)⌋ * 235 / 100 ≤ 235 := by
    have : ⌊roundFloat (constrain v 0 1 * 100)⌋ * 235 / 100 ≤ 100 * 235 / 100 :=
      Int.ediv_le_ediv (by norm_num) (by linarith)
    simpa using this
  rw [hd, hm]
  have hU : (ULONG_SIZE : Int) = 4294967296 := by unfold ULONG_SIZE; norm_num
  rw [hU, Int.emod_eq_of_lt (by linarith) (by linarith)]
  exact Int.toNat_of_nonneg (by linarith)

/-- The duty at the `float` nearest to 0.29, which is 9730785 · 2⁻²⁵ and lies
below 0.29: the `float` product with 100 rounds up to 29, so the duty is
29 · 235 / 100 + 20 = 88. Likewise the `float`s nearest to 0.57 and 0.58 give
153 and 156. -/
theorem setFanSpeed_duty_samples (c : Controller) :
    (c.setFanSpeed (9730785 / 33554432)).hw.duty = 88 ∧
    (c.setFanSpeed (9563013 / 16777216)).hw.duty = 153 ∧
    (c.setFanSpeed (9730785 / 16777216)).hw.duty = 156 := by
  have r29 : roundFloat ((9730785 / 33554432 : ℚ) * 100) = 29 := by
    rw [roundFloat_eval 4 15204352 (by norm_num) (by norm_num) (by norm_num)
      (by
        have h := roundTiesEven_up (x := (9730785 / 33554432 : ℚ) * 100 / 2 ^ ((4 : Int) - 23))
          15204351 (by norm_num [zpow_neg]) (by norm_num [zpow_neg])
        rw [h]; norm_num)]
    norm_num [zpow_neg]
  have r57 : roundFloat ((9563013 / 16777216 : ℚ) * 100) = 57 := by
    rw [roundFloat_eval 5 14942208 (by norm_num) (by norm_num) (by norm_num)
      (by
        have h := roundTiesEven_up (x := (9563013 / 16777216 : ℚ) * 100 / 2 ^ ((5 : Int) - 23))
          14942207 (by norm_num [zpow_neg]) (by norm_num [zpow_neg])
        rw [h]; norm_num)]
    norm_num [zpow_neg]
  have r58 : roundFloat ((9730785 / 16777216 : ℚ) * 100) = 58 := by
    rw [roundFloat_eval 5 15204352 (by norm_num) (by norm_num) (by norm_num)
      (by
        have h := roundTiesEven_up (x := (9730785 / 16777216 : ℚ) * 100 / 2 ^ ((5 : Int) - 23))
          15204351 (by norm_num [zpow_neg]) (by norm_num [zpow_neg])
        rw [h]; norm_num)]
    norm_num [zpow_neg]
  have c29 : constrain (9730785 / 33554432) 0 1 = 9730785 / 33554432 :=
    constrain_id (by norm_num) (by norm_num)
  have c57 : constrain (9563013 / 16777216) 0 1 = 9563013 / 16777216 :=
    constrain_id (by norm_num) (by norm_num)
  have c58 : constrain (9730785 / 16777216) 0 1 = 9730785 / 16777216 :=
    constrain_id (by norm_num) (by norm_num)
  refine ⟨?_, ?_, ?_⟩
  · have h := setFanSpeed_duty c (9730785 / 33554432)
    rw [c29, r29] at h
    norm_num at h
    exact_mod_cast h
  · have h := setFanSpeed_duty c (9563013 / 16777216)
    rw [c57, r57] at h
    norm_num at h
    exact_mod_cast h
  · have h := setFanSpeed_duty c (9730785 / 16777216)
    rw [c58, r58] at h
    norm_num at h
    exact_mod_cast h

/-- C22: for every requested speed `setFanSpeed` stores the speed clamped to
[0, 1] in `currentFanSpeed` and writes a PWM duty that lies in [20, 255], is
non-decreasing in the requested speed (whatever the controller state), equals 20
for every speed at or below 0 and equals 255 for every speed at or above 1. The
duty is computed from the `float` product `speed * 100` truncated to `long`. -/
theorem set_fan_speed_clamps_and_scales (c d : Controller) (v w : ℚ) :
    (c.setFanSpeed v).status.currentFanSpeed = clamp01 v ∧
    20 ≤ (c.setFanSpeed v).hw.duty ∧ (c.setFanSpeed v).hw.duty ≤ 255 ∧
    (v ≤ w → (c.setFanSpeed v).hw.duty ≤ (d.setFanSpeed w).hw.duty) ∧
    (v ≤ 0 → (c.setFanSpeed v).hw.duty = 20) ∧
    (1 ≤ v → (c.setFanSpeed v).hw.duty = 255) := by
  obtain ⟨hn0, hn1⟩ := percent_bounds v
  obtain ⟨hc0, -⟩ := constrain_bounds v
  have hv := setFanSpeed_duty c v
  have hw := setFanSpeed_duty d w
  have hq0 : 0 ≤ ⌊roundFloat (constrain v 0 1 * 100)⌋ * 235 / 100 :=
    Int.ediv_nonneg (by positivity) (by norm_num)
  have hq1 : ⌊roundFloat (constrain v 0 1 * 100)⌋ * 235 / 100 ≤ 100 * 235 / 100 :=
    Int.ediv_le_ediv (by norm_num) (by linarith)
  refine ⟨?_, ?_, ?_, ?_, ?_, ?_⟩
  · rw [(actuation_eq (setFanSpeed_fields c v).2).2.1]
    exact constrain_eq_clamp01 v
  · have : (20 : Int) ≤ ((c.setFanSpeed v).hw.duty : Int) := by rw [hv]; linarith
    exact_mod_cast this
  · have : ((c.setFanSpeed v).hw.duty : Int) ≤ 255 := by
      rw [hv]; norm_num at hq1; linarith
    exact_mod_cast this
  · intro h
    have hf : ⌊roundFloat (constrain v 0 1 * 100)⌋ ≤ ⌊roundFloat (constrain w 0 1 * 100)⌋ :=
      Int.floor_mono (roundFloat_mono (by linarith) (by linarith [constrain_mono h]))
    have : ((c.setFanSpeed v).hw.duty : Int) ≤ ((d.setFanSpeed w).hw.duty : Int) := by
      rw [hv, hw]
      have := Int.ediv_le_ediv (show (0 : Int) < 100 by norm_num)
        (show ⌊roundFloat (constrain v 0 1 * 100)⌋ * 235
          ≤ ⌊roundFloat (constrain w 0 1 * 100)⌋ * 235 by linarith)
      linarith
    exact_mod_cast this
  · intro h
    have : ((c.setFanSpeed v).hw.duty : Int) = 20 := by
      rw [hv, constrain_low h, zero_mul, roundFloat_zero]; norm_num
    exact_mod_cast this
  · intro h
    have : ((c.setFanSpeed v).hw.duty : Int) = 255 := by
      rw [hv, constrain_high h, one_mul, roundFloat_hundred]; norm_num
    exact_mod_cast this

theorem set_fan_speed_clamps_and_scales_witness :
    ((manualController true).setFanSpeed (1/2)).status.currentFanSpeed = clamp01 (1/2) ∧
    ((manualController true).setFanSpeed (1/2)).hw.duty
      ≤ ((manualController false).setFanSpeed (3/4)).hw.duty ∧
    ((manualController true).setFanSpeed (-1)).hw.duty = 20 ∧
    ((manualController true).setFanSpeed 2).hw.duty = 255 ∧
    ((manualController true).setFanSpeed (9730785 / 33554432)).hw.duty = 88 :=
  ⟨(set_fan_speed_clamps_and_scales (manualController true) (manualController false)
      (1/2) (3/4)).1,
   (set_fan_speed_clamps_and_scales (manualController true) (manualController false)
      (1/2) (3/4)).2.2.2.1 (by norm_num),
   (set_fan_speed_clamps_and_scales (manualController true) (manualController true)
      (-1) (-1)).2.2.2.2.1 (by norm_num),
   (set_fan_speed_clamps_and_scales (manualController true) (manualController true)
      2 2).2.2.2.2.2 (by norm_num),
   (setFanSpeed_duty_samples (manualController true)).1⟩

/-! ## The automatic-mode tick -/

theorem constrain_eq_min {s : ℚ} (h : 0 ≤ s) : constrain s 0 1 = min s 1 := by
  unfold constrain
  rw [if_neg (not_lt.mpr h)]
  split_ifs with h1
  · rw [min_eq_right (le_of_lt h1)]
  · rw [min_eq_left (not_lt.mp h1)]

/-- C23: a tick of `updateAutomaticMode` in automatic mode that computes the
target speed `s` (which is never negative) leaves `targetFanSpeed = s`; when
`s > 0` the fan is on and `currentFanSpeed = min s 1`; when `s = 0` the fan is
off and `currentFanSpeed = 0`, provided `currentFanSpeed` was 0 whenever the fan
was already off. With automatic mode disabled the tick returns the controller,
record included, unchanged. -/
theorem automatic_tick_outcome (c : Controller) (k : FanClock) :
    (c.status.autoMode = true →
      0 ≤ (c.calculateTargetSpeed k).1 ∧
      (c.updateAutomaticMode k).status.targetFanSpeed = (c.calculateTargetSpeed k).1 ∧
      ((c.calculateTargetSpeed k).1 > 0 →
        (c.updateAutomaticMode k).status.fanOn = true ∧
        (c.updateAutomaticMode k).status.currentFanSpeed
          = min (c.calculateTargetSpeed k).1 1) ∧
      ((c.calculateTargetSpeed k).1 = 0 →
        (c.status.fanOn = false → c.status.currentFanSpeed = 0) →
        (c.updateAutomaticMode k).status.fanOn = false ∧
        (c.updateAutomaticMode k).status.currentFanSpeed = 0)) ∧
    (c.status.autoMode = false → c.updateAutomaticMode k = c) := by
  refine ⟨?_, updateAutomaticMode_manual c k⟩
  intro ha
  obtain ⟨-, hact⟩ := updateAutomaticMode_fields c k ha
  have h0 := (calculateTargetSpeed_bounds c k).1
  refine ⟨h0, ?_, ?_, ?_⟩
  · by_cases ht : (c.calculateTargetSpeed k).1 > 0
    · rw [if_pos ht] at hact; exact (actuation_eq hact).2.2
    · rw [if_neg ht] at hact; exact (actuation_eq hact).2.2
  · intro ht
    rw [if_pos ht] at hact
    obtain ⟨hon, hcur, -⟩ := actuation_eq hact
    exact ⟨hon, by rw [hcur]; exact constrain_eq_min h0⟩
  · intro hz hoff
    rw [if_neg (by rw [hz]; exact lt_irrefl 0)] at hact
    obtain ⟨hon, hcur, -⟩ := actuation_eq hact
    refine ⟨hon, ?_⟩
    rw [hcur]
    cases hf : c.status.fanOn
    · simp only [Bool.false_eq_true, if_false]; exact hoff hf
    · simp only [if_true]

theorem automatic_tick_outcome_witness :
    (sampleController 30 30 0 false).status.autoMode = true ∧
    ((sampleController 30 30 0 false).updateAutomaticMode (clockAt 1000)).status.targetFanSpeed
      = ((sampleController 30 30 0 false).calculateTargetSpeed (clockAt 1000)).1 :=
  ⟨rfl, ((automatic_tick_outcome (sampleController 30 30 0 false) (clockAt 1000)).1 rfl).2.1⟩

/-! ## The trend over the pushed samples -/

theorem sampleAt_nil (k : Nat) : sampleAt [] k = 0 := by
  unfold sampleAt; simp

theorem sampleAt_push_zero (xs : List ℚ) (x : ℚ) : sampleAt (xs ++ [x]) 0 = x := by
  unfold sampleAt; simp

theorem sampleAt_push_succ (xs : List ℚ) (x : ℚ) (k : Nat) :
    sampleAt (xs ++ [x]) (k + 1) = sampleAt xs k := by
  unfold sampleAt; simp

theorem meanOfDeltas_eq (xs : List ℚ) :
    meanOfDeltas xs = (sampleAt xs 0 - sampleAt xs 5) / 5 := by
  unfold meanOfDeltas
  simp [List.range_succ]

theorem pushAll_snoc (f : FanState) (xs : List ℚ) (x : ℚ) :
    f.pushAll (xs ++ [x]) = (f.pushAll xs).updateTempHistory x := by
  unfold FanState.pushAll
  rw [List.foldl_append]
  rfl

theorem cell6_shift : ∀ i : Fin 6, ∀ k : Fin 5,
    cell6 ((cell6 (i.val + 1)).val + 5 - (k.val + 1)) = cell6 (i.val + 5 - k.val) ∧
    cell6 (i.val + 5 - k.val) ≠ i := by decide

theorem cell6_self : ∀ i : Fin 6, cell6 i.val = i := by decide

theorem cell6_succ_mod : ∀ i : Fin 6, ∀ n : Nat, i = cell6 n → cell6 (i.val + 1) = cell6 (n + 1) := by
  intro i n h
  subst h
  unfold cell6
  simp [Nat.add_mod]

/-- The buffer as a window on the pushed samples: the cursor is the number of
pushes modulo 6 and the cell `k` places behind the newest holds the `k`-th newest
sample. -/
theorem pushAll_window (now hour : Nat) (xs : List ℚ) :
    ((FanState.construct now hour).pushAll xs).tempHistoryIndex = cell6 xs.length ∧
    ∀ k, k < 6 →
      ((FanState.construct now hour).pushAll xs).tempHistory
        (cell6 (((FanState.construct now hour).pushAll xs).tempHistoryIndex.val + 5 - k))
        = sampleAt xs k := by
  induction xs using List.reverseRecOn with
  | nil =>
    refine ⟨rfl, ?_⟩
    intro k _
    rw [sampleAt_nil]
    rfl
  | append_singleton xs x ih =>
    obtain ⟨hi, hc⟩ := ih
    rw [pushAll_snoc]
    generalize (FanState.construct now hour).pushAll xs = f at hi hc
    constructor
    · show cell6 (f.tempHistoryIndex.val + 1) = _
      rw [List.length_append]
      exact cell6_succ_mod _ _ hi
    · intro k hk
      show (if cell6 ((cell6 (f.tempHistoryIndex.val + 1)).val + 5 - k) = f.tempHistoryIndex
        then x
        else f.tempHistory (cell6 ((cell6 (f.tempHistoryIndex.val + 1)).val + 5 - k))) = _
      cases k with
      | zero =>
        rw [Nat.sub_zero, if_pos (cell6_newest _), sampleAt_push_zero]
      | succ j =>
        have hj : j < 5 := by omega
        obtain ⟨h1, h2⟩ := cell6_shift f.tempHistoryIndex ⟨j, hj⟩
        simp only [] at h1 h2
        rw [h1, if_neg h2, sampleAt_push_succ]
        exact hc j (by omega)

/-- C24: whatever samples were pushed before (so for every cursor position,
which is the number of earlier pushes modulo 6), the trend that `getTempTrend`
returns right after `updateTempHistory` pushed the sample `x` equals the mean of
the five consecutive differences between the last six pushed samples, which is
(newest − sixth-newest) / 5 with the newest being `x`, samples never pushed
counting as 0. -/
theorem trend_is_mean_of_last_six (now hour : Nat) (xs : List ℚ) (x : ℚ) :
    ((FanState.construct now hour).pushAll xs).tempHistoryIndex = cell6 xs.length ∧
    (((FanState.construct now hour).pushAll xs).updateTempHistory x).getTempTrend
      = meanOfDeltas (xs ++ [x]) ∧
    meanOfDeltas (xs ++ [x]) = (x - sampleAt (xs ++ [x]) 5) / 5 := by
  refine ⟨(pushAll_window now hour xs).1, ?_, ?_⟩
  · rw [← pushAll_snoc, getTempTrend_eq, meanOfDeltas_eq]
    obtain ⟨-, hc⟩ := pushAll_window now hour (xs ++ [x])
    have h0 := hc 0 (by norm_num)
    have h5 := hc 5 (by norm_num)
    rw [Nat.sub_zero] at h0
    rw [Nat.add_sub_cancel, cell6_self] at h5
    rw [h0, h5]
  · rw [meanOfDeltas_eq, sampleAt_push_zero]

/-! ## The live efficiency -/

theorem airDensity_pos (st : SystemStatus) (hT : -273.15 < st.temperature)
    (hH : st.humidity < 5000) : 0 < HeatCalculator.calculateAirDensity st := by
  simp only [HeatCalculator.calculateAirDensity, Config.Heat.AIR_DENSITY]
  have h1 : (0 : ℚ) < 293.15 / (st.temperature + 273.15) := by
    apply div_pos
    · norm_num
    · linarith
  have h2 : (0 : ℚ) < 1 - st.humidity * 0.0002 := by linarith
  exact mul_pos (mul_pos (by norm_num) h1) h2

/-- What `calculateCurrentEfficiency` reads from the record after an integrating update. -/
theorem heatUpdate_efficiency_inputs (st : SystemStatus) (k : HeatClock)
    (hi : st.heatCalcInitialized = true) (hf : st.fanOn = true)
    (hn : st.needsHeatCalc k.tNeeds = true) :
    (HeatCalculator.update st k).fanOn = true ∧
    (HeatCalculator.update st k).currentHeatPower =
      HeatCalculator.calculateAirDensity st * HeatCalculator.calculateCurrentAirflow st *
        Config.Heat.AIR_SPECIFIC_HEAT * HeatCalculator.calculateTempDifference st *
        Config.Heat.SYSTEM_EFFICIENCY ∧
    HeatCalculator.calculateMaxPossiblePower (HeatCalculator.update st k) =
      HeatCalculator.calculateMaxPossiblePower st := by
  rw [heatUpdate_integrates st k hi hf hn]
  exact ⟨hf, rfl, rfl⟩

/-- The live efficiency right after an integrating update at full duty. -/
theorem efficiency_after_full_duty (st : SystemStatus) (k : HeatClock)
    (hi : st.heatCalcInitialized = true) (hf : st.fanOn = true)
    (hn : st.needsHeatCalc k.tNeeds = true)
    (hd : st.currentFanSpeed = 1) (hdT : 0.5 ≤ st.temperature - st.referenceTemp)
    (hT : -273.15 < st.temperature) (hH : st.humidity < 5000) :
    HeatCalculator.calculateCurrentEfficiency (HeatCalculator.update st k) = 85 := by
  obtain ⟨hon, hP, hM⟩ := heatUpdate_efficiency_inputs st k hi hf hn
  have hrho := airDensity_pos st hT hH
  have hdiff : HeatCalculator.calculateTempDifference st = st.temperature - st.referenceTemp := by
    simp only [HeatCalculator.calculateTempDifference, Config.Heat.MIN_TEMP_DIFF]
    rw [if_neg (not_lt.mpr hdT)]
  have hflow : HeatCalculator.calculateCurrentAirflow st = Config.Heat.MAX_AIRFLOW / 3600 := by
    simp only [HeatCalculator.calculateCurrentAirflow, hd]
    norm_num
  have hmax : HeatCalculator.calculateMaxPossiblePower st =
      HeatCalculator.calculateAirDensity st * (Config.Heat.MAX_AIRFLOW / 3600) *
        Config.Heat.AIR_SPECIFIC_HEAT * (st.temperature - st.referenceTemp) := by
    simp only [HeatCalculator.calculateMaxPossiblePower, hdiff]
  have hmpos : 0 < HeatCalculator.calculateMaxPossiblePower st := by
    rw [hmax]
    have h1 : (0 : ℚ) < Config.Heat.MAX_AIRFLOW / 3600 := by
      unfold Config.Heat.MAX_AIRFLOW; norm_num
    have h2 : (0 : ℚ) < Config.Heat.AIR_SPECIFIC_HEAT := by
      unfold Config.Heat.AIR_SPECIFIC_HEAT; norm_num
    have h3 : (0 : ℚ) < st.temperature - st.referenceTemp := by linarith
    exact mul_pos (mul_pos (mul_pos hrho h1) h2) h3
  have hPM : (HeatCalculator.update st k).currentHeatPower =
      HeatCalculator.calculateMaxPossiblePower st * Config.Heat.SYSTEM_EFFICIENCY := by
    rw [hP, hflow, hdiff, hmax]
  have hPpos : 0 < (HeatCalculator.update st k).currentHeatPower := by
    rw [hPM]
    exact mul_pos hmpos (by unfold Config.Heat.SYSTEM_EFFICIENCY; norm_num)
  unfold HeatCalculator.calculateCurrentEfficiency
  simp only [hon, hM, Bool.not_true, Bool.false_eq_true, false_or]
  rw [if_neg (not_le.mpr hPpos), if_neg (not_le.mpr hmpos), hPM]
  unfold Config.Heat.SYSTEM_EFFICIENCY
  field_simp
  norm_num

/-- At duty 1 with 30 °C against a 20 °C reference and dry air, the live
efficiency right after an integrating update is 85, not 100, and the maximum
possible power differs from the instantaneous-power formula taken at the peak
airflow with the factor 0.85 kept. -/
theorem full_duty_efficiency_is_85 :
    HeatCalculator.calculateCurrentEfficiency
      (HeatCalculator.update (heatSample 1 30 20 0) (heatClockAt 10000)) = 85 ∧
    HeatCalculator.calculateCurrentEfficiency
      (HeatCalculator.update (heatSample 1 30 20 0) (heatClockAt 10000)) ≠ 100 ∧
    HeatCalculator.calculateMaxPossiblePower (heatSample 1 30 20 0) ≠
      1.204 * (293.15 / (30 + 273.15)) * (1 - 0.0002 * 0) * (102.1 / 3600) * 1.005 *
        (30 - 20) * 0.85 := by
  have h : HeatCalculator.calculateCurrentEfficiency
      (HeatCalculator.update (heatSample 1 30 20 0) (heatClockAt 10000)) = 85 :=
    efficiency_after_full_duty (heatSample 1 30 20 0) (heatClockAt 10000) rfl rfl
      (by decide) rfl
      (by show (0.5 : ℚ) ≤ 30 - 20; norm_num)
      (by show (-273.15 : ℚ) < 30; norm_num)
      (by show (0 : ℚ) < 5000; norm_num)
  refine ⟨h, ?_, ?_⟩
  · rw [h]; norm_num
  · simp only [HeatCalculator.calculateMaxPossiblePower, HeatCalculator.calculateAirDensity,
      HeatCalculator.calculateTempDifference, Config.Heat.AIR_DENSITY, Config.Heat.MAX_AIRFLOW,
      Config.Heat.AIR_SPECIFIC_HEAT, Config.Heat.MIN_TEMP_DIFF, heatSample]
    norm_num

/-- C25 (amended): `calculateMaxPossiblePower` is ρ · (102.1 / 3600) · c_air · ΔT,
the instantaneous-power formula at the peak rated airflow without the efficiency
factor 0.85; consequently, right after an integrating update at duty 1 with the
fan on, a temperature delta of at least 0.5 and a positive air density
(temperature above −273.15, humidity below 5000), `calculateCurrentEfficiency`
is 85. -/
theorem max_power_omits_efficiency_factor (st : SystemStatus) (k : HeatClock)
    (rho dT : ℚ)
    (hrho : rho = 1.204 * (293.15 / (st.temperature + 273.15)) * (1 - 0.0002 * st.humidity))
    (hdT : dT = if 0.5 ≤ st.temperature - st.referenceTemp
      then st.temperature - st.referenceTemp else 0) :
    HeatCalculator.calculateMaxPossiblePower st = rho * (102.1 / 3600) * 1.005 * dT ∧
    (st.heatCalcInitialized = true → st.fanOn = true → st.needsHeatCalc k.tNeeds = true →
      st.currentFanSpeed = 1 → 0.5 ≤ st.temperature - st.referenceTemp →
      -273.15 < st.temperature → st.humidity < 5000 →
      (HeatCalculator.update st k).currentHeatPower = rho * (102.1 / 3600) * 1.005 * dT * 0.85 ∧
      HeatCalculator.calculateCurrentEfficiency (HeatCalculator.update st k) = 85) := by
  subst hrho hdT
  constructor
  · simp only [HeatCalculator.calculateMaxPossiblePower, HeatCalculator.calculateAirDensity,
      HeatCalculator.calculateTempDifference, Config.Heat.AIR_DENSITY, Config.Heat.MAX_AIRFLOW,
      Config.Heat.AIR_SPECIFIC_HEAT, Config.Heat.MIN_TEMP_DIFF]
    by_cases h : 0.5 ≤ st.temperature - st.referenceTemp
    · rw [if_neg (not_lt.mpr h), if_pos h]; ring
    · rw [if_pos (not_le.mp h), if_neg h]; ring
  · intro hi hf hn hd h5 hT hH
    refine ⟨?_, efficiency_after_full_duty st k hi hf hn hd h5 hT hH⟩
    rw [(heatUpdate_efficiency_inputs st k hi hf hn).2.1]
    simp only [HeatCalculator.calculateAirDensity, HeatCalculator.calculateCurrentAirflow,
      HeatCalculator.calculateTempDifference, Config.Heat.AIR_DENSITY, Config.Heat.MAX_AIRFLOW,
      Config.Heat.AIR_SPECIFIC_HEAT, Config.Heat.MIN_TEMP_DIFF, Config.Heat.SYSTEM_EFFICIENCY, hd]
    rw [if_neg (not_lt.mpr h5), if_pos h5]; ring

theorem max_power_omits_efficiency_factor_witness :
    HeatCalculator.calculateMaxPossiblePower (heatSample 1 25 20 50) =
      1.204 * (293.15 / (25 + 273.15)) * (1 - 0.0002 * 50) * (102.1 / 3600) * 1.005 *
        (if (0.5 : ℚ) ≤ 25 - 20 then 25 - 20 else 0) ∧
    HeatCalculator.calculateCurrentEfficiency
      (HeatCalculator.update (heatSample 1 25 20 50) (heatClockAt 10000)) = 85 :=
  have h := max_power_omits_efficiency_factor (heatSample 1 25 20 50) (heatClockAt 10000)
    _ _ rfl rfl
  ⟨h.1, (h.2 rfl rfl (by decide) rfl
      (by show (0.5 : ℚ) ≤ 25 - 20; norm_num)
      (by show (-273.15 : ℚ) < 25; norm_num)
      (by show (50 : ℚ) < 5000; norm_num)).2⟩

/-! ## The sleep flag -/

theorem clearErrors_sleepFlag (c : Controller) :
    c.clearErrors.fan.inSleepMode = c.fan.inSleepMode := by
  unfold Controller.clearErrors
  split_ifs <;> rfl

theorem setFanSpeed_sleepFlag (c : Controller) (v : ℚ) :
    (c.setFanSpeed v).fan.inSleepMode = c.fan.inSleepMode := by
  unfold Controller.setFanSpeed
  simp only []
  rw [clearErrors_sleepFlag]

theorem toggleFan_sleepFlag (c : Controller) (b : Bool) :
    (c.toggleFan b).fan.inSleepMode = c.fan.inSleepMode := by
  unfold Controller.toggleFan
  simp only []
  rw [clearErrors_sleepFlag]
  split_ifs
  · rw [setFanSpeed_sleepFlag]
  · rfl

/-- A call of `calculateTargetSpeed` either leaves the flag clear or leaves it as it was. -/
theorem calculateTargetSpeed_sleepFlag (c : Controller) (k : FanClock) :
    (c.calculateTargetSpeed k).2.fan.inSleepMode = false ∨
    (c.calculateTargetSpeed k).2.fan.inSleepMode = c.fan.inSleepMode := by
  by_cases hT : c.status.temperature < 22
  · obtain ⟨h1, h2⟩ := calculateTargetSpeed_sleep c k hT
    by_cases hw : c.fan.inSleepMode = false ∨ c.fan.windowOpen k.tCheck k.hour
    · rw [(h1 hw).2]
      split_ifs
      · left; rfl
      · right; rfl
    · have hs : c.fan.inSleepMode = true := by
        cases h : c.fan.inSleepMode
        · exact absurd (Or.inl h) hw
        · rfl
      right
      rw [(h2 hs (fun h => hw (Or.inr h))).2, hs]
  · left
    exact (calculateTargetSpeed_active c k (not_lt.mp hT)).1

theorem updateAutomaticMode_sleepFlag (c : Controller) (k : FanClock) :
    (c.updateAutomaticMode k).fan.inSleepMode = false ∨
    (c.updateAutomaticMode k).fan.inSleepMode = c.fan.inSleepMode := by
  cases ha : c.status.autoMode
  · rw [updateAutomaticMode_manual c k ha]; right; rfl
  · have hf := calculateTargetSpeed_sleepFlag c k
    have he : (c.updateAutomaticMode k).fan.inSleepMode
        = (c.calculateTargetSpeed k).2.fan.inSleepMode := by
      unfold Controller.updateAutomaticMode
      rw [ha]
      simp only [Bool.not_true, Bool.false_eq_true, if_false]
      rcases c.calculateTargetSpeed k with ⟨t, c'⟩
      simp only []
      rw [clearErrors_sleepFlag]
      split_ifs
      · rw [setFanSpeed_sleepFlag, toggleFan_sleepFlag]
      · rw [setFanSpeed_sleepFlag]
      · rw [toggleFan_sleepFlag]
      · rfl
    rw [he]
    exact hf

theorem updateErrorState_fan (s : System) (b : Bool) :
    (s.updateErrorState b).ctl.fan = s.ctl.fan := by
  unfold System.updateErrorState
  simp only []
  split_ifs <;> rfl

theorem update_sleepFlag (s : System) (p : PollInput) :
    (s.update p).2.ctl.fan.inSleepMode = false ∨
    (s.update p).2.ctl.fan.inSleepMode = s.ctl.fan.inSleepMode := by
  rcases update_cases s p with ⟨_, h2⟩ | hf | ⟨t, h, sens, _, _, _, he⟩
  · rw [h2]; right; rfl
  · obtain ⟨sens, _, he⟩ := update_fail s p hf
    rw [he, updateErrorState_fan]
    right; rfl
  · rw [he, commitReading_eq, updateErrorState_fan]
    exact updateAutomaticMode_sleepFlag (System.recorded { s with sensor := sens } p t h)
      p.fanClock

theorem handleToggleFan_sleepFlag (c : Controller) (r : Request) :
    (c.handleToggleFan r).2.fan.inSleepMode = c.fan.inSleepMode := by
  unfold Controller.handleToggleFan
  split_ifs
  · rfl
  · rfl
  · simp only []
    split_ifs
    · rw [setFanSpeed_sleepFlag, toggleFan_sleepFlag]
    · rw [setFanSpeed_sleepFlag, toggleFan_sleepFlag]

theorem handleSetFanSpeed_sleepFlag (c : Controller) (r : Request) :
    (c.handleSetFanSpeed r).2.fan.inSleepMode = c.fan.inSleepMode := by
  unfold Controller.handleSetFanSpeed
  split_ifs
  · rfl
  · rfl
  · split
    · rfl
    · rfl
    · simp only []
      split_ifs
      · rfl
      · rw [setFanSpeed_sleepFlag]
      · rfl

theorem handleSetAutoMode_sleepFlag (c : Controller) (r : Request) :
    (c.handleSetAutoMode r).2.fan.inSleepMode = false ∨
    (c.handleSetAutoMode r).2.fan.inSleepMode = c.fan.inSleepMode := by
  unfold Controller.handleSetAutoMode
  split_ifs
  · right; rfl
  · split
    · right; rfl
    · next mode hm =>
      simp only []
      split_ifs
      · exact updateAutomaticMode_sleepFlag
          { c with status := c.status.setAutoMode (mode == "1" || mode.toLower == "true") }
          r.clock
      · right; rw [setFanSpeed_sleepFlag]
      · right; rfl

theorem handleResetTemperature_sleepFlag (c : Controller) (r : Request) :
    (c.handleResetTemperature r).2.fan.inSleepMode = c.fan.inSleepMode := by
  unfold Controller.handleResetTemperature
  split_ifs <;> rfl

/-- Every operation either leaves the flag clear or leaves it as it was. -/
theorem step_sleepFlag (s : System) (op : Op) :
    (s.step op).ctl.fan.inSleepMode = false ∨
    (s.step op).ctl.fan.inSleepMode = s.ctl.fan.inSleepMode := by
  cases op with
  | poll p => exact update_sleepFlag s p
  | tick k => exact updateAutomaticMode_sleepFlag s.ctl k
  | setFanSpeed v => right; exact setFanSpeed_sleepFlag s.ctl v
  | toggleFan b => right; exact toggleFan_sleepFlag s.ctl b
  | httpToggleFan r => right; exact handleToggleFan_sleepFlag s.ctl r
  | httpSetAutoMode r => exact handleSetAutoMode_sleepFlag s.ctl r
  | httpSetFanSpeed r => right; exact handleSetFanSpeed_sleepFlag s.ctl r
  | httpResetTemperature r => right; exact handleResetTemperature_sleepFlag s.ctl r
  | setAutoMode b => right; rfl
  | resetMinMaxTemperature => right; rfl
  | updateHeatCalculation a b => right; rfl
  | heatUpdate k => right; rfl
  | heatInitialize init => right; rfl

theorem run_stays_active (ops : List Op) :
    ∀ s : System, s.ctl.fan.inSleepMode = false → (s.run ops).ctl.fan.inSleepMode = false := by
  induction ops with
  | nil => intro s h; exact h
  | cons op ops ih =>
    intro s h
    apply ih
    rcases step_sleepFlag s op with h1 | h1
    · exact h1
    · rw [h1]; exact h

theorem ticksAfter_stays_active (fs : List ((SystemStatus → SystemStatus) × FanClock)) :
    ∀ c : Controller, c.fan.inSleepMode = false → (c.ticksAfter fs).fan.inSleepMode = false := by
  induction fs with
  | nil => intro c h; exact h
  | cons fk rest ih =>
    intro c h
    obtain ⟨f, k⟩ := fk
    apply ih
    rcases updateAutomaticMode_sleepFlag { c with status := f c.status } k with h1 | h1
    · exact h1
    · rw [h1]; exact h

/-- C26: Active is absorbing. Once `inSleepMode` is false, no sequence of ticks
sets it true again, whatever the record holds before each tick (temperature,
commanded speed) and whatever the clock reads and the trend buffer are, and no
sequence of operations of the running system (ticks, polls, commands) does
either; every operation, like every call of `calculateTargetSpeed`, that changes
the flag takes it from true (Sleep) to false (Active). -/
theorem active_is_absorbing (s : System) (ops : List Op) (op : Op) (c : Controller)
    (k : FanClock) (fs : List ((SystemStatus → SystemStatus) × FanClock)) :
    (c.fan.inSleepMode = false → (c.ticksAfter fs).fan.inSleepMode = false) ∧
    (s.ctl.fan.inSleepMode = false → (s.run ops).ctl.fan.inSleepMode = false) ∧
    ((s.step op).ctl.fan.inSleepMode ≠ s.ctl.fan.inSleepMode →
      s.ctl.fan.inSleepMode = true ∧ (s.step op).ctl.fan.inSleepMode = false) ∧
    ((c.calculateTargetSpeed k).2.fan.inSleepMode ≠ c.fan.inSleepMode →
      c.fan.inSleepMode = true ∧ (c.calculateTargetSpeed k).2.fan.inSleepMode = false) := by
  refine ⟨ticksAfter_stays_active fs c, run_stays_active ops s, ?_, ?_⟩
  · intro hne
    rcases step_sleepFlag s op with h | h
    · refine ⟨?_, h⟩
      cases hs : s.ctl.fan.inSleepMode
      · rw [h, hs] at hne; exact absurd rfl hne
      · rfl
    · exact absurd h hne
  · intro hne
    rcases calculateTargetSpeed_sleepFlag c k with h | h
    · refine ⟨?_, h⟩
      cases hs : c.fan.inSleepMode
      · rw [h, hs] at hne; exact absurd rfl hne
      · rfl
    · exact absurd h hne

theorem active_is_absorbing_witness :
    (sampleController 20 20 0 false).fan.inSleepMode = false ∧
    ((sampleController 20 20 0 false).ticksAfter
      [(fun st => { st with temperature := 15 }, clockAt 60000),
       (fun st => { st with temperature := 10, currentFanSpeed := 0 }, clockAt 4000000)]
      ).fan.inSleepMode = false ∧
    ((systemAround (sampleController 20 20 0 false)).run
      [.tick (clockAt 60000), .tick (clockAt 4000000)]).ctl.fan.inSleepMode = false :=
  have h := active_is_absorbing (systemAround (sampleController 20 20 0 false))
    [.tick (clockAt 60000), .tick (clockAt 4000000)] (.tick (clockAt 60000))
    (sampleController 20 20 0 false) (clockAt 60000)
    [(fun st => { st with temperature := 15 }, clockAt 60000),
     (fun st => { st with temperature := 10, currentFanSpeed := 0 }, clockAt 4000000)]
  ⟨rfl, h.1 rfl, h.2.1 rfl⟩

/-! ## The first ticks after construction -/

theorem sampleAt_short (xs : List ℚ) (k : Nat) (h : xs.length ≤ k) : sampleAt xs k = 0 := by
  unfold sampleAt
  rw [List.getD_eq_default]
  rw [List.length_reverse]
  exact h

/-- On each of the first five pushes after construction the trend is a fifth of
the pushed sample. -/
theorem first_pushes_trend (now hour : Nat) (xs : List ℚ) (x : ℚ) (h : xs.length < 5) :
    (((FanState.construct now hour).pushAll xs).updateTempHistory x).getTempTrend = x / 5 := by
  rw [← pushAll_snoc, getTempTrend_eq]
  obtain ⟨-, hc⟩ := pushAll_window now hour (xs ++ [x])
  have h0 := hc 0 (by norm_num)
  have h5 := hc 5 (by norm_num)
  rw [Nat.sub_zero] at h0
  rw [Nat.add_sub_cancel, cell6_self] at h5
  rw [h0, h5, sampleAt_push_zero, sampleAt_short _ 5 (by rw [List.length_append]; simp; omega)]
  ring

theorem getCheckInterval_lt (hour : Nat) : getCheckInterval hour < ULONG_SIZE := by
  unfold getCheckInterval ULONG_SIZE
  split_ifs <;> norm_num

/-- The time since the back-dated `lastCheckTime`, `e` milliseconds after construction. -/
theorem usub_backdated (now e i : Nat) (hi : e + i < ULONG_SIZE) :
    usub (now + e) (usub now i) = e + i := by
  unfold usub ULONG_SIZE at *
  omega

/-- The first tick of a freshly constructed controller with 1 < T < 22, when the
activity window is open. -/
theorem first_tick_wakes (c : Controller) (k : FanClock) (now hour : Nat)
    (hc : c.fan = FanState.construct now hour)
    (h1 : 1 < c.status.temperature) (h22 : c.status.temperature < 22)
    (hw : c.fan.windowOpen k.tCheck k.hour) :
    c.trend = c.status.temperature / 5 ∧
    (c.calculateTargetSpeed k).1 = 0.2 ∧
    (c.calculateTargetSpeed k).2.fan.inSleepMode = false := by
  have ht : c.trend = c.status.temperature / 5 := by
    rw [trend_eq, hc]
    show (c.status.temperature - 0) / 5 = _
    rw [sub_zero]
  obtain ⟨hs, -⟩ := calculateTargetSpeed_sleep c k h22
  obtain ⟨g1, g2⟩ := hs (Or.inr hw)
  refine ⟨ht, g1, ?_⟩
  rw [g2, if_pos]
  right
  rw [ht]
  linarith

/-- The activity window is open at the first tick when the check interval read
at the tick is no longer than the one read at construction. -/
theorem first_tick_window (c : Controller) (k : FanClock) (now hour e : Nat)
    (hc : c.fan = FanState.construct now hour) (hk : k.tCheck = now + e)
    (he : e + getCheckInterval hour < ULONG_SIZE)
    (hi : getCheckInterval k.hour ≤ getCheckInterval hour) :
    c.fan.windowOpen k.tCheck k.hour := by
  unfold FanState.windowOpen
  rw [hc, hk]
  show usub (now + e) (usub now (getCheckInterval hour)) ≥ _ ∨ _
  rw [usub_backdated now e _ he]
  left
  omega

/-- C27: on each of the first 5 pushes after construction the trend is a fifth
of the pushed temperature, and a first tick with 1 < T < 22 that finds the
activity window open leaves Sleep and returns the target speed 0.2, whatever
the rate of change; the window is open when the check interval read at the tick
is no longer than the one read at construction. But a controller constructed at
hour 21 (interval 3 minutes) and first ticked one second later at hour 22
(interval 30 minutes) with 20 °C finds the window closed: the trend is 4, the
returned speed is 0 and the machine stays in Sleep with the fan off. -/
theorem first_tick_wakes_unless_interval_grew :
    (∀ (now hour : Nat) (xs : List ℚ) (x : ℚ), xs.length < 5 →
      (((FanState.construct now hour).pushAll xs).updateTempHistory x).getTempTrend = x / 5) ∧
    (∀ (c : Controller) (k : FanClock) (now hour : Nat),
      c.fan = FanState.construct now hour →
      1 < c.status.temperature → c.status.temperature < 22 →
      c.fan.windowOpen k.tCheck k.hour →
      (c.calculateTargetSpeed k).1 = 0.2 ∧
      (c.calculateTargetSpeed k).2.fan.inSleepMode = false) ∧
    (∀ (c : Controller) (k : FanClock) (now hour e : Nat),
      c.fan = FanState.construct now hour → k.tCheck = now + e →
      e + getCheckInterval hour < ULONG_SIZE →
      getCheckInterval k.hour ≤ getCheckInterval hour →
      c.fan.windowOpen k.tCheck k.hour) ∧
    ((firstTickController 0 21 20).status.autoMode = true ∧
      (firstTickController 0 21 20).trend = 4 ∧
      ¬ (firstTickController 0 21 20).fan.windowOpen 1000 22 ∧
      ((firstTickController 0 21 20).calculateTargetSpeed (clockAtHour 1000 22)).1 = 0 ∧
      ((firstTickController 0 21 20).calculateTargetSpeed
        (clockAtHour 1000 22)).2.fan.inSleepMode = true ∧
      ((firstTickController 0 21 20).updateAutomaticMode
        (clockAtHour 1000 22)).status.fanOn = false) := by
  have hnw : ¬ (firstTickController 0 21 20).fan.windowOpen 1000 22 := by
    unfold FanState.windowOpen
    decide
  have hsl := (calculateTargetSpeed_sleep (firstTickController 0 21 20) (clockAtHour 1000 22)
    (by show (20 : ℚ) < 22; norm_num)).2 rfl hnw
  refine ⟨first_pushes_trend, ?_, first_tick_window, rfl, ?_, hnw, hsl.1, hsl.2, ?_⟩
  · intro c k now hour hc h1 h22 hw
    exact (first_tick_wakes c k now hour hc h1 h22 hw).2
  · rw [trend_eq]
    show ((20 : ℚ) - 0) / 5 = 4
    norm_num
  · obtain ⟨-, hact⟩ := updateAutomaticMode_fields (firstTickController 0 21 20)
      (clockAtHour 1000 22) rfl
    rw [hsl.1, if_neg (lt_irrefl 0)] at hact
    exact (actuation_eq hact).1

theorem first_tick_wakes_unless_interval_grew_witness :
    (firstTickController 0 12 20).fan.windowOpen (clockAtHour 1000 12).tCheck
      (clockAtHour 1000 12).hour ∧
    ((firstTickController 0 12 20).calculateTargetSpeed (clockAtHour 1000 12)).1 = 0.2 ∧
    ((firstTickController 0 12 20).calculateTargetSpeed
      (clockAtHour 1000 12)).2.fan.inSleepMode = false :=
  have hw := first_tick_wakes_unless_interval_grew.2.2.1 (firstTickController 0 12 20)
    (clockAtHour 1000 12) 0 12 1000 rfl rfl (by decide) (by decide)
  have h := first_tick_wakes_unless_interval_grew.2.1 (firstTickController 0 12 20)
    (clockAtHour 1000 12) 0 12 rfl
    (by show (1 : ℚ) < 20; norm_num) (by show (20 : ℚ) < 22; norm_num) hw
  ⟨hw, h.1, h.2⟩

/-! ## The stuck check over long runs of one pair -/

theorem inc8_small {n : Nat} (h : n < 255) : inc8 n = n + 1 := by
  unfold inc8; omega

/-- The state behind a `true` from `checkSensorValues`. -/
theorem check_accepted_state (s : SensorState) (t h : ℚ)
    (ha : (s.checkSensorValues t h).1 = .accepted) :
    (s.checkSensorValues t h).2 = s.accept t h := by
  rcases check_cases s t h with ⟨_, e⟩ | ⟨_, _, e⟩ | ⟨_, _, _, e⟩ | ⟨_, _, _, e⟩
  · rw [e] at ha; exact CheckOutcome.noConfusion ha
  · rw [e] at ha; exact CheckOutcome.noConfusion ha
  · rw [e] at ha; exact CheckOutcome.noConfusion ha
  · rw [e]

theorem fresh_repeated_accept (t h : ℚ) (hr : InRange t h) (k : Nat) (hk : k < 5) :
    SensorState.fresh.submitRepeated t h (k + 1)
      = (SensorState.fresh.submitRepeated t h k).accept t h := by
  have he := (fresh_repeated t h hr k hk).1
  have h2 := check_accepted_state (SensorState.fresh.submitRepeated t h k) t h (by rw [he])
  rw [he] at h2
  exact h2

/-- After the first five submissions of one in-range pair every cell of the
spike history holds its temperature. -/
theorem fresh_repeated_history (t h : ℚ) (hr : InRange t h) (k : Nat) (hk : k < 5) :
    ∀ j : Fin 5, j.val ≤ k → (SensorState.fresh.submitRepeated t h (k + 1)).tempHistory j = t := by
  induction k with
  | zero =>
    intro j hj
    have h0 : j = 0 := Fin.ext (Nat.le_zero.mp hj)
    subst h0
    rw [fresh_repeated_accept t h hr 0 hk]
    rfl
  | succ k ih =>
    intro j hj
    have hidx := (fresh_repeated t h hr k (by omega)).2.2.2.2.1
    have ih2 := ih (by omega)
    rw [fresh_repeated_accept t h hr (k + 1) hk]
    show (if j = (SensorState.fresh.submitRepeated t h (k + 1)).tempHistoryIndex then t
      else (SensorState.fresh.submitRepeated t h (k + 1)).tempHistory j) = t
    split_ifs with hji
    · rfl
    · apply ih2
      have hne : j.val ≠ (k + 1) % 5 := by
        intro hv
        apply hji
        apply Fin.ext
        rw [hv, hidx]
      rw [Nat.mod_eq_of_lt hk] at hne
      omega

/-- The filter state while the stuck check keeps rejecting: after `5 + m`
submissions (`m ≤ 251`) the counter stands at `4 + m`. -/
theorem stuck_phase (t h : ℚ) (hr : InRange t h) (m : Nat) (hm : m ≤ 251) :
    (SensorState.fresh.submitRepeated t h (5 + m)).lastTemp = t ∧
    (SensorState.fresh.submitRepeated t h (5 + m)).lastHum = h ∧
    (SensorState.fresh.submitRepeated t h (5 + m)).sameValueCount = 4 + m ∧
    (SensorState.fresh.submitRepeated t h (5 + m)).historyInitialized = true ∧
    ∀ j, (SensorState.fresh.submitRepeated t h (5 + m)).tempHistory j = t := by
  induction m with
  | zero =>
    obtain ⟨-, g1, g2, g3, -, g5⟩ := fresh_repeated t h hr 4 (by norm_num)
    refine ⟨g1, g2, g3, ?_, ?_⟩
    · rw [g5]; decide
    · intro j
      exact fresh_repeated_history t h hr 4 (by norm_num) j (by omega)
  | succ m ih =>
    obtain ⟨g1, g2, g3, g4, g5⟩ := ih (by omega)
    have hc : 5 ≤ inc8 (SensorState.fresh.submitRepeated t h (5 + m)).sameValueCount := by
      rw [g3, inc8_small (by omega)]; omega
    have he : SensorState.fresh.submitRepeated t h (5 + (m + 1))
        = (SensorState.fresh.submitRepeated t h (5 + m)).counted t h := by
      show ((SensorState.fresh.submitRepeated t h (5 + m)).checkSensorValues t h).2 = _
      rw [check_in_range_eq _ t h hr, if_pos ⟨⟨g1.symm, g2.symm⟩, hc⟩]
    rw [he]
    refine ⟨g1, g2, ?_, g4, g5⟩
    show (if t = _ ∧ h = _ then inc8 _ else 0) = 4 + (m + 1)
    rw [if_pos ⟨g1.symm, g2.symm⟩, g3, inc8_small (by omega)]
    omega

/-- Outcomes of a long run of one in-range pair on a fresh filter: submissions
6 to 256 are rejected as stuck, submission 257 is accepted. -/
theorem repeated_outcomes (t h : ℚ) (hr : InRange t h) :
    (∀ n, 6 ≤ n → n ≤ 256 → SensorState.fresh.nthOutcome t h n = .stuck) ∧
    SensorState.fresh.nthOutcome t h 257 = .accepted := by
  constructor
  · intro n h6 h256
    obtain ⟨m, rfl⟩ : ∃ m, n = 5 + m + 1 := ⟨n - 6, by omega⟩
    obtain ⟨g1, g2, g3, -, -⟩ := stuck_phase t h hr m (by omega)
    unfold SensorState.nthOutcome
    rw [Nat.add_sub_cancel]
    apply check_stuck _ t h hr ⟨g1.symm, g2.symm⟩
    rw [g3, inc8_small (by omega)]; omega
  · obtain ⟨g1, g2, g3, g4, g5⟩ := stuck_phase t h hr 251 (le_refl _)
    unfold SensorState.nthOutcome
    show ((SensorState.fresh.submitRepeated t h (5 + 251)).checkSensorValues t h).1 = _
    rw [check_in_range_eq _ t h hr]
    have hc : ¬ 5 ≤ inc8 (SensorState.fresh.submitRepeated t h (5 + 251)).sameValueCount := by
      rw [g3]; decide
    rw [if_neg (fun hx => hc hx.2)]
    have hsp : ¬ (SensorState.fresh.submitRepeated t h (5 + 251)).isTemperatureSpike t = true := by
      rw [isTemperatureSpike_iff, avgTemp_eq, g5, g5, g5, g5, g5]
      intro hx
      have : t - (t + t + t + t + t) / 5 = 0 := by ring
      rw [this, abs_zero] at hx
      exact absurd hx.2 (by norm_num)
    rw [if_neg hsp]

/-- C28: on a fresh filter, consecutive submissions of one in-range pair are
rejected as stuck from the 6th to the 256th, but the 257th is accepted: the
8-bit same-value counter has wrapped from 255 to 0, so the rejections do not
continue for any number of repetitions. -/
theorem stuck_rejection_lapses_at_257 (t h : ℚ) (hr : InRange t h) :
    (∀ n, 6 ≤ n → n ≤ 256 → (SensorState.fresh.nthOutcome t h n).ok = false) ∧
    (SensorState.fresh.submitRepeated t h 256).sameValueCount = 255 ∧
    inc8 (SensorState.fresh.submitRepeated t h 256).sameValueCount = 0 ∧
    SensorState.fresh.nthOutcome t h 257 = .accepted ∧
    (SensorState.fresh.nthOutcome t h 257).ok = true := by
  obtain ⟨h1, h2⟩ := repeated_outcomes t h hr
  have h3 : (SensorState.fresh.submitRepeated t h (5 + 251)).sameValueCount = 4 + 251 :=
    (stuck_phase t h hr 251 (le_refl _)).2.2.1
  refine ⟨?_, h3, ?_, h2, ?_⟩
  · intro n h6 h256
    rw [h1 n h6 h256]; rfl
  · show inc8 (SensorState.fresh.submitRepeated t h (5 + 251)).sameValueCount = 0
    rw [h3]; decide
  · rw [h2]; rfl

theorem stuck_rejection_lapses_at_257_witness :
    InRange 20 50 ∧ (SensorState.fresh.nthOutcome 20 50 256).ok = false ∧
    (SensorState.fresh.nthOutcome 20 50 257).ok = true :=
  ⟨by decide,
   (stuck_rejection_lapses_at_257 20 50 (by decide)).1 256 (by norm_num) (by norm_num),
   (stuck_rejection_lapses_at_257 20 50 (by decide)).2.2.2.2⟩

/-! ## Spike rejections against a fixed history -/

/-- A wrapped history rejects every in-range reading further than 5 from its
mean, and only the same-value counter changes. -/
theorem check_rejects_far (s : SensorState) (t h : ℚ) (hi : s.historyInitialized = true)
    (hr : InRange t h) (hfar : |t - s.avgTemp| > 5) :
    (s.checkSensorValues t h).1.ok = false ∧
    ((s.checkSensorValues t h).1 = .stuck ∨ (s.checkSensorValues t h).1 = .spike) ∧
    (s.checkSensorValues t h).2 = s.counted t h := by
  rcases check_cases s t h with ⟨ho, _⟩ | ⟨_, _, e⟩ | ⟨_, _, _, e⟩ | ⟨_, _, hn, _⟩
  · obtain ⟨r1, r2, r3, r4⟩ := hr
    simp only [SensorManager.MIN_VALID_TEMP, SensorManager.MAX_VALID_TEMP,
      SensorManager.MIN_VALID_HUM, SensorManager.MAX_VALID_HUM] at r1 r2 r3 r4
    rcases ho with ho | ho | ho | ho
    · exact absurd r1 (not_le.mpr ho)
    · exact absurd r2 (not_le.mpr ho)
    · exact absurd r3 (not_le.mpr ho)
    · exact absurd r4 (not_le.mpr ho)
  · rw [e]; exact ⟨rfl, Or.inl rfl, rfl⟩
  · rw [e]; exact ⟨rfl, Or.inr rfl, rfl⟩
  · exact absurd ⟨hi, hfar⟩ hn

/-- What a spike rejection leaves behind. -/
theorem check_spike_state (s : SensorState) (t h : ℚ)
    (hs : (s.checkSensorValues t h).1 = .spike) :
    (s.checkSensorValues t h).2 = s.counted t h := by
  rcases check_cases s t h with ⟨_, e⟩ | ⟨_, _, e⟩ | ⟨_, _, _, e⟩ | ⟨_, _, _, e⟩
  · rw [e] at hs; exact CheckOutcome.noConfusion hs
  · rw [e] at hs; exact CheckOutcome.noConfusion hs
  · rw [e]
  · rw [e] at hs; exact CheckOutcome.noConfusion hs

theorem submitAll_far (rs : List (ℚ × ℚ)) :
    ∀ s : SensorState, s.historyInitialized = true →
      (∀ r ∈ rs, InRange r.1 r.2 ∧ |r.1 - s.avgTemp| > 5) →
      s.acceptedCount rs = 0 ∧
      (s.submitAll rs).tempHistory = s.tempHistory ∧
      (s.submitAll rs).tempHistoryIndex = s.tempHistoryIndex ∧
      (s.submitAll rs).historyInitialized = true ∧
      (s.submitAll rs).lastTemp = s.lastTemp ∧
      (s.submitAll rs).lastHum = s.lastHum := by
  induction rs with
  | nil => intro s hi _; exact ⟨rfl, rfl, rfl, hi, rfl, rfl⟩
  | cons r rs ih =>
    intro s hi hall
    obtain ⟨hr, hfar⟩ := hall r (List.mem_cons_self _ _)
    obtain ⟨hok, -, hst⟩ := check_rejects_far s r.1 r.2 hi hr hfar
    have ih2 := ih (s.counted r.1 r.2) hi
      (fun x hx => hall x (List.mem_cons_of_mem _ hx))
    unfold SensorState.acceptedCount SensorState.submitAll
    rw [hok, hst]
    obtain ⟨a1, a2, a3, a4, a5, a6⟩ := ih2
    refine ⟨?_, a2, a3, a4, a5, a6⟩
    rw [a1]; rfl

/-- A poll that offers a reading further than 5 from the mean of a wrapped
history does not reach the record. -/
theorem update_far (s : System) (p : PollInput) (hi : s.sensor.historyInitialized = true)
    (hfar : ∀ t h, p.reading = some (t, h) → InRange t h ∧ |t - s.sensor.avgTemp| > 5) :
    (s.update p).1 ≠ .success ∧
    (s.update p).2.ctl.status.temperature = s.ctl.status.temperature ∧
    (s.update p).2.sensor.historyInitialized = true ∧
    (s.update p).2.sensor.tempHistory = s.sensor.tempHistory := by
  unfold System.update
  by_cases hdue : usub p.now s.sensor.lastUpdate < s.getSensorInterval p.hour
  · rw [if_pos hdue]
    exact ⟨fun hx => PollResult.noConfusion hx, rfl, hi, rfl⟩
  · rw [if_neg hdue]
    split
    · next t h hread =>
      obtain ⟨hr, hf⟩ := hfar t h hread
      obtain ⟨hok, -, hst⟩ := check_rejects_far
        { s.sensor with lastUpdate := p.now % ULONG_SIZE } t h hi hr hf
      simp only [hok, Bool.false_eq_true, if_false]
      refine ⟨fun hx => PollResult.noConfusion hx, ?_, ?_, ?_⟩
      · exact (sensed_eq (updateErrorState_fields _ false).1).1
      · rw [(updateErrorState_false _).2.2.2.2, hst]; exact hi
      · rw [(updateErrorState_false _).2.2.2.2, hst]; rfl
    · refine ⟨fun hx => PollResult.noConfusion hx, ?_, ?_, ?_⟩
      · exact (sensed_eq (updateErrorState_fields _ false).1).1
      · rw [(updateErrorState_false _).2.2.2.2]; exact hi
      · rw [(updateErrorState_false _).2.2.2.2]

theorem pollAll_far (ps : List PollInput) :
    ∀ s : System, s.sensor.historyInitialized = true →
      (∀ p ∈ ps, ∀ t h, p.reading = some (t, h) → InRange t h ∧ |t - s.sensor.avgTemp| > 5) →
      (s.pollAll ps).ctl.status.temperature = s.ctl.status.temperature ∧
      (s.pollAll ps).sensor.tempHistory = s.sensor.tempHistory := by
  induction ps with
  | nil => intro s _ _; exact ⟨rfl, rfl⟩
  | cons p ps ih =>
    intro s hi hall
    obtain ⟨-, h1, h2, h3⟩ := update_far s p hi (hall p (List.mem_cons_self _ _))
    have havg : (s.update p).2.sensor.avgTemp = s.sensor.avgTemp := by
      rw [avgTemp_eq, avgTemp_eq, h3]
    have ih2 := ih (s.update p).2 h2 (by
      intro q hq t h hread
      rw [havg]
      exact hall q (List.mem_cons_of_mem _ hq) t h hread)
    unfold System.pollAll
    rw [ih2.1, ih2.2, h1, h3]
    exact ⟨rfl, rfl⟩

theorem wrappedSensor_facts :
    wrappedSensor.historyInitialized = true ∧ wrappedSensor.avgTemp = 20 := by
  have hc : ∀ i : Fin 5, wrappedSensor.tempHistory i = 20 := by decide
  refine ⟨by decide, ?_⟩
  rw [avgTemp_eq, hc, hc, hc, hc, hc]
  norm_num

theorem far_from_20 {t : ℚ} (h : 25 < t) : |t - wrappedSensor.avgTemp| > 5 := by
  rw [wrappedSensor_facts.2, abs_of_pos (by linarith)]
  linarith

/-- C29: a reading rejected as a spike leaves the spike history buffer, its
cursor, its wrapped flag and the last-accepted pair unchanged. Therefore, for
every wrapped history with mean m, every sequence of in-range readings whose
temperatures all differ from m by more than 5, however long, has no accepted
reading and leaves buffer, cursor and last-accepted pair as they were, and a
sequence of polls that offer only such readings never updates the record's
temperature. -/
theorem spike_rejections_persist (s : SensorState) (t h : ℚ) (rs : List (ℚ × ℚ))
    (sys : System) (ps : List PollInput) :
    ((s.checkSensorValues t h).1 = .spike →
      (s.checkSensorValues t h).2.tempHistory = s.tempHistory ∧
      (s.checkSensorValues t h).2.tempHistoryIndex = s.tempHistoryIndex ∧
      (s.checkSensorValues t h).2.historyInitialized = s.historyInitialized ∧
      (s.checkSensorValues t h).2.lastTemp = s.lastTemp ∧
      (s.checkSensorValues t h).2.lastHum = s.lastHum) ∧
    (s.historyInitialized = true →
      (∀ r ∈ rs, InRange r.1 r.2 ∧ |r.1 - s.avgTemp| > 5) →
      s.acceptedCount rs = 0 ∧
      (s.submitAll rs).tempHistory = s.tempHistory ∧
      (s.submitAll rs).tempHistoryIndex = s.tempHistoryIndex ∧
      (s.submitAll rs).lastTemp = s.lastTemp ∧
      (s.submitAll rs).lastHum = s.lastHum) ∧
    (sys.sensor.historyInitialized = true →
      (∀ p ∈ ps, ∀ t h, p.reading = some (t, h) →
        InRange t h ∧ |t - sys.sensor.avgTemp| > 5) →
      (sys.pollAll ps).ctl.status.temperature = sys.ctl.status.temperature ∧
      (sys.pollAll ps).sensor.tempHistory = sys.sensor.tempHistory) := by
  refine ⟨?_, ?_, pollAll_far ps sys⟩
  · intro hs
    rw [check_spike_state s t h hs]
    exact ⟨rfl, rfl, rfl, rfl, rfl⟩
  · intro hi hall
    obtain ⟨a1, a2, a3, -, a5, a6⟩ := submitAll_far rs s hi hall
    exact ⟨a1, a2, a3, a5, a6⟩

theorem spike_rejections_persist_witness :
    wrappedSensor.historyInitialized = true ∧
    wrappedSensor.acceptedCount [(30, 40), (30, 40), (31, 41)] = 0 ∧
    (wrappedSystem.pollAll [goodPoll 20000 30 40, goodPoll 40000 31 41]).ctl.status.temperature
      = wrappedSystem.ctl.status.temperature := by
  have h := spike_rejections_persist wrappedSensor 30 40 [(30, 40), (30, 40), (31, 41)]
    wrappedSystem [goodPoll 20000 30 40, goodPoll 40000 31 41]
  refine ⟨wrappedSensor_facts.1, (h.2.1 wrappedSensor_facts.1 ?_).1,
    (h.2.2 wrappedSensor_facts.1 ?_).1⟩
  · intro r hr
    simp only [List.mem_cons, List.mem_singleton, List.not_mem_nil, or_false] at hr
    rcases hr with rfl | rfl | rfl
    · exact ⟨by decide, far_from_20 (by norm_num)⟩
    · exact ⟨by decide, far_from_20 (by norm_num)⟩
    · exact ⟨by decide, far_from_20 (by norm_num)⟩
  · intro p hp t h hread
    simp only [List.mem_cons, List.mem_singleton, List.not_mem_nil, or_false] at hp
    rcases hp with rfl | rfl
    · have he : ((30 : ℚ), (40 : ℚ)) = (t, h) := Option.some.inj hread
      obtain ⟨rfl, rfl⟩ := Prod.mk.inj he
      exact ⟨by decide, far_from_20 (by norm_num)⟩
    · have he : ((31 : ℚ), (41 : ℚ)) = (t, h) := Option.some.inj hread
      obtain ⟨rfl, rfl⟩ := Prod.mk.inj he
      exact ⟨by decide, far_from_20 (by norm_num)⟩

/-! ## A fan that is off has duty 0 -/

theorem offMeansZero_of_actuation {a b : SystemStatus} (h : b.actuation = a.actuation) :
    a.OffMeansZero → b.OffMeansZero := by
  intro ha hb
  have hon : b.fanOn = a.fanOn := congrArg (fun x => x.1) h
  have hcur : b.currentFanSpeed = a.currentFanSpeed := congrArg (fun x => x.2.1) h
  rw [hcur]
  exact ha (by rw [← hon]; exact hb)

theorem toggleFan_offMeansZero (c : Controller) (b : Bool) :
    (c.toggleFan b).status.OffMeansZero := by
  intro hoff
  obtain ⟨hon, hcur, -⟩ := actuation_eq (toggleFan_fields c b).2
  rw [hon] at hoff
  rw [hcur, hoff]
  rfl

/-- A call of `setFanSpeed` with the fan on, or with speed 0, keeps the invariant. -/
theorem setFanSpeed_offMeansZero (c : Controller) (v : ℚ)
    (h : c.status.fanOn = true ∨ v = 0) : (c.setFanSpeed v).status.OffMeansZero := by
  intro hoff
  obtain ⟨hon, hcur, -⟩ := actuation_eq (setFanSpeed_fields c v).2
  rcases h with h | h
  · rw [hon, h] at hoff; exact Bool.noConfusion hoff
  · rw [hcur, h]; exact constrain_zero

theorem updateAutomaticMode_offMeansZero (c : Controller) (k : FanClock)
    (h : c.status.OffMeansZero) : (c.updateAutomaticMode k).status.OffMeansZero := by
  cases ha : c.status.autoMode
  · rw [updateAutomaticMode_manual c k ha]; exact h
  · obtain ⟨-, hact⟩ := updateAutomaticMode_fields c k ha
    intro hoff
    by_cases ht : (c.calculateTargetSpeed k).1 > 0
    · rw [if_pos ht] at hact
      rw [(actuation_eq hact).1] at hoff
      exact Bool.noConfusion hoff
    · rw [if_neg ht] at hact
      rw [(actuation_eq hact).2.1]
      cases hf : c.status.fanOn
      · simp only [Bool.false_eq_true, if_false]; exact h hf
      · simp only [if_true]

theorem handleToggleFan_offMeansZero (c : Controller) (r : Request)
    (h : c.status.OffMeansZero) : (c.handleToggleFan r).2.status.OffMeansZero := by
  unfold Controller.handleToggleFan
  split_ifs with h1 h2
  · exact h
  · exact h
  · simp only []
    split_ifs with h3
    · exact setFanSpeed_offMeansZero _ _ (Or.inl h3)
    · exact setFanSpeed_offMeansZero _ _ (Or.inr rfl)

theorem setAutoMode_actuation (st : SystemStatus) (b : Bool) :
    (st.setAutoMode b).actuation = st.actuation := by
  cases b <;> rfl

theorem handleSetAutoMode_offMeansZero (c : Controller) (r : Request)
    (h : c.status.OffMeansZero) : (c.handleSetAutoMode r).2.status.OffMeansZero := by
  unfold Controller.handleSetAutoMode
  split_ifs with h1
  · exact h
  · split
    · exact h
    · next mode hm =>
      simp only []
      have t1 : (c.status.setAutoMode (mode == "1" || mode.toLower == "true")).OffMeansZero :=
        offMeansZero_of_actuation (setAutoMode_actuation _ _) h
      split_ifs with h2 h3
      · exact updateAutomaticMode_offMeansZero
          { c with status := c.status.setAutoMode (mode == "1" || mode.toLower == "true") }
          r.clock t1
      · exact setFanSpeed_offMeansZero _ _ (Or.inl h3)
      · exact t1

theorem handleSetFanSpeed_offMeansZero (c : Controller) (r : Request)
    (h : c.status.OffMeansZero) : (c.handleSetFanSpeed r).2.status.OffMeansZero := by
  unfold Controller.handleSetFanSpeed
  split_ifs with h1 h2
  · exact h
  · exact h
  · split
    · exact h
    · exact h
    · next speed hsp =>
      split_ifs with h3
      · exact h
      · simp only []
        split_ifs with h4
        · exact setFanSpeed_offMeansZero _ _ (Or.inl h4)
        · exact h

theorem handleResetTemperature_offMeansZero (c : Controller) (r : Request)
    (h : c.status.OffMeansZero) : (c.handleResetTemperature r).2.status.OffMeansZero := by
  unfold Controller.handleResetTemperature
  split_ifs <;> exact h

theorem update_offMeansZero (s : System) (p : PollInput) (h : s.ctl.status.OffMeansZero) :
    (s.update p).2.ctl.status.OffMeansZero := by
  rcases update_cases s p with ⟨_, h2⟩ | hf | ⟨t, hum, sens, _, _, _, he⟩
  · rw [h2]; exact h
  · exact offMeansZero_of_actuation (update_fail_sensed s p hf).2 h
  · rw [he, commitReading_eq]
    apply offMeansZero_of_actuation (updateErrorState_fields _ true).2
    apply offMeansZero_of_actuation (updateHeatCalculation_fields _ _ _).1
    apply offMeansZero_of_actuation (updateOperatingStats_fields _).2
    apply updateAutomaticMode_offMeansZero
    exact offMeansZero_of_actuation (recorded_fields { s with sensor := sens } p t hum).1 h

theorem step_offMeansZero (s : System) (op : Op) (hv : op.viaCommands)
    (hS : s.ctl.status.Stable) (h : s.ctl.status.OffMeansZero) :
    (s.step op).ctl.status.OffMeansZero := by
  cases op with
  | poll p => exact update_offMeansZero s p h
  | tick k => exact updateAutomaticMode_offMeansZero s.ctl k h
  | setFanSpeed v => exact absurd hv id
  | toggleFan b => exact toggleFan_offMeansZero s.ctl b
  | httpToggleFan r => exact handleToggleFan_offMeansZero s.ctl r h
  | httpSetAutoMode r => exact handleSetAutoMode_offMeansZero s.ctl r h
  | httpSetFanSpeed r => exact handleSetFanSpeed_offMeansZero s.ctl r h
  | httpResetTemperature r => exact handleResetTemperature_offMeansZero s.ctl r h
  | setAutoMode b => exact offMeansZero_of_actuation (setAutoMode_actuation _ _) h
  | resetMinMaxTemperature => exact h
  | updateHeatCalculation a b =>
    exact offMeansZero_of_actuation (updateHeatCalculation_fields s.ctl.status a b).1 h
  | heatUpdate k => exact offMeansZero_of_actuation (heatUpdate_fields s.ctl.status k).2 h
  | heatInitialize init =>
    have he : HeatCalculator.initializeCalculator init s.ctl.status = s.ctl.status := by
      unfold HeatCalculator.initializeCalculator
      rw [hS.1]; rfl
    show (HeatCalculator.initializeCalculator init s.ctl.status).OffMeansZero
    rw [he]
    exact h

theorem run_offMeansZero (ops : List Op) :
    ∀ s : System, (∀ op ∈ ops, op.viaCommands) → s.ctl.status.Stable →
      s.ctl.status.OffMeansZero → (s.run ops).ctl.status.OffMeansZero := by
  induction ops with
  | nil => intro s _ _ h; exact h
  | cons op ops ih =>
    intro s hv hS h
    exact ih (s.step op) (fun x hx => hv x (List.mem_cons_of_mem _ hx))
      (step_invariants s op hS).1
      (step_offMeansZero s op (hv op (List.mem_cons_self _ _)) hS h)

/-- C30: in every state reached from power-up through polls, automatic-mode
ticks, `toggleFan`, the commands (toggle-fan, set-mode, set-manual-duty,
reset-extremes) and the record's own updates, with `setFanSpeed` running only as
those call it, a fan that is off has `currentFanSpeed = 0`. A bare call of
`setFanSpeed` on the powered-up controller, by contrast, leaves the fan off at
duty 1/2. -/
theorem off_fan_has_zero_duty (now hour : Nat) (ops : List Op)
    (hv : ∀ op ∈ ops, op.viaCommands) :
    (((System.boot now hour).run ops).ctl.status.fanOn = false →
      ((System.boot now hour).run ops).ctl.status.currentFanSpeed = 0) ∧
    (((System.boot now hour).step (.setFanSpeed (1/2))).ctl.status.fanOn = false ∧
      ((System.boot now hour).step (.setFanSpeed (1/2))).ctl.status.currentFanSpeed = 1/2) := by
  constructor
  · exact run_offMeansZero ops (System.boot now hour) hv (boot_invariants now hour).1
      (fun _ => rfl)
  · obtain ⟨hon, hcur, -⟩ := actuation_eq (setFanSpeed_fields (System.boot now hour).ctl (1/2)).2
    constructor
    · show ((System.boot now hour).ctl.setFanSpeed (1/2)).status.fanOn = false
      rw [hon]; rfl
    · show ((System.boot now hour).ctl.setFanSpeed (1/2)).status.currentFanSpeed = 1/2
      rw [hcur]
      exact constrain_id (by norm_num) (by norm_num)

theorem off_fan_has_zero_duty_witness :
    (∀ op ∈ [Op.toggleFan true, Op.httpSetFanSpeed (speedRequest (1/2)), Op.toggleFan false],
      op.viaCommands) ∧
    ((System.boot 0 12).run
        [Op.toggleFan true, Op.httpSetFanSpeed (speedRequest (1/2)), Op.toggleFan false]
      ).ctl.status.fanOn = false ∧
    ((System.boot 0 12).run
        [Op.toggleFan true, Op.httpSetFanSpeed (speedRequest (1/2)), Op.toggleFan false]
      ).ctl.status.currentFanSpeed = 0 := by
  have hv : ∀ op ∈ [Op.toggleFan true, Op.httpSetFanSpeed (speedRequest (1/2)),
      Op.toggleFan false], op.viaCommands := by
    intro op hop
    simp only [List.mem_cons, List.mem_singleton, List.not_mem_nil, or_false] at hop
    rcases hop with rfl | rfl | rfl <;> exact trivial
  have hoff : ((System.boot 0 12).run
      [Op.toggleFan true, Op.httpSetFanSpeed (speedRequest (1/2)), Op.toggleFan false]
      ).ctl.status.fanOn = false :=
    (actuation_eq (toggleFan_fields
      (((System.boot 0 12).step (Op.toggleFan true)).step
        (Op.httpSetFanSpeed (speedRequest (1/2)))).ctl false).2).1
  exact ⟨hv, hoff, (off_fan_has_zero_duty 0 12 _ hv).1 hoff⟩

end ThermalFan
